import Mathlib

/-!
# Shell-integration protocol of deepin-kwayland

A shallow embedding of the state-synchronisation logic of the dde-shell and
client-management protocol extensions:

* `src/server/ddeshell_interface.cpp`       (namespace `KWaylandServer`)
* `src/server/clientmanagement_interface.cpp` (namespace `KWaylandServer`)
* `src/client/ddeshell.cpp`                 (namespace `KWayland.Client`)
* `src/client/clientmanagement.cpp`         (namespace `KWayland.Client`)

Stateful C++ objects become records; every member function becomes a function
from the record to the record.  What an object sends over the wire or emits as
a Qt signal is appended to a log kept inside the record (oldest entry first),
so that "emits exactly one event" is a statement about that log.

`quint32` / `uint32_t` values are natural numbers below `2 ^ 32`; the C++ `int`
coordinates of a rectangle are integers.
-/

/-- Modelled from the spec: the Qt rectangle type `QRect` is used by the sources
but is not part of them.  A rectangle `(x, y, w, h)` is kept, as Qt keeps it, by
its inclusive corners `x1 = x`, `y1 = y`, `x2 = x + w - 1`, `y2 = y + h - 1`;
it is valid when neither width nor height is `≤ 0`. -/
structure QRect where
  x1 : Int
  y1 : Int
  x2 : Int
  y2 : Int
deriving DecidableEq, Repr

namespace QRect

/-- The default-constructed rectangle `QRect()`: the null rectangle. -/
def null : QRect := ⟨0, 0, -1, -1⟩

/-- The constructor `QRect(x, y, width, height)`. -/
def ofXYWH (x y w h : Int) : QRect := ⟨x, y, x + w - 1, y + h - 1⟩

/-- The accessor `QRect::x()`. -/
def x (r : QRect) : Int := r.x1

/-- The accessor `QRect::y()`. -/
def y (r : QRect) : Int := r.y1

/-- The accessor `QRect::width()`. -/
def width (r : QRect) : Int := r.x2 - r.x1 + 1

/-- The accessor `QRect::height()`. -/
def height (r : QRect) : Int := r.y2 - r.y1 + 1

/-- The predicate `QRect::isValid()`: `x1 <= x2 && y1 <= y2`. -/
def isValid (r : QRect) : Bool := decide (r.x1 ≤ r.x2) && decide (r.y1 ≤ r.y2)

end QRect

namespace KWaylandServer

/-- The enumerators of the protocol enumeration `dde_shell_state`.  They come
from the header generated from the protocol description, which is not part of
the sources, so the functions below take them as a parameter. -/
structure dde_shell_state where
  ACTIVE : Nat
  MINIMIZED : Nat
  MAXIMIZED : Nat
  FULLSCREEN : Nat
  KEEP_ABOVE : Nat
  KEEP_BELOW : Nat
  ON_ALL_DESKTOPS : Nat
  CLOSEABLE : Nat
  MINIMIZABLE : Nat
  MAXIMIZABLE : Nat
  FULLSCREENABLE : Nat
  MOVABLE : Nat
  RESIZABLE : Nat
  ACCEPT_FOCUS : Nat
  MODALITY : Nat
  NO_SPLIT : Nat
  TWO_SPLIT : Nat
  FOUR_SPLIT : Nat
deriving DecidableEq, Repr

/-- Modelled from the spec: the values of the `dde_shell_state` enumerators are
missing from the sources; the spec describes the state as a bitmask of boolean
flags followed by the three split flags, so each enumerator is taken to be its
own single bit, numbered in the order in which the server tests them. -/
def DDE_SHELL_STATE : dde_shell_state where
  ACTIVE := 2 ^ 0
  MINIMIZED := 2 ^ 1
  MAXIMIZED := 2 ^ 2
  FULLSCREEN := 2 ^ 3
  KEEP_ABOVE := 2 ^ 4
  KEEP_BELOW := 2 ^ 5
  ON_ALL_DESKTOPS := 2 ^ 6
  CLOSEABLE := 2 ^ 7
  MINIMIZABLE := 2 ^ 8
  MAXIMIZABLE := 2 ^ 9
  FULLSCREENABLE := 2 ^ 10
  MOVABLE := 2 ^ 11
  RESIZABLE := 2 ^ 12
  ACCEPT_FOCUS := 2 ^ 13
  MODALITY := 2 ^ 14
  NO_SPLIT := 2 ^ 15
  TWO_SPLIT := 2 ^ 16
  FOUR_SPLIT := 2 ^ 17

/-- The three split enumerators are distinct single bits of a 32-bit word, the
bits `a`, `b` and `c`. -/
def dde_shell_state.SplitFlagsAreBits (E : dde_shell_state) (a b c : Nat) : Prop :=
  E.NO_SPLIT = 2 ^ a ∧ E.TWO_SPLIT = 2 ^ b ∧ E.FOUR_SPLIT = 2 ^ c
    ∧ a < 32 ∧ b < 32 ∧ c < 32 ∧ a ≠ b ∧ a ≠ c ∧ b ≠ c

/-- The 32-bit complement `~x` of a `quint32` operand. -/
def not32 (x : Nat) : Nat := (2 ^ 32 - 1) ^^^ x

/-- The events of the `dde_shell_surface` protocol object (server to client).
`geometry` is sent only for valid rectangles, whose width and height are
positive, so the conversion of the two to `uint32_t` keeps their value. -/
inductive ShellSurfaceEvent where
  | geometry (x y width height : Int)
  | state_changed (state : Nat)
deriving DecidableEq, Repr

/-- The Qt signals of `DDEShellSurfaceInterface`: notices relayed upward to the
compositor. -/
inductive ShellSurfaceSignal where
  | activationRequested
  | activeRequested (set : Bool)
  | minimizedRequested (set : Bool)
  | maximizedRequested (set : Bool)
  | fullscreenRequested (set : Bool)
  | keepAboveRequested (set : Bool)
  | keepBelowRequested (set : Bool)
  | onAllDesktopsRequested (set : Bool)
  | closeableRequested (set : Bool)
  | minimizeableRequested (set : Bool)
  | maximizeableRequested (set : Bool)
  | fullscreenableRequested (set : Bool)
  | movableRequested (set : Bool)
  | resizableRequested (set : Bool)
  | acceptFocusRequested (set : Bool)
  | modalityRequested (set : Bool)
  | noTitleBarPropertyRequested (value : Int)
  | windowRadiusPropertyRequested (x y : Nat)
  | splitWindowRequested (splitType mode : Int)
deriving DecidableEq, Repr

/-- The class `DDEShellSurfaceInterfacePrivate`: the stored state word and
geometry of one shell surface, with the log of the events sent on its resource
(`sent`) and of the signals emitted by its public object (`emitted`). -/
structure DDEShellSurfaceInterfacePrivate where
  m_state : Nat := 0
  m_geometry : QRect := QRect.null
  sent : List ShellSurfaceEvent := []
  emitted : List ShellSurfaceSignal := []
deriving DecidableEq, Repr

namespace DDEShellSurfaceInterfacePrivate

/-- A freshly constructed shell surface: `m_state = 0`, null geometry. -/
def fresh : DDEShellSurfaceInterfacePrivate := {}

/-- The call `send_state_changed(state)`. -/
def send_state_changed (state : Nat) (d : DDEShellSurfaceInterfacePrivate) :
    DDEShellSurfaceInterfacePrivate :=
  { d with sent := d.sent ++ [ShellSurfaceEvent.state_changed state] }

/-- The call `send_geometry(x, y, width, height)`. -/
def send_geometry (x y width height : Int) (d : DDEShellSurfaceInterfacePrivate) :
    DDEShellSurfaceInterfacePrivate :=
  { d with sent := d.sent ++ [ShellSurfaceEvent.geometry x y width height] }

/-- The member `DDEShellSurfaceInterfacePrivate::setState(flag, set)`. -/
def setState (flag : Nat) (set : Bool) (d : DDEShellSurfaceInterfacePrivate) :
    DDEShellSurfaceInterfacePrivate :=
  let newState := if set then d.m_state ||| flag else d.m_state &&& not32 flag
  if newState = d.m_state then d
  else send_state_changed newState { d with m_state := newState }

/-- The member `DDEShellSurfaceInterfacePrivate::sendGeometry(geometry)`. -/
def sendGeometry (geometry : QRect) (d : DDEShellSurfaceInterfacePrivate) :
    DDEShellSurfaceInterfacePrivate :=
  if d.m_geometry = geometry then d
  else
    let d1 := { d with m_geometry := geometry }
    if !d1.m_geometry.isValid then d1
    else send_geometry d1.m_geometry.x d1.m_geometry.y d1.m_geometry.width d1.m_geometry.height d1

/-- The request `get_geometry`.  The class declares overrides for the resource
destructor and for `request_active`, `set_state` and `set_property` only, so a
`get_geometry` request is dispatched to the handler inherited from the
generated base class, whose body is empty. -/
def dde_shell_surface_get_geometry (d : DDEShellSurfaceInterfacePrivate) :
    DDEShellSurfaceInterfacePrivate := d

/-- The request handler `dde_shell_surface_request_active`. -/
def dde_shell_surface_request_active (d : DDEShellSurfaceInterfacePrivate) :
    DDEShellSurfaceInterfacePrivate :=
  { d with emitted := d.emitted ++ [ShellSurfaceSignal.activationRequested] }

/-- One clause `if (flags & F) { Q_EMIT q->notice(state & F); }` of the
`set_state` handler. -/
def requestIf (flags state flag : Nat) (notice : Bool → ShellSurfaceSignal)
    (d : DDEShellSurfaceInterfacePrivate) : DDEShellSurfaceInterfacePrivate :=
  if flags &&& flag ≠ 0 then { d with emitted := d.emitted ++ [notice (state &&& flag != 0)] }
  else d

/-- The request handler `dde_shell_surface_set_state(resource, flags, state)`. -/
def dde_shell_surface_set_state (E : dde_shell_state) (flags state : Nat)
    (d : DDEShellSurfaceInterfacePrivate) : DDEShellSurfaceInterfacePrivate :=
  d
  |> requestIf flags state E.ACTIVE ShellSurfaceSignal.activeRequested
  |> requestIf flags state E.MINIMIZED ShellSurfaceSignal.minimizedRequested
  |> requestIf flags state E.MAXIMIZED ShellSurfaceSignal.maximizedRequested
  |> requestIf flags state E.FULLSCREEN ShellSurfaceSignal.fullscreenRequested
  |> requestIf flags state E.KEEP_ABOVE ShellSurfaceSignal.keepAboveRequested
  |> requestIf flags state E.KEEP_BELOW ShellSurfaceSignal.keepBelowRequested
  |> requestIf flags state E.ON_ALL_DESKTOPS ShellSurfaceSignal.onAllDesktopsRequested
  |> requestIf flags state E.CLOSEABLE ShellSurfaceSignal.closeableRequested
  |> requestIf flags state E.MINIMIZABLE ShellSurfaceSignal.minimizeableRequested
  |> requestIf flags state E.MAXIMIZABLE ShellSurfaceSignal.maximizeableRequested
  |> requestIf flags state E.FULLSCREENABLE ShellSurfaceSignal.fullscreenableRequested
  |> requestIf flags state E.MOVABLE ShellSurfaceSignal.movableRequested
  |> requestIf flags state E.RESIZABLE ShellSurfaceSignal.resizableRequested
  |> requestIf flags state E.ACCEPT_FOCUS ShellSurfaceSignal.acceptFocusRequested
  |> requestIf flags state E.MODALITY ShellSurfaceSignal.modalityRequested

/-- The notices the `set_state` request relays upward, as the spec words it:
for each flag in turn, that flag's requested notice with argument
`(state & F) != 0`, exactly when the flag is selected by the mask. -/
def requestedNotices (E : dde_shell_state) (flags state : Nat) : List ShellSurfaceSignal :=
  ([(E.ACTIVE, ShellSurfaceSignal.activeRequested),
    (E.MINIMIZED, ShellSurfaceSignal.minimizedRequested),
    (E.MAXIMIZED, ShellSurfaceSignal.maximizedRequested),
    (E.FULLSCREEN, ShellSurfaceSignal.fullscreenRequested),
    (E.KEEP_ABOVE, ShellSurfaceSignal.keepAboveRequested),
    (E.KEEP_BELOW, ShellSurfaceSignal.keepBelowRequested),
    (E.ON_ALL_DESKTOPS, ShellSurfaceSignal.onAllDesktopsRequested),
    (E.CLOSEABLE, ShellSurfaceSignal.closeableRequested),
    (E.MINIMIZABLE, ShellSurfaceSignal.minimizeableRequested),
    (E.MAXIMIZABLE, ShellSurfaceSignal.maximizeableRequested),
    (E.FULLSCREENABLE, ShellSurfaceSignal.fullscreenableRequested),
    (E.MOVABLE, ShellSurfaceSignal.movableRequested),
    (E.RESIZABLE, ShellSurfaceSignal.resizableRequested),
    (E.ACCEPT_FOCUS, ShellSurfaceSignal.acceptFocusRequested),
    (E.MODALITY, ShellSurfaceSignal.modalityRequested)] :
      List (Nat × (Bool → ShellSurfaceSignal))).flatMap
    (fun fn => if flags &&& fn.1 ≠ 0 then [fn.2 (state &&& fn.1 != 0)] else [])

end DDEShellSurfaceInterfacePrivate

namespace DDEShellSurfaceInterface

open DDEShellSurfaceInterfacePrivate

/-- The member `DDEShellSurfaceInterface::setActive(set)`. -/
def setActive (E : dde_shell_state) (set : Bool) (d : DDEShellSurfaceInterfacePrivate) :
    DDEShellSurfaceInterfacePrivate :=
  setState E.ACTIVE set d

/-- The member `DDEShellSurfaceInterface::setFullscreen(set)`. -/
def setFullscreen (E : dde_shell_state) (set : Bool) (d : DDEShellSurfaceInterfacePrivate) :
    DDEShellSurfaceInterfacePrivate :=
  setState E.FULLSCREEN set d

/-- The member `DDEShellSurfaceInterface::setKeepAbove(set)`. -/
def setKeepAbove (E : dde_shell_state) (set : Bool) (d : DDEShellSurfaceInterfacePrivate) :
    DDEShellSurfaceInterfacePrivate :=
  setState E.KEEP_ABOVE set d

/-- The member `DDEShellSurfaceInterface::setKeepBelow(set)`. -/
def setKeepBelow (E : dde_shell_state) (set : Bool) (d : DDEShellSurfaceInterfacePrivate) :
    DDEShellSurfaceInterfacePrivate :=
  setState E.KEEP_BELOW set d

/-- The member `DDEShellSurfaceInterface::setOnAllDesktops(set)`. -/
def setOnAllDesktops (E : dde_shell_state) (set : Bool) (d : DDEShellSurfaceInterfacePrivate) :
    DDEShellSurfaceInterfacePrivate :=
  setState E.ON_ALL_DESKTOPS set d

/-- The member `DDEShellSurfaceInterface::setMaximized(set)`. -/
def setMaximized (E : dde_shell_state) (set : Bool) (d : DDEShellSurfaceInterfacePrivate) :
    DDEShellSurfaceInterfacePrivate :=
  setState E.MAXIMIZED set d

/-- The member `DDEShellSurfaceInterface::setMinimized(set)`. -/
def setMinimized (E : dde_shell_state) (set : Bool) (d : DDEShellSurfaceInterfacePrivate) :
    DDEShellSurfaceInterfacePrivate :=
  setState E.MINIMIZED set d

/-- The member `DDEShellSurfaceInterface::setCloseable(set)`. -/
def setCloseable (E : dde_shell_state) (set : Bool) (d : DDEShellSurfaceInterfacePrivate) :
    DDEShellSurfaceInterfacePrivate :=
  setState E.CLOSEABLE set d

/-- The member `DDEShellSurfaceInterface::setFullscreenable(set)`. -/
def setFullscreenable (E : dde_shell_state) (set : Bool) (d : DDEShellSurfaceInterfacePrivate) :
    DDEShellSurfaceInterfacePrivate :=
  setState E.FULLSCREENABLE set d

/-- The member `DDEShellSurfaceInterface::setMaximizeable(set)`. -/
def setMaximizeable (E : dde_shell_state) (set : Bool) (d : DDEShellSurfaceInterfacePrivate) :
    DDEShellSurfaceInterfacePrivate :=
  setState E.MAXIMIZABLE set d

/-- The member `DDEShellSurfaceInterface::setMinimizeable(set)`. -/
def setMinimizeable (E : dde_shell_state) (set : Bool) (d : DDEShellSurfaceInterfacePrivate) :
    DDEShellSurfaceInterfacePrivate :=
  setState E.MINIMIZABLE set d

/-- The member `DDEShellSurfaceInterface::setMovable(set)`. -/
def setMovable (E : dde_shell_state) (set : Bool) (d : DDEShellSurfaceInterfacePrivate) :
    DDEShellSurfaceInterfacePrivate :=
  setState E.MOVABLE set d

/-- The member `DDEShellSurfaceInterface::setResizable(set)`. -/
def setResizable (E : dde_shell_state) (set : Bool) (d : DDEShellSurfaceInterfacePrivate) :
    DDEShellSurfaceInterfacePrivate :=
  setState E.RESIZABLE set d

/-- The member `DDEShellSurfaceInterface::setAcceptFocus(set)`. -/
def setAcceptFocus (E : dde_shell_state) (set : Bool) (d : DDEShellSurfaceInterfacePrivate) :
    DDEShellSurfaceInterfacePrivate :=
  setState E.ACCEPT_FOCUS set d

/-- The member `DDEShellSurfaceInterface::setModal(set)`. -/
def setModal (E : dde_shell_state) (set : Bool) (d : DDEShellSurfaceInterfacePrivate) :
    DDEShellSurfaceInterfacePrivate :=
  setState E.MODALITY set d

/-- The member `DDEShellSurfaceInterface::sendGeometry(geom)`. -/
def sendGeometry (geom : QRect) (d : DDEShellSurfaceInterfacePrivate) :
    DDEShellSurfaceInterfacePrivate :=
  DDEShellSurfaceInterfacePrivate.sendGeometry geom d

/-- The member `DDEShellSurfaceInterface::sendSplitable(splitable)`. -/
def sendSplitable (E : dde_shell_state) (splitable : Int) (d : DDEShellSurfaceInterfacePrivate) :
    DDEShellSurfaceInterfacePrivate :=
  if splitable = 0 then
    d |> setState E.NO_SPLIT true |> setState E.TWO_SPLIT false |> setState E.FOUR_SPLIT false
  else
    let d1 := setState E.NO_SPLIT false d
    if splitable = 1 then
      d1 |> setState E.FOUR_SPLIT false |> setState E.TWO_SPLIT true
    else if splitable = 2 then
      d1 |> setState E.TWO_SPLIT false |> setState E.FOUR_SPLIT true
    else d1

end DDEShellSurfaceInterface

/-- One call of the downward interface of a shell surface, as the compositor
makes it: a flag setter, `sendGeometry` or `sendSplitable`. -/
inductive ServerCall where
  | setActive (set : Bool)
  | setFullscreen (set : Bool)
  | setKeepAbove (set : Bool)
  | setKeepBelow (set : Bool)
  | setOnAllDesktops (set : Bool)
  | setMaximized (set : Bool)
  | setMinimized (set : Bool)
  | setCloseable (set : Bool)
  | setFullscreenable (set : Bool)
  | setMaximizeable (set : Bool)
  | setMinimizeable (set : Bool)
  | setMovable (set : Bool)
  | setResizable (set : Bool)
  | setAcceptFocus (set : Bool)
  | setModal (set : Bool)
  | sendGeometry (geom : QRect)
  | sendSplitable (splitable : Int)
deriving DecidableEq, Repr

/-- Performs one call of the downward interface on a shell surface. -/
def ServerCall.apply (E : dde_shell_state) :
    ServerCall → DDEShellSurfaceInterfacePrivate → DDEShellSurfaceInterfacePrivate
  | ServerCall.setActive set, d => DDEShellSurfaceInterface.setActive E set d
  | ServerCall.setFullscreen set, d => DDEShellSurfaceInterface.setFullscreen E set d
  | ServerCall.setKeepAbove set, d => DDEShellSurfaceInterface.setKeepAbove E set d
  | ServerCall.setKeepBelow set, d => DDEShellSurfaceInterface.setKeepBelow E set d
  | ServerCall.setOnAllDesktops set, d => DDEShellSurfaceInterface.setOnAllDesktops E set d
  | ServerCall.setMaximized set, d => DDEShellSurfaceInterface.setMaximized E set d
  | ServerCall.setMinimized set, d => DDEShellSurfaceInterface.setMinimized E set d
  | ServerCall.setCloseable set, d => DDEShellSurfaceInterface.setCloseable E set d
  | ServerCall.setFullscreenable set, d => DDEShellSurfaceInterface.setFullscreenable E set d
  | ServerCall.setMaximizeable set, d => DDEShellSurfaceInterface.setMaximizeable E set d
  | ServerCall.setMinimizeable set, d => DDEShellSurfaceInterface.setMinimizeable E set d
  | ServerCall.setMovable set, d => DDEShellSurfaceInterface.setMovable E set d
  | ServerCall.setResizable set, d => DDEShellSurfaceInterface.setResizable E set d
  | ServerCall.setAcceptFocus set, d => DDEShellSurfaceInterface.setAcceptFocus E set d
  | ServerCall.setModal set, d => DDEShellSurfaceInterface.setModal E set d
  | ServerCall.sendGeometry geom, d => DDEShellSurfaceInterface.sendGeometry geom d
  | ServerCall.sendSplitable splitable, d => DDEShellSurfaceInterface.sendSplitable E splitable d

/-- Performs a sequence of calls of the downward interface, first call first. -/
def ServerCall.run (E : dde_shell_state) (calls : List ServerCall)
    (d : DDEShellSurfaceInterfacePrivate) : DDEShellSurfaceInterfacePrivate :=
  calls.foldl (fun acc c => ServerCall.apply E c acc) d

/-- What goes wrong in C++ where the model cannot follow: a read past the end
of the fixed array `m_windowStates`, a `memcpy` past the end of its destination
or to a null destination, a container resized to a negative size. -/
inductive Fault where
  | readPastEnd
  | writePastEnd
  | nullDestination
  | negativeSize
deriving DecidableEq, Repr

/-- The macro `MAX_WINDOWS` of `clientmanagement_interface.cpp`. -/
def MAX_WINDOWS : Nat := 100

namespace ClientManagementInterface

/-- The nested struct `WindowState::Geometry`. -/
structure WindowState.Geometry where
  x : Int := 0
  y : Int := 0
  width : Int := 0
  height : Int := 0
deriving DecidableEq, Repr, Inhabited

/-- The struct `ClientManagementInterface::WindowState`: one window snapshot.
`resourceName` holds the bytes of the `char[256]` member. -/
structure WindowState where
  pid : Int := 0
  windowId : Int := 0
  resourceName : List Nat := []
  geometry : WindowState.Geometry := {}
  isMinimized : Bool := false
  isFullScreen : Bool := false
  isActive : Bool := false
deriving DecidableEq, Repr, Inhabited

/-- The four bytes of an `int32_t`, least significant first. -/
def int32Bytes (v : Int) : List Nat :=
  let u := (v % 2 ^ 32).toNat
  [u % 256, u / 2 ^ 8 % 256, u / 2 ^ 16 % 256, u / 2 ^ 24 % 256]

/-- The byte of a `bool`. -/
def boolByte (b : Bool) : Nat := if b then 1 else 0

/-- The value `sizeof(WindowState)`: two `int32_t`, 256 characters, four
`int32_t`, three `bool` and one byte of tail padding up to the alignment of 4. -/
def sizeofWindowState : Nat := 284

/-- The object representation of a `WindowState`, the bytes `memcpy` moves:
the members in declaration order, the name cut or zero-filled to its 256 bytes,
and the padding byte written as 0. -/
def WindowState.toBytes (w : WindowState) : List Nat :=
  int32Bytes w.pid ++ int32Bytes w.windowId
    ++ ((w.resourceName.map (fun c => c % 256)) ++ List.replicate 256 0).take 256
    ++ int32Bytes w.geometry.x ++ int32Bytes w.geometry.y
    ++ int32Bytes w.geometry.width ++ int32Bytes w.geometry.height
    ++ [boolByte w.isMinimized, boolByte w.isFullScreen, boolByte w.isActive, 0]

/-- The `int32_t` whose four bytes, least significant first, open the list. -/
def int32OfBytes (b : List Nat) : Int :=
  let u : Nat := b.getD 0 0 + 2 ^ 8 * b.getD 1 0 + 2 ^ 16 * b.getD 2 0 + 2 ^ 24 * b.getD 3 0
  if u < 2 ^ 31 then (u : Int) else (u : Int) - 2 ^ 32

/-- The `bool` read from a byte. -/
def boolOfByte (b : Nat) : Bool := b != 0

/-- The `WindowState` whose object representation opens the list: the inverse
reading of `WindowState.toBytes`, member after member. -/
def WindowState.ofBytes (b : List Nat) : WindowState :=
  let pid := int32OfBytes (b.take 4)
  let b := b.drop 4
  let windowId := int32OfBytes (b.take 4)
  let b := b.drop 4
  let resourceName := b.take 256
  let b := b.drop 256
  let x := int32OfBytes (b.take 4)
  let b := b.drop 4
  let y := int32OfBytes (b.take 4)
  let b := b.drop 4
  let width := int32OfBytes (b.take 4)
  let b := b.drop 4
  let height := int32OfBytes (b.take 4)
  let b := b.drop 4
  { pid := pid, windowId := windowId, resourceName := resourceName,
    geometry := { x := x, y := y, width := width, height := height },
    isMinimized := boolOfByte (b.getD 0 0), isFullScreen := boolOfByte (b.getD 1 0),
    isActive := boolOfByte (b.getD 2 0) }

/-- The first `n` records of a storage area of bytes, read as an array of
`WindowState`. -/
def recordsOfBytes : Nat → List Nat → List WindowState
  | 0, _ => []
  | n + 1, b => WindowState.ofBytes (b.take sizeofWindowState)
      :: recordsOfBytes n (b.drop sizeofWindowState)

/-- A value that an `int32_t` can hold. -/
def IsInt32 (v : Int) : Prop := -2 ^ 31 ≤ v ∧ v < 2 ^ 31

/-- A record that a C++ `WindowState` can hold: every integer member fits an
`int32_t` and the name is 256 bytes. -/
def WindowState.WellFormed (w : WindowState) : Prop :=
  IsInt32 w.pid ∧ IsInt32 w.windowId
    ∧ w.resourceName.length = 256 ∧ (∀ c ∈ w.resourceName, c < 256)
    ∧ IsInt32 w.geometry.x ∧ IsInt32 w.geometry.y
    ∧ IsInt32 w.geometry.width ∧ IsInt32 w.geometry.height

/-- The call `memcpy(dest, src, n)` with `n` the length of `src`, into a
storage area of which `dest` are the bytes: the first `n` bytes are replaced;
writing past the end of the area is a fault. -/
def memcpy (dest src : List Nat) : Except Fault (List Nat) :=
  if src.length ≤ dest.length then Except.ok (src ++ dest.drop src.length)
  else Except.error Fault.writePastEnd

end ClientManagementInterface

open ClientManagementInterface (WindowState)

/-- The events of the `com_deepin_client_management` protocol object. -/
inductive ClientManagementEvent where
  | window_states (count : Nat) (data : List Nat)
  | capture_callback (windowId : Int) (succeed : Int) (buffer : Nat)
  | split_change (uuid : List Nat) (splitable : Int)
deriving DecidableEq, Repr

/-- The Qt signals of `ClientManagementInterface`. -/
inductive ClientManagementSignal where
  | windowStatesRequest
  | windowStatesChanged
  | captureWindowImageRequest (windowId : Int) (buffer : Nat)
  | splitWindowRequest (uuid : String) (splitType : Int)
deriving DecidableEq, Repr

/-- The class `ClientManagementInterfacePrivate`: the fixed array of
`MAX_WINDOWS` snapshots and its count, the split slot, the bound client
resources (`resourceMap()`), the log of the events sent, each with the resource
it was sent to, and the log of the signals emitted by the public object. -/
structure ClientManagementInterfacePrivate where
  m_windowStates : Fin MAX_WINDOWS → WindowState
  m_windowCount : Nat
  m_splitUuid : String := ""
  m_splitable : Int := 0
  resourceMap : List Nat := []
  sent : List (Nat × ClientManagementEvent) := []
  emitted : List ClientManagementSignal := []

namespace ClientManagementInterfacePrivate

/-- The lambda `fillArray` of `sendWindowStates`: the first
`sizeof(WindowState) * m_windowCount` bytes of the array `m_windowStates`. -/
def fillArray (d : ClientManagementInterfacePrivate) : Except Fault (List Nat) :=
  if d.m_windowCount ≤ MAX_WINDOWS then
    Except.ok (((List.ofFn d.m_windowStates).take d.m_windowCount).flatMap WindowState.toBytes)
  else Except.error Fault.readPastEnd

/-- The member `ClientManagementInterfacePrivate::sendWindowStates(resource)`. -/
def sendWindowStates (resource : Nat) (d : ClientManagementInterfacePrivate) :
    Except Fault ClientManagementInterfacePrivate :=
  match fillArray d with
  | Except.ok data =>
    Except.ok { d with sent := d.sent ++
      [(resource, ClientManagementEvent.window_states d.m_windowCount data)] }
  | Except.error e => Except.error e

/-- The loop of `updateWindowStates` over the resources still to be served. -/
def updateWindowStatesLoop : List Nat → ClientManagementInterfacePrivate →
    Except Fault ClientManagementInterfacePrivate
  | [], d => Except.ok d
  | resource :: rest, d =>
    match sendWindowStates resource d with
    | Except.ok d1 => updateWindowStatesLoop rest d1
    | Except.error e => Except.error e

/-- The member `ClientManagementInterfacePrivate::updateWindowStates()`. -/
def updateWindowStates (d : ClientManagementInterfacePrivate) :
    Except Fault ClientManagementInterfacePrivate :=
  updateWindowStatesLoop d.resourceMap d

end ClientManagementInterfacePrivate

namespace ClientManagementInterface

open ClientManagementInterfacePrivate

/-- The loop of `setWindowStates`, at the list position still to be copied and
the index `i`: `memcpy(&d->m_windowStates[i++], *it, sizeof(WindowState));
d->m_windowCount = i;` while `it != end && i < MAX_WINDOWS`. -/
def setWindowStatesLoop : List WindowState → Nat → ClientManagementInterfacePrivate →
    ClientManagementInterfacePrivate
  | [], _, d => d
  | w :: rest, i, d =>
    if h : i < MAX_WINDOWS then
      setWindowStatesLoop rest (i + 1)
        { d with m_windowStates := Function.update d.m_windowStates ⟨i, h⟩ w,
                 m_windowCount := i + 1 }
    else d

/-- The member `ClientManagementInterface::setWindowStates(windowStates)`: the
copy loop, then `Q_EMIT windowStatesChanged()`, to which the constructor
connects `updateWindowStates()`. -/
def setWindowStates (windowStates : List WindowState) (d : ClientManagementInterfacePrivate) :
    Except Fault ClientManagementInterfacePrivate :=
  let d1 := setWindowStatesLoop windowStates 0 d
  updateWindowStates
    { d1 with emitted := d1.emitted ++ [ClientManagementSignal.windowStatesChanged] }

/-- The snapshot of the spec's end-to-end example: pid 100, window 7, name
"term", geometry `(0, 0, 800, 600)`, active. -/
def termWindow : WindowState :=
  { pid := 100, windowId := 7, resourceName := [116, 101, 114, 109],
    geometry := { x := 0, y := 0, width := 800, height := 600 }, isActive := true }

/-- A directory object before its first update, with the given bound
resources.  C++ leaves the array and the count indeterminate; here the array is
filled with default snapshots and the count is 0. -/
def initial (resources : List Nat) : ClientManagementInterfacePrivate :=
  { m_windowStates := fun _ => default, m_windowCount := 0, resourceMap := resources }

/-- The snapshot `termWindow` as a C++ `WindowState` holds it: the name filled
with zero bytes up to its 256 bytes. -/
def termSnapshot : WindowState :=
  { termWindow with resourceName := [116, 101, 114, 109] ++ List.replicate 252 0 }

end ClientManagementInterface

/-- Modelled from the spec: the Qt image type `QImage` is used by the sources
but is not part of them.  An image is the bytes `bits()` points at, of which
there are `sizeInBytes()`; the null image has none. -/
structure QImage where
  bits : List Nat
deriving DecidableEq, Repr

/-- The predicate `QImage::isNull()`. -/
def QImage.isNull (image : QImage) : Bool := image.bits.isEmpty

/-- What libwayland answers about a buffer resource: `wl_shm_buffer_get` is null
(`notShm`) or a shared-memory buffer, for which `wl_shm_buffer_get_data` is null
(`none`) or points at the bytes of the buffer. -/
inductive BufferBacking where
  | notShm
  | shm (data : Option (List Nat))
deriving DecidableEq, Repr

/-- The buffer resources of the display, by handle, with the log of the
`memcpy` calls made into them: the handle and the bytes copied, oldest first. -/
structure BufferMemory where
  backing : Nat → BufferBacking
  copies : List (Nat × List Nat) := []

/-- The buffer attached to a surface: a `ShmClientBuffer`, of which `data()` is
the image, or a buffer of another kind. -/
inductive ClientBuffer where
  | shmClient (data : QImage)
  | other
deriving DecidableEq, Repr

/-- The part of `SurfaceInterface` that `sendWindowCaption` reads: `buffer()`,
null or a client buffer. -/
structure SurfaceInterface where
  buffer : Option ClientBuffer
deriving DecidableEq, Repr

namespace ClientManagementInterfacePrivate

/-- The member `ClientManagementInterfacePrivate::sendWindowCaption(windowId,
succeed, buffer)`: one `capture_callback` to every bound resource, `succeed`
converted to `int32_t`. -/
def sendWindowCaption (windowId : Int) (succeed : Bool) (buffer : Nat)
    (d : ClientManagementInterfacePrivate) : ClientManagementInterfacePrivate :=
  d.resourceMap.foldl (fun acc resource =>
    { acc with sent := acc.sent ++
      [(resource, ClientManagementEvent.capture_callback windowId (if succeed then 1 else 0)
        buffer)] }) d

end ClientManagementInterfacePrivate

namespace ClientManagementInterface

/-- The call `memcpy(data, image.bits(), image.sizeInBytes())` into the bytes
of the shared-memory buffer `buffer`, recorded in the log of copies. -/
def copyImage (buffer : Nat) (data : List Nat) (image : QImage) (mem : BufferMemory) :
    Except Fault BufferMemory :=
  match memcpy data image.bits with
  | Except.ok data1 =>
    Except.ok { backing := Function.update mem.backing buffer (BufferBacking.shm (some data1)),
                copies := mem.copies ++ [(buffer, image.bits)] }
  | Except.error e => Except.error e

/-- The member `ClientManagementInterface::sendWindowCaptionImage(windowId,
buffer, image)`.  The access bracket `wl_shm_buffer_begin_access` /
`wl_shm_buffer_end_access` has no effect on the state kept here. -/
def sendWindowCaptionImage (windowId : Int) (buffer : Nat) (image : QImage)
    (mem : BufferMemory) (d : ClientManagementInterfacePrivate) :
    Except Fault (ClientManagementInterfacePrivate × BufferMemory) :=
  let copied : Except Fault (Bool × BufferMemory) :=
    match mem.backing buffer with
    | BufferBacking.shm data =>
      if !image.isNull then
        match data with
        | some bytes =>
          match copyImage buffer bytes image mem with
          | Except.ok mem1 => Except.ok (true, mem1)
          | Except.error e => Except.error e
        | none => Except.ok (false, mem)
      else Except.ok (false, mem)
    | BufferBacking.notShm => Except.ok (false, mem)
  match copied with
  | Except.ok (succeed, mem1) =>
    Except.ok (ClientManagementInterfacePrivate.sendWindowCaption windowId succeed buffer d, mem1)
  | Except.error e => Except.error e

/-- The member `ClientManagementInterface::sendWindowCaption(windowId, buffer,
surface)`.  A null surface or a surface without buffer reports failure; a
surface whose buffer is not a `ShmClientBuffer` returns without a callback; the
copy is made without a test of the destination pointer. -/
def sendWindowCaption (windowId : Int) (buffer : Nat) (surface : Option SurfaceInterface)
    (mem : BufferMemory) (d : ClientManagementInterfacePrivate) :
    Except Fault (ClientManagementInterfacePrivate × BufferMemory) :=
  match surface with
  | none =>
    Except.ok (ClientManagementInterfacePrivate.sendWindowCaption windowId false buffer d, mem)
  | some s =>
    match s.buffer with
    | none =>
      Except.ok (ClientManagementInterfacePrivate.sendWindowCaption windowId false buffer d, mem)
    | some ClientBuffer.other => Except.ok (d, mem)
    | some (ClientBuffer.shmClient image) =>
      let copied : Except Fault (Bool × BufferMemory) :=
        match mem.backing buffer with
        | BufferBacking.shm data =>
          if !image.isNull then
            match data with
            | some bytes =>
              match copyImage buffer bytes image mem with
              | Except.ok mem1 => Except.ok (true, mem1)
              | Except.error e => Except.error e
            | none => Except.error Fault.nullDestination
          else Except.ok (false, mem)
        | BufferBacking.notShm => Except.ok (false, mem)
      match copied with
      | Except.ok (succeed, mem1) =>
        Except.ok
          (ClientManagementInterfacePrivate.sendWindowCaption windowId succeed buffer d, mem1)
      | Except.error e => Except.error e

/-- A display in which every buffer handle is a shared-memory buffer holding
the given bytes, before any copy. -/
def shmMemory (bytes : List Nat) : BufferMemory :=
  { backing := fun _ => BufferBacking.shm (some bytes) }

end ClientManagementInterface

/-- The conversion `QString::toLatin1()`: the code of every character that
Latin-1 has, a question mark for every other character. -/
def toLatin1 (s : String) : List Nat :=
  s.toList.map (fun c => if c.toNat < 256 then c.toNat else 63)

/-- The C string that a `char *` argument puts on the wire: the bytes up to the
first zero byte. -/
def cString (bytes : List Nat) : List Nat := bytes.takeWhile (fun b => b != 0)

namespace ClientManagementInterfacePrivate

/-- The member `ClientManagementInterfacePrivate::sendSplitChange(uuid,
splitable)`. -/
def sendSplitChange (uuid : String) (splitable : Int) (d : ClientManagementInterfacePrivate) :
    ClientManagementInterfacePrivate :=
  if 0 < splitable then
    let d1 := { d with m_splitUuid := uuid, m_splitable := splitable }
    d1.resourceMap.foldl (fun acc resource =>
      { acc with sent := acc.sent ++
        [(resource, ClientManagementEvent.split_change (cString (toLatin1 acc.m_splitUuid))
          acc.m_splitable)] }) d1
  else d

end ClientManagementInterfacePrivate

/-- The member `ClientManagementInterface::sendSplitChange(uuid, splitable)`. -/
def ClientManagementInterface.sendSplitChange (uuid : String) (splitable : Int)
    (d : ClientManagementInterfacePrivate) : ClientManagementInterfacePrivate :=
  ClientManagementInterfacePrivate.sendSplitChange uuid splitable d

/-- The enumerators of the protocol enumeration `dde_shell_property`.  They come
from the header generated from the protocol description, which is not part of
the sources, so the functions below take them as a parameter. -/
structure dde_shell_property where
  NOTITLEBAR : Nat
  WINDOWRADIUS : Nat
  QUICKTILE : Nat
deriving DecidableEq, Repr

/-- Modelled from the spec: the values of the `dde_shell_property` enumerators
are missing from the sources; the property ids are taken to be distinct single
bits, in the order in which the server tests them. -/
def DDE_SHELL_PROPERTY : dde_shell_property where
  NOTITLEBAR := 2 ^ 0
  WINDOWRADIUS := 2 ^ 1
  QUICKTILE := 2 ^ 2

/-- The requests of the `dde_shell_surface` protocol object (client to
server); `data` are the bytes of the `wl_array`. -/
inductive ShellSurfaceRequest where
  | get_geometry
  | request_active
  | set_state (flags state : Nat)
  | set_property (property : Nat) (data : List Nat)
deriving DecidableEq, Repr

/-- The 32-bit word of a `float` object, from its four bytes, least significant
first: the value is not interpreted. -/
def word32OfBytes (b : List Nat) : Nat :=
  b.getD 0 0 + 2 ^ 8 * b.getD 1 0 + 2 ^ 16 * b.getD 2 0 + 2 ^ 24 * b.getD 3 0

/-- The four bytes of the element `value[i]` of a `wl_array` read as an array
of 4-byte objects; the handler does not test `dataArr->size`, so an element
beyond the bytes received is a read past the end. -/
def arrayElement (dataArr : List Nat) (i : Nat) : Except Fault (List Nat) :=
  if 4 * (i + 1) ≤ dataArr.length then Except.ok ((dataArr.drop (4 * i)).take 4)
  else Except.error Fault.readPastEnd

namespace DDEShellSurfaceInterfacePrivate

/-- The clause `if (property & DDE_SHELL_PROPERTY_NOTITLEBAR)` of the
`set_property` handler. -/
def noTitleBarClause (P : dde_shell_property) (property : Nat) (dataArr : List Nat)
    (d : DDEShellSurfaceInterfacePrivate) : Except Fault DDEShellSurfaceInterfacePrivate :=
  if property &&& P.NOTITLEBAR ≠ 0 then
    match arrayElement dataArr 0 with
    | Except.ok v =>
      Except.ok { d with emitted := d.emitted ++
        [ShellSurfaceSignal.noTitleBarPropertyRequested
          (ClientManagementInterface.int32OfBytes v)] }
    | Except.error e => Except.error e
  else Except.ok d

/-- The clause `if (property & DDE_SHELL_PROPERTY_WINDOWRADIUS)` of the
`set_property` handler; the two `float` values are kept as their 32-bit words. -/
def windowRadiusClause (P : dde_shell_property) (property : Nat) (dataArr : List Nat)
    (d : DDEShellSurfaceInterfacePrivate) : Except Fault DDEShellSurfaceInterfacePrivate :=
  if property &&& P.WINDOWRADIUS ≠ 0 then
    match arrayElement dataArr 0, arrayElement dataArr 1 with
    | Except.ok v0, Except.ok v1 =>
      Except.ok { d with emitted := d.emitted ++
        [ShellSurfaceSignal.windowRadiusPropertyRequested (word32OfBytes v0)
          (word32OfBytes v1)] }
    | Except.error e, _ => Except.error e
    | _, Except.error e => Except.error e
  else Except.ok d

/-- The clause `if (property & DDE_SHELL_PROPERTY_QUICKTILE)` of the
`set_property` handler. -/
def quickTileClause (P : dde_shell_property) (property : Nat) (dataArr : List Nat)
    (d : DDEShellSurfaceInterfacePrivate) : Except Fault DDEShellSurfaceInterfacePrivate :=
  if property &&& P.QUICKTILE ≠ 0 then
    match arrayElement dataArr 0, arrayElement dataArr 1 with
    | Except.ok v0, Except.ok v1 =>
      Except.ok { d with emitted := d.emitted ++
        [ShellSurfaceSignal.splitWindowRequested (ClientManagementInterface.int32OfBytes v0)
          (ClientManagementInterface.int32OfBytes v1)] }
    | Except.error e, _ => Except.error e
    | _, Except.error e => Except.error e
  else Except.ok d

/-- The request handler `dde_shell_surface_set_property(resource, property,
dataArr)`: the three clauses in turn. -/
def dde_shell_surface_set_property (P : dde_shell_property) (property : Nat)
    (dataArr : List Nat) (d : DDEShellSurfaceInterfacePrivate) :
    Except Fault DDEShellSurfaceInterfacePrivate :=
  match noTitleBarClause P property dataArr d with
  | Except.ok d1 =>
    match windowRadiusClause P property dataArr d1 with
    | Except.ok d2 => quickTileClause P property dataArr d2
    | Except.error e => Except.error e
  | Except.error e => Except.error e

/-- The dispatch of one request of the client to its handler. -/
def dispatch (E : dde_shell_state) (P : dde_shell_property) :
    ShellSurfaceRequest → DDEShellSurfaceInterfacePrivate →
      Except Fault DDEShellSurfaceInterfacePrivate
  | ShellSurfaceRequest.get_geometry, d => Except.ok (dde_shell_surface_get_geometry d)
  | ShellSurfaceRequest.request_active, d => Except.ok (dde_shell_surface_request_active d)
  | ShellSurfaceRequest.set_state flags state, d =>
    Except.ok (dde_shell_surface_set_state E flags state d)
  | ShellSurfaceRequest.set_property property data, d =>
    dde_shell_surface_set_property P property data d

end DDEShellSurfaceInterfacePrivate

/-- The class `DDEShellSurfaceInterface`: one live shell surface object, with
the surface it belongs to, the resource created for it and its private part. -/
structure DDEShellSurfaceInterface where
  surface : Nat
  resource : Nat
  d : DDEShellSurfaceInterfacePrivate := {}
deriving DecidableEq, Repr

/-- The Qt signals of `DDEShellInterface`. -/
inductive DDEShellSignal where
  | shellSurfaceCreated (shellSurface : DDEShellSurfaceInterface)
deriving DecidableEq, Repr

/-- The class `DDEShellInterfacePrivate` together with the file-level list
`s_shellSurfaces` of live shell surfaces: the log of the protocol errors posted
(`wl_resource_post_error(resource, code, message)`) and of the signals emitted
by the public object. -/
structure DDEShellInterfacePrivate where
  s_shellSurfaces : List DDEShellSurfaceInterface := []
  errors : List (Nat × Nat × String) := []
  emitted : List DDEShellSignal := []
deriving DecidableEq, Repr

/-- The static member `DDEShellSurfaceInterface::get(SurfaceInterface *)`: the
first live shell surface of that surface, or null. -/
def DDEShellSurfaceInterface.get (s_shellSurfaces : List DDEShellSurfaceInterface)
    (surface : Nat) : Option DDEShellSurfaceInterface :=
  s_shellSurfaces.find? (fun shellSurface => shellSurface.surface == surface)

namespace DDEShellInterfacePrivate

/-- The request handler `dde_shell_get_shell_surface(resource, id, surface)`;
`surface` is what `SurfaceInterface::get` answers for the argument, null or a
surface, and the resource created for the new object is named by `id`. -/
def dde_shell_get_shell_surface (resource id : Nat) (surface : Option Nat)
    (q : DDEShellInterfacePrivate) : DDEShellInterfacePrivate :=
  match surface with
  | none => { q with errors := q.errors ++ [(resource, 0, "Invalid  surface")] }
  | some s =>
    if (DDEShellSurfaceInterface.get q.s_shellSurfaces s).isSome then
      { q with errors := q.errors ++ [(resource, 0, "dde_shell_surface already exists")] }
    else
      let shellSurface : DDEShellSurfaceInterface := { surface := s, resource := id }
      { q with s_shellSurfaces := q.s_shellSurfaces ++ [shellSurface],
               emitted := q.emitted ++ [DDEShellSignal.shellSurfaceCreated shellSurface] }

/-- The destruction of a shell surface object (through
`dde_shell_surface_destroy_resource`, or with its parent surface): the lambda
connected to `QObject::destroyed` runs `s_shellSurfaces.removeOne(shellSurface)`. -/
def destroyed (shellSurface : DDEShellSurfaceInterface) (q : DDEShellInterfacePrivate) :
    DDEShellInterfacePrivate :=
  { q with s_shellSurfaces := q.s_shellSurfaces.erase shellSurface }

end DDEShellInterfacePrivate

/-- One step in the life of the registry of shell surfaces: a
`get_shell_surface` request or the destruction of a shell surface object. -/
inductive RegistryStep where
  | get_shell_surface (resource id : Nat) (surface : Option Nat)
  | destroyed (shellSurface : DDEShellSurfaceInterface)
deriving DecidableEq, Repr

/-- Performs one step on the registry. -/
def RegistryStep.apply : RegistryStep → DDEShellInterfacePrivate → DDEShellInterfacePrivate
  | RegistryStep.get_shell_surface resource id surface, q =>
    DDEShellInterfacePrivate.dde_shell_get_shell_surface resource id surface q
  | RegistryStep.destroyed shellSurface, q => DDEShellInterfacePrivate.destroyed shellSurface q

/-- Performs a sequence of steps on the registry, first step first. -/
def RegistryStep.run (steps : List RegistryStep) (q : DDEShellInterfacePrivate) :
    DDEShellInterfacePrivate :=
  steps.foldl (fun acc step => RegistryStep.apply step acc) q

end KWaylandServer

namespace KWayland.Client

open KWaylandServer (dde_shell_state ShellSurfaceEvent)

/-- The Qt signals of the client class `DDEShellSurface`. -/
inductive DDEShellSurfaceSignal where
  | geometryChanged (geom : QRect)
  | activeChanged
  | fullscreenChanged
  | keepAboveChanged
  | keepBelowChanged
  | minimizedChanged
  | maximizedChanged
  | closeableChanged
  | minimizeableChanged
  | maximizeableChanged
  | fullscreenableChanged
  | movableChanged
  | resizableChanged
  | acceptFocusChanged
  | modalityChanged
  | onAllDesktopsChanged
deriving DecidableEq, Repr

namespace DDEShellSurface

/-- The class `DDEShellSurface::Private`: the client mirror of one shell
surface, with the log of the signals emitted by its public object;
`parentSurface` is the `QPointer<Surface>` member, null or a `Surface`. -/
structure Private where
  geometry : QRect := QRect.null
  active : Bool := false
  minimized : Bool := false
  maximized : Bool := false
  fullscreen : Bool := false
  keepAbove : Bool := false
  keepBelow : Bool := false
  closeable : Bool := false
  minimizeable : Bool := false
  maximizeable : Bool := false
  fullscreenable : Bool := false
  movable : Bool := false
  resizable : Bool := false
  acceptFocus : Bool := true
  modality : Bool := false
  onAllDesktops : Bool := false
  splitable : Int := 0
  emitted : List DDEShellSurfaceSignal := []
  parentSurface : Option Nat := none
deriving DecidableEq, Repr

namespace Private

/-- A freshly constructed client mirror, with the member initialisers of the
class. -/
def fresh : Private := {}

/-- The member `DDEShellSurface::Private::setActive(set)`. -/
def setActive (set : Bool) (p : Private) : Private :=
  if p.active = set then p
  else { p with active := set, emitted := p.emitted ++ [DDEShellSurfaceSignal.activeChanged] }

/-- The member `DDEShellSurface::Private::setOnAllDesktops(set)`. -/
def setOnAllDesktops (set : Bool) (p : Private) : Private :=
  if p.onAllDesktops = set then p
  else { p with onAllDesktops := set, emitted := p.emitted ++ [DDEShellSurfaceSignal.onAllDesktopsChanged] }

/-- The member `DDEShellSurface::Private::setFullscreen(set)`. -/
def setFullscreen (set : Bool) (p : Private) : Private :=
  if p.fullscreen = set then p
  else { p with fullscreen := set, emitted := p.emitted ++ [DDEShellSurfaceSignal.fullscreenChanged] }

/-- The member `DDEShellSurface::Private::setKeepAbove(set)`. -/
def setKeepAbove (set : Bool) (p : Private) : Private :=
  if p.keepAbove = set then p
  else { p with keepAbove := set, emitted := p.emitted ++ [DDEShellSurfaceSignal.keepAboveChanged] }

/-- The member `DDEShellSurface::Private::setKeepBelow(set)`. -/
def setKeepBelow (set : Bool) (p : Private) : Private :=
  if p.keepBelow = set then p
  else { p with keepBelow := set, emitted := p.emitted ++ [DDEShellSurfaceSignal.keepBelowChanged] }

/-- The member `DDEShellSurface::Private::setMaximized(set)`. -/
def setMaximized (set : Bool) (p : Private) : Private :=
  if p.maximized = set then p
  else { p with maximized := set, emitted := p.emitted ++ [DDEShellSurfaceSignal.maximizedChanged] }

/-- The member `DDEShellSurface::Private::setMinimized(set)`. -/
def setMinimized (set : Bool) (p : Private) : Private :=
  if p.minimized = set then p
  else { p with minimized := set, emitted := p.emitted ++ [DDEShellSurfaceSignal.minimizedChanged] }

/-- The member `DDEShellSurface::Private::setCloseable(set)`. -/
def setCloseable (set : Bool) (p : Private) : Private :=
  if p.closeable = set then p
  else { p with closeable := set, emitted := p.emitted ++ [DDEShellSurfaceSignal.closeableChanged] }

/-- The member `DDEShellSurface::Private::setFullscreenable(set)`. -/
def setFullscreenable (set : Bool) (p : Private) : Private :=
  if p.fullscreenable = set then p
  else { p with fullscreenable := set, emitted := p.emitted ++ [DDEShellSurfaceSignal.fullscreenableChanged] }

/-- The member `DDEShellSurface::Private::setMaximizeable(set)`. -/
def setMaximizeable (set : Bool) (p : Private) : Private :=
  if p.maximizeable = set then p
  else { p with maximizeable := set, emitted := p.emitted ++ [DDEShellSurfaceSignal.maximizeableChanged] }

/-- The member `DDEShellSurface::Private::setMinimizeable(set)`. -/
def setMinimizeable (set : Bool) (p : Private) : Private :=
  if p.minimizeable = set then p
  else { p with minimizeable := set, emitted := p.emitted ++ [DDEShellSurfaceSignal.minimizeableChanged] }

/-- The member `DDEShellSurface::Private::setMovable(set)`. -/
def setMovable (set : Bool) (p : Private) : Private :=
  if p.movable = set then p
  else { p with movable := set, emitted := p.emitted ++ [DDEShellSurfaceSignal.movableChanged] }

/-- The member `DDEShellSurface::Private::setResizable(set)`. -/
def setResizable (set : Bool) (p : Private) : Private :=
  if p.resizable = set then p
  else { p with resizable := set, emitted := p.emitted ++ [DDEShellSurfaceSignal.resizableChanged] }

/-- The member `DDEShellSurface::Private::setAcceptFocus(set)`. -/
def setAcceptFocus (set : Bool) (p : Private) : Private :=
  if p.acceptFocus = set then p
  else { p with acceptFocus := set, emitted := p.emitted ++ [DDEShellSurfaceSignal.acceptFocusChanged] }

/-- The member `DDEShellSurface::Private::setModal(set)`. -/
def setModal (set : Bool) (p : Private) : Private :=
  if p.modality = set then p
  else { p with modality := set, emitted := p.emitted ++ [DDEShellSurfaceSignal.modalityChanged] }

/-- The listener `DDEShellSurface::Private::stateChangedCallback(data, _, state)`.
Every argument is a `uint32_t` converted to `bool`; the argument of
`setAcceptFocus` is the 32-bit product `state * DDE_SHELL_STATE_ACCEPT_FOCUS`. -/
def stateChangedCallback (E : dde_shell_state) (state : Nat) (p : Private) : Private :=
  let p := p
    |> setActive (state &&& E.ACTIVE != 0)
    |> setMinimized (state &&& E.MINIMIZED != 0)
    |> setMaximized (state &&& E.MAXIMIZED != 0)
    |> setFullscreen (state &&& E.FULLSCREEN != 0)
    |> setKeepAbove (state &&& E.KEEP_ABOVE != 0)
    |> setKeepBelow (state &&& E.KEEP_BELOW != 0)
    |> setOnAllDesktops (state &&& E.ON_ALL_DESKTOPS != 0)
    |> setCloseable (state &&& E.CLOSEABLE != 0)
    |> setFullscreenable (state &&& E.FULLSCREENABLE != 0)
    |> setMaximizeable (state &&& E.MAXIMIZABLE != 0)
    |> setMinimizeable (state &&& E.MINIMIZABLE != 0)
    |> setMovable (state &&& E.MOVABLE != 0)
    |> setResizable (state &&& E.RESIZABLE != 0)
    |> setAcceptFocus ((state * E.ACCEPT_FOCUS) % 2 ^ 32 != 0)
    |> setModal (state &&& E.MODALITY != 0)
  let p := if state &&& E.TWO_SPLIT ≠ 0 then { p with splitable := 1 } else p
  let p := if state &&& E.FOUR_SPLIT ≠ 0 then { p with splitable := 2 } else p
  if state &&& E.NO_SPLIT ≠ 0 then { p with splitable := 0 } else p

/-- The listener `DDEShellSurface::Private::geometryCallback(data, _, x, y, width, height)`. -/
def geometryCallback (x y width height : Int) (p : Private) : Private :=
  let geo := QRect.ofXYWH x y width height
  if geo = p.geometry then p
  else { p with geometry := geo, emitted := p.emitted ++ [DDEShellSurfaceSignal.geometryChanged geo] }

/-- The listener table `s_listener`: dispatches one inbound event of the
`dde_shell_surface` object to its callback. -/
def s_listener (E : dde_shell_state) : ShellSurfaceEvent → Private → Private
  | ShellSurfaceEvent.geometry x y width height, p => geometryCallback x y width height p
  | ShellSurfaceEvent.state_changed state, p => stateChangedCallback E state p

/-- Delivers a sequence of inbound events in order, first event first. -/
def deliver (E : dde_shell_state) (events : List ShellSurfaceEvent) (p : Private) : Private :=
  events.foldl (fun acc e => s_listener E e acc) p

end Private

/-- The accessor `DDEShellSurface::isOnAllDesktops()`. -/
def isOnAllDesktops (d : Private) : Bool := d.onAllDesktops

/-- The accessor `DDEShellSurface::isActive()`. -/
def isActive (d : Private) : Bool := d.active

/-- The accessor `DDEShellSurface::isFullscreen()`. -/
def isFullscreen (d : Private) : Bool := d.fullscreen

/-- The accessor `DDEShellSurface::isKeepAbove()`. -/
def isKeepAbove (d : Private) : Bool := d.keepAbove

/-- The accessor `DDEShellSurface::isKeepBelow()`. -/
def isKeepBelow (d : Private) : Bool := d.keepBelow

/-- The accessor `DDEShellSurface::isMaximized()`. -/
def isMaximized (d : Private) : Bool := d.maximized

/-- The accessor `DDEShellSurface::isMinimized()`. -/
def isMinimized (d : Private) : Bool := d.minimized

/-- The accessor `DDEShellSurface::isCloseable()`. -/
def isCloseable (d : Private) : Bool := d.closeable

/-- The accessor `DDEShellSurface::isFullscreenable()`. -/
def isFullscreenable (d : Private) : Bool := d.fullscreenable

/-- The accessor `DDEShellSurface::isMaximizeable()`. -/
def isMaximizeable (d : Private) : Bool := d.maximizeable

/-- The accessor `DDEShellSurface::isMinimizeable()`. -/
def isMinimizeable (d : Private) : Bool := d.minimizeable

/-- The accessor `DDEShellSurface::isResizable()`. -/
def isResizable (d : Private) : Bool := d.resizable

/-- The accessor `DDEShellSurface::isAcceptFocus()`. -/
def isAcceptFocus (d : Private) : Bool := d.acceptFocus

/-- The accessor `DDEShellSurface::isModal()`. -/
def isModal (d : Private) : Bool := d.modality

/-- The accessor `DDEShellSurface::isSplitable()`. -/
def isSplitable (d : Private) : Bool := if d.splitable ≠ 0 then true else false

/-- The accessor `DDEShellSurface::isMovable()`. -/
def isMovable (d : Private) : Bool := d.movable

/-- The accessor `DDEShellSurface::getGeometry()`. -/
def getGeometry (d : Private) : QRect := d.geometry

/-- The accessor `DDEShellSurface::getSplitable()`. -/
def getSplitable (d : Private) : Int := d.splitable

/-- The fourteen boolean accessors of a client mirror, other than
`isAcceptFocus`, each equal the corresponding bit of the state word `state`. -/
def Mirrors (E : dde_shell_state) (state : Nat) (p : Private) : Prop :=
  isActive p = (state &&& E.ACTIVE != 0)
    ∧ isMinimized p = (state &&& E.MINIMIZED != 0)
    ∧ isMaximized p = (state &&& E.MAXIMIZED != 0)
    ∧ isFullscreen p = (state &&& E.FULLSCREEN != 0)
    ∧ isKeepAbove p = (state &&& E.KEEP_ABOVE != 0)
    ∧ isKeepBelow p = (state &&& E.KEEP_BELOW != 0)
    ∧ isOnAllDesktops p = (state &&& E.ON_ALL_DESKTOPS != 0)
    ∧ isCloseable p = (state &&& E.CLOSEABLE != 0)
    ∧ isMinimizeable p = (state &&& E.MINIMIZABLE != 0)
    ∧ isMaximizeable p = (state &&& E.MAXIMIZABLE != 0)
    ∧ isFullscreenable p = (state &&& E.FULLSCREENABLE != 0)
    ∧ isMovable p = (state &&& E.MOVABLE != 0)
    ∧ isResizable p = (state &&& E.RESIZABLE != 0)
    ∧ isModal p = (state &&& E.MODALITY != 0)

/-- The client's `splitable` agrees with the split flags of the state word
`state`, read the way `stateChangedCallback` reads them, whenever one of them is
set. -/
def SplitAgrees (E : dde_shell_state) (state : Nat) (p : Private) : Prop :=
  p.splitable =
    (if state &&& E.NO_SPLIT ≠ 0 then 0
     else if state &&& E.FOUR_SPLIT ≠ 0 then 2
     else if state &&& E.TWO_SPLIT ≠ 0 then 1
     else p.splitable)

/-- The static member `DDEShellSurface::Private::get(Surface *)`, over the
static vector `s_ddeShellSurfaces`: null for a null surface, else the first
object whose `parentSurface` is that surface, named by its position in the
vector. -/
def Private.get (s_ddeShellSurfaces : List Private) (surface : Option Nat) : Option Nat :=
  match surface with
  | none => none
  | some k => s_ddeShellSurfaces.findIdx? (fun it => it.parentSurface == some k)

end DDEShellSurface

/-- The requests the client sends on its `dde_shell` object. -/
inductive DDEShellRequest where
  | get_shell_surface (surface : Nat)
deriving DecidableEq, Repr

/-- The client class `DDEShell` with the static vector `s_ddeShellSurfaces` of
the `DDEShellSurface::Private` objects alive, and the log of the requests sent
on the `dde_shell` proxy.  An object is named by its position in the vector. -/
structure DDEShell where
  s_ddeShellSurfaces : List DDEShellSurface.Private := []
  requests : List DDEShellRequest := []
deriving DecidableEq, Repr

namespace DDEShell

/-- The tail of `createShellSurface`: `new DDEShellSurface(parent)`, whose
`Private` constructor appends itself to `s_ddeShellSurfaces`, the request
`dde_shell_get_shell_surface`, `setup`, and the store into `parentSurface`. -/
def createNew (kwS : Option Nat) (surface : Nat) (sh : DDEShell) : DDEShell × Nat :=
  let s : DDEShellSurface.Private := { parentSurface := kwS }
  ({ s_ddeShellSurfaces := sh.s_ddeShellSurfaces ++ [s],
     requests := sh.requests ++ [DDEShellRequest.get_shell_surface surface] },
   sh.s_ddeShellSurfaces.length)

/-- The member `DDEShell::createShellSurface(wl_surface *surface, parent)`: the
client after the call and the object returned.  `Surface::get`, which answers
the `Surface` wrapper of a native surface or null, belongs to a class that is
not part of the sources and is a parameter. -/
def createShellSurface (surfaceGet : Nat → Option Nat) (surface : Nat) (sh : DDEShell) :
    DDEShell × Nat :=
  let kwS := surfaceGet surface
  match kwS with
  | some k =>
    match DDEShellSurface.Private.get sh.s_ddeShellSurfaces (some k) with
    | some s => (sh, s)
    | none => createNew kwS surface sh
  | none => createNew kwS surface sh

end DDEShell

namespace DDEShellSurface

open KWaylandServer (ShellSurfaceRequest dde_shell_property)

/-- The member `DDEShellSurface::requestGeometry()`: the request it sends. -/
def requestGeometry : ShellSurfaceRequest := ShellSurfaceRequest.get_geometry

/-- The member `DDEShellSurface::requestNoTitleBarProperty(value)`: the request
it sends, one native `int` in the array. -/
def requestNoTitleBarProperty (P : dde_shell_property) (value : Int) : ShellSurfaceRequest :=
  ShellSurfaceRequest.set_property P.NOTITLEBAR
    (KWaylandServer.ClientManagementInterface.int32Bytes value)

/-- The member `DDEShellSurface::requestSplitWindow(splitType, mode)`: the
request it sends, two native `int` in the array. -/
def requestSplitWindow (P : dde_shell_property) (splitType mode : Int) : ShellSurfaceRequest :=
  ShellSurfaceRequest.set_property P.QUICKTILE
    (KWaylandServer.ClientManagementInterface.int32Bytes splitType
      ++ KWaylandServer.ClientManagementInterface.int32Bytes mode)

end DDEShellSurface

namespace ClientManagement

open KWaylandServer (Fault ClientManagementEvent)
open KWaylandServer.ClientManagementInterface (WindowState sizeofWindowState recordsOfBytes
  memcpy)

/-- The requests the client sends on its `com_deepin_client_management` object. -/
inductive Request where
  | get_window_states
  | capture_window_image (windowId : Int) (buffer : Nat)
deriving DecidableEq, Repr

/-- The Qt signals of the client class `ClientManagement`. -/
inductive Signal where
  | windowStatesChanged
  | captionWindowDone (windowId : Int) (succeed : Bool)
deriving DecidableEq, Repr

/-- The class `ClientManagement::Private`: the cache `m_windowStates` of window
snapshots and `m_windowsCount`, with the log of the requests sent to the server
and of the signals emitted by the public object.  The struct
`ClientManagement::WindowState` is declared in a header that is not part of the
sources; as the cache is filled by `memcpy` from the server's array, it is the
server's `WindowState`. -/
structure Private where
  m_windowsCount : Nat
  m_windowStates : List WindowState := []
  requests : List Request := []
  emitted : List Signal := []
deriving DecidableEq, Repr

namespace Private

/-- A freshly constructed client object: the cache is empty; C++ leaves
`m_windowsCount` indeterminate, here it is 0. -/
def fresh : Private := { m_windowsCount := 0 }

/-- The member `ClientManagement::Private::get_window_states()`. -/
def get_window_states (p : Private) : Private :=
  { p with requests := p.requests ++ [Request.get_window_states] }

/-- The member `ClientManagement::Private::getWindowCaption(windowId, buffer)`. -/
def getWindowCaption (windowId : Int) (buffer : Nat) (p : Private) : Private :=
  { p with requests := p.requests ++ [Request.capture_window_image windowId buffer] }

/-- The member `ClientManagement::Private::addWindowStates(count,
windowStates)`, `windowStates` being the bytes of the `wl_array`.  After
`clear()` and `resize(m_windowsCount)` the vector is `m_windowsCount` zeroed
records, into whose storage `memcpy` writes all the bytes received; a count that
is negative as an `int` cannot be resized to. -/
def addWindowStates (count : Nat) (windowStates : List Nat) (p : Private) :
    Except Fault Private :=
  let p := { p with m_windowsCount := count }
  if 0 < windowStates.length ∧ windowStates.length % sizeofWindowState = 0 then
    if 2 ^ 31 ≤ p.m_windowsCount then Except.error Fault.negativeSize
    else
      match memcpy (List.replicate (p.m_windowsCount * sizeofWindowState) 0) windowStates with
      | Except.ok storage =>
        Except.ok { p with m_windowStates := recordsOfBytes p.m_windowsCount storage,
                           emitted := p.emitted ++ [Signal.windowStatesChanged] }
      | Except.error e => Except.error e
  else Except.ok p

/-- The member `ClientManagement::Private::sendWindowCaptionDone(windowId,
succeed, buffer)`. -/
def sendWindowCaptionDone (windowId : Int) (succeed : Bool) (p : Private) : Private :=
  { p with emitted := p.emitted ++ [Signal.captionWindowDone windowId succeed] }

/-- The listener table `s_clientManagementListener`: dispatches one inbound
event to `windowStatesCallback` or `windowCaptureCallback`; the client of this
version has no listener for `split_change`. -/
def s_clientManagementListener : ClientManagementEvent → Private → Except Fault Private
  | ClientManagementEvent.window_states count data, p => addWindowStates count data p
  | ClientManagementEvent.capture_callback windowId succeed _, p =>
    Except.ok (sendWindowCaptionDone windowId (succeed == 1) p)
  | ClientManagementEvent.split_change _ _, p => Except.ok p

end Private

/-- The member `ClientManagement::getWindowStates()`: the object after the call
and the vector returned. -/
def getWindowStates (p : Private) : Private × List WindowState :=
  let p1 := if p.m_windowStates.isEmpty then Private.get_window_states p else p
  (p1, p1.m_windowStates)

/-- The member `ClientManagement::getWindowCaption(windowId, buffer)`. -/
def getWindowCaption (windowId : Int) (buffer : Nat) (p : Private) : Private :=
  Private.getWindowCaption windowId buffer p

end ClientManagement

end KWayland.Client

/-! ## Theorems -/

namespace KWaylandServer

open DDEShellSurfaceInterfacePrivate

/-- Setting a flag of a 32-bit word equals clearing it first and then setting it. -/
theorem lor_eq_land_not32_lor (S F : Nat) (hS : S < 2 ^ 32) :
    S ||| F = (S &&& not32 F) ||| F := by
  apply Nat.eq_of_testBit_eq
  intro i
  simp only [not32, Nat.testBit_or, Nat.testBit_and, Nat.testBit_xor,
    Nat.testBit_two_pow_sub_one]
  by_cases hi : i < 32
  · simp only [hi, decide_True, Bool.true_xor]
    cases S.testBit i <;> cases F.testBit i <;> rfl
  · have hS' : S.testBit i = false :=
      Nat.testBit_lt_two_pow
        (lt_of_lt_of_le hS (Nat.pow_le_pow_right (by norm_num) (by omega)))
    simp [hS']

/-- A bit of a 32-bit word outside the flag survives the masked clear. -/
theorem testBit_land_not32 (S F i : Nat) (hS : S < 2 ^ 32) (hF : F.testBit i = false) :
    (S &&& not32 F).testBit i = S.testBit i := by
  simp only [not32, Nat.testBit_and, Nat.testBit_xor, Nat.testBit_two_pow_sub_one, hF,
    Bool.xor_false]
  by_cases hi : i < 32
  · simp [hi]
  · have hS' : S.testBit i = false :=
      Nat.testBit_lt_two_pow
        (lt_of_lt_of_le hS (Nat.pow_le_pow_right (by norm_num) (by omega)))
    simp [hS']

/-- The state word stored by `setState`. -/
theorem setState_m_state (F : Nat) (b : Bool) (d : DDEShellSurfaceInterfacePrivate) :
    (setState F b d).m_state = if b then d.m_state ||| F else d.m_state &&& not32 F := by
  unfold setState
  by_cases h : (if b then d.m_state ||| F else d.m_state &&& not32 F) = d.m_state
  · simp only [h, if_true]
  · simp only [h, if_false, send_state_changed]

/-- One clause of the `set_state` handler only appends to the signal log. -/
theorem requestIf_eq (flags state flag : Nat) (notice : Bool → ShellSurfaceSignal)
    (d : DDEShellSurfaceInterfacePrivate) :
    requestIf flags state flag notice d =
      { d with emitted := d.emitted ++
          (if flags &&& flag ≠ 0 then [notice (state &&& flag != 0)] else []) } := by
  unfold requestIf
  split <;> simp

/-- C1 (as amended): for every prior state, mask `M` and value `V`, handling the
client's `set_state(M, V)` request leaves the stored state word and geometry as
they were and sends no event; it emits, for each of the fifteen flags in turn,
that flag's requested notice with argument `(V & F) != 0` exactly when
`M & F != 0`. -/
theorem set_state_request_relays_only (E : dde_shell_state) (M V : Nat)
    (d : DDEShellSurfaceInterfacePrivate) :
    (dde_shell_surface_set_state E M V d).m_state = d.m_state
      ∧ (dde_shell_surface_set_state E M V d).m_geometry = d.m_geometry
      ∧ (dde_shell_surface_set_state E M V d).sent = d.sent
      ∧ (dde_shell_surface_set_state E M V d).emitted = d.emitted ++ requestedNotices E M V := by
  simp only [dde_shell_surface_set_state, requestIf_eq, requestedNotices, List.flatMap_cons,
    List.flatMap_nil, List.append_nil, List.append_assoc, and_self]

/-- C1 (counterexample): on a fresh shell surface (state 0) the request
`set_state(1, 1)` leaves the stored state 0, not `(0 & ~1) | (1 & 1) = 1`. -/
theorem set_state_request_not_masked_set :
    (dde_shell_surface_set_state DDE_SHELL_STATE 1 1 fresh).m_state
      ≠ (fresh.m_state &&& not32 1) ||| (1 &&& 1) := by
  decide

/-- C2: for every 32-bit state `S`, flag `F` and boolean `b`, `setState(F, b)`
leaves the stored state equal to `(S & ~F) | (b ? F : 0)`, and every bit outside
`F` keeps its prior value. -/
theorem setState_masked (F : Nat) (b : Bool) (d : DDEShellSurfaceInterfacePrivate)
    (hS : d.m_state < 2 ^ 32) :
    (setState F b d).m_state = (d.m_state &&& not32 F) ||| (if b then F else 0)
      ∧ ∀ i, F.testBit i = false →
          (setState F b d).m_state.testBit i = d.m_state.testBit i := by
  rw [setState_m_state]
  cases b
  · refine ⟨by simp, fun i hF => ?_⟩
    simpa using testBit_land_not32 d.m_state F i hS hF
  · refine ⟨by simpa using lor_eq_land_not32_lor d.m_state F hS, fun i hF => ?_⟩
    simp [Nat.testBit_or, hF]

/-- C2 (witness): clearing the flag 4 of the state 7 gives 3. -/
theorem setState_masked_witness :
    ((7 : Nat) < 2 ^ 32) ∧
    ((setState 4 false { m_state := 7 }).m_state = (7 &&& not32 4) ||| (if false then 4 else 0)
      ∧ ∀ i, (4 : Nat).testBit i = false →
          (setState 4 false { m_state := 7 }).m_state.testBit i = (7 : Nat).testBit i) :=
  ⟨by decide, setState_masked 4 false { m_state := 7 } (by decide)⟩

/-- C3: with `N` the masked new word of `setState(F, b)` on the prior state
`S`, `N = S | F` when `b` and `N = S & ~F` when not, the call stores `N` and,
when `N` differs from `S`, sends exactly one `state_changed` event whose payload
is the entire word `N`; when `N` equals `S` it sends nothing and changes
nothing.  Geometry and signals are never touched.  A second identical call is a
no-op, so two identical calls in a row send at most one event. -/
theorem setState_event (F : Nat) (b : Bool) (d : DDEShellSurfaceInterfacePrivate) :
    (setState F b d).m_state = (if b then d.m_state ||| F else d.m_state &&& not32 F)
      ∧ (setState F b d).sent =
          (if (if b then d.m_state ||| F else d.m_state &&& not32 F) = d.m_state then d.sent
           else d.sent ++ [ShellSurfaceEvent.state_changed
             (if b then d.m_state ||| F else d.m_state &&& not32 F)])
      ∧ (setState F b d).m_geometry = d.m_geometry
      ∧ (setState F b d).emitted = d.emitted
      ∧ (setState F b d).sent =
          (if (setState F b d).m_state = d.m_state then d.sent
           else d.sent ++ [ShellSurfaceEvent.state_changed (setState F b d).m_state])
      ∧ (if (setState F b d).m_state = d.m_state then setState F b d = d else True)
      ∧ setState F b (setState F b d) = setState F b d
      ∧ (setState F b (setState F b d)).sent.length ≤ d.sent.length + 1 := by
  have hidem : setState F b (setState F b d) = setState F b d := by
    have hm := setState_m_state F b d
    generalize setState F b d = d1 at hm
    unfold setState
    have : (if b then d1.m_state ||| F else d1.m_state &&& not32 F) = d1.m_state := by
      rw [hm]
      cases b
      · simp [Nat.land_assoc]
      · simp [Nat.lor_assoc]
    simp only [this, if_true]
  refine ⟨setState_m_state F b d, ?_, ?_, ?_, ?_, ?_, hidem, ?_⟩
  · unfold setState
    by_cases h : (if b then d.m_state ||| F else d.m_state &&& not32 F) = d.m_state
    · simp only [h, if_true]
    · simp only [h, if_false, send_state_changed]
  · unfold setState
    by_cases h : (if b then d.m_state ||| F else d.m_state &&& not32 F) = d.m_state
    · simp only [h, if_true]
    · simp only [h, if_false, send_state_changed]
  · unfold setState
    by_cases h : (if b then d.m_state ||| F else d.m_state &&& not32 F) = d.m_state
    · simp only [h, if_true]
    · simp only [h, if_false, send_state_changed]
  · unfold setState
    by_cases h : (if b then d.m_state ||| F else d.m_state &&& not32 F) = d.m_state
    · simp only [h, if_true]
    · simp only [h, if_false, send_state_changed]
  · unfold setState
    by_cases h : (if b then d.m_state ||| F else d.m_state &&& not32 F) = d.m_state
    · simp only [h, if_true]
    · simp only [h, if_false, send_state_changed]
  · rw [hidem]
    unfold setState
    by_cases h : (if b then d.m_state ||| F else d.m_state &&& not32 F) = d.m_state
    · simp only [h, if_true]; omega
    · simp [h, send_state_changed]

/-- A rectangle is valid exactly when its width and height are positive. -/
theorem QRect_isValid_iff (r : QRect) :
    r.isValid = true ↔ 0 < r.width ∧ 0 < r.height := by
  simp only [QRect.isValid, QRect.width, QRect.height, Bool.and_eq_true, decide_eq_true_eq]
  constructor <;> rintro ⟨h1, h2⟩ <;> constructor <;> omega

/-- C6: for every valid rectangle `r` (width > 0 and height > 0) that differs
from the stored geometry, `sendGeometry(r); sendGeometry(r)` sends exactly one
geometry event in total, carrying `(r.x, r.y, r.width, r.height)`: the first
call sends it and stores `r`, the second call sends nothing and changes
nothing. -/
theorem sendGeometry_twice (r : QRect) (d : DDEShellSurfaceInterfacePrivate)
    (hw : 0 < r.width) (hh : 0 < r.height) (hne : d.m_geometry ≠ r) :
    (sendGeometry r d).sent = d.sent ++ [ShellSurfaceEvent.geometry r.x r.y r.width r.height]
      ∧ (sendGeometry r d).m_geometry = r
      ∧ sendGeometry r (sendGeometry r d) = sendGeometry r d
      ∧ (sendGeometry r (sendGeometry r d)).sent
          = d.sent ++ [ShellSurfaceEvent.geometry r.x r.y r.width r.height] := by
  have hv : r.isValid = true := (QRect_isValid_iff r).2 ⟨hw, hh⟩
  have h1 : sendGeometry r d = send_geometry r.x r.y r.width r.height { d with m_geometry := r } := by
    unfold sendGeometry
    simp [hne, hv]
  have h2 : sendGeometry r (sendGeometry r d) = sendGeometry r d := by
    rw [h1]
    unfold sendGeometry
    simp [send_geometry]
  refine ⟨?_, ?_, h2, ?_⟩
  · rw [h1]; rfl
  · rw [h1]; rfl
  · rw [h2, h1]; rfl

/-- C6 (witness): sending the rectangle `(0, 0, 800, 600)` twice to a fresh
shell surface. -/
theorem sendGeometry_twice_witness :
    (0 < (QRect.ofXYWH 0 0 800 600).width ∧ 0 < (QRect.ofXYWH 0 0 800 600).height
      ∧ fresh.m_geometry ≠ QRect.ofXYWH 0 0 800 600)
    ∧ (sendGeometry (QRect.ofXYWH 0 0 800 600) (sendGeometry (QRect.ofXYWH 0 0 800 600) fresh)).sent
        = fresh.sent ++ [ShellSurfaceEvent.geometry 0 0 800 600] :=
  ⟨⟨by decide, by decide, by decide⟩,
    (sendGeometry_twice (QRect.ofXYWH 0 0 800 600) fresh (by decide) (by decide)
      (by decide)).2.2.2⟩

/-- C7: for every server state and every degenerate rectangle `d` (width <= 0
or height <= 0), `sendGeometry(d)` sends no geometry event. -/
theorem sendGeometry_degenerate (r : QRect) (d : DDEShellSurfaceInterfacePrivate)
    (hdeg : r.width ≤ 0 ∨ r.height ≤ 0) :
    (sendGeometry r d).sent = d.sent := by
  have hv : r.isValid = false := by
    cases hvr : r.isValid
    · rfl
    · have := (QRect_isValid_iff r).1 hvr
      omega
  unfold sendGeometry
  by_cases h : d.m_geometry = r
  · simp [h]
  · simp [h, hv]

/-- C7 (witness): a rectangle of width 0 sent to a shell surface whose stored
geometry is `(0, 0, 800, 600)`. -/
theorem sendGeometry_degenerate_witness :
    ((QRect.ofXYWH 5 5 0 10).width ≤ 0 ∨ (QRect.ofXYWH 5 5 0 10).height ≤ 0)
    ∧ (sendGeometry (QRect.ofXYWH 5 5 0 10) (sendGeometry (QRect.ofXYWH 0 0 800 600) fresh)).sent
        = (sendGeometry (QRect.ofXYWH 0 0 800 600) fresh).sent :=
  ⟨by decide,
    sendGeometry_degenerate (QRect.ofXYWH 5 5 0 10)
      (sendGeometry (QRect.ofXYWH 0 0 800 600) fresh) (by decide)⟩

/-- C8 (the code at the failing input): after `sendGeometry(0, 0, 800, 600)` has
stored a geometry, a `get_geometry` request sends nothing: the only geometry
event on the resource is the one `sendGeometry` itself sent, and the stored
state and geometry are unchanged. -/
theorem get_geometry_request_sends_nothing :
    (dde_shell_surface_get_geometry (sendGeometry (QRect.ofXYWH 0 0 800 600) fresh)).sent
        = [ShellSurfaceEvent.geometry 0 0 800 600]
      ∧ (dde_shell_surface_get_geometry (sendGeometry (QRect.ofXYWH 0 0 800 600) fresh)).m_geometry
        = QRect.ofXYWH 0 0 800 600
      ∧ (dde_shell_surface_get_geometry (sendGeometry (QRect.ofXYWH 0 0 800 600) fresh)).m_state
        = 0 := by
  decide

end KWaylandServer

namespace KWayland.Client

open KWaylandServer
open KWaylandServer.DDEShellSurfaceInterfacePrivate (setState send_state_changed send_geometry)
open DDEShellSurface DDEShellSurface.Private

/-- The client setter `setActive` as one record update. -/
theorem setActive_eq (set : Bool) (p : Private) :
    setActive set p = { p with active := set, emitted :=
      p.emitted ++ (if p.active = set then [] else [DDEShellSurfaceSignal.activeChanged]) } := by
  unfold setActive
  by_cases h : p.active = set
  · subst h; simp
  · simp [h]

/-- The client setter `setOnAllDesktops` as one record update. -/
theorem setOnAllDesktops_eq (set : Bool) (p : Private) :
    setOnAllDesktops set p = { p with onAllDesktops := set, emitted :=
      p.emitted ++ (if p.onAllDesktops = set then [] else [DDEShellSurfaceSignal.onAllDesktopsChanged]) } := by
  unfold setOnAllDesktops
  by_cases h : p.onAllDesktops = set
  · subst h; simp
  · simp [h]

/-- The client setter `setFullscreen` as one record update. -/
theorem setFullscreen_eq (set : Bool) (p : Private) :
    setFullscreen set p = { p with fullscreen := set, emitted :=
      p.emitted ++ (if p.fullscreen = set then [] else [DDEShellSurfaceSignal.fullscreenChanged]) } := by
  unfold setFullscreen
  by_cases h : p.fullscreen = set
  · subst h; simp
  · simp [h]

/-- The client setter `setKeepAbove` as one record update. -/
theorem setKeepAbove_eq (set : Bool) (p : Private) :
    setKeepAbove set p = { p with keepAbove := set, emitted :=
      p.emitted ++ (if p.keepAbove = set then [] else [DDEShellSurfaceSignal.keepAboveChanged]) } := by
  unfold setKeepAbove
  by_cases h : p.keepAbove = set
  · subst h; simp
  · simp [h]

/-- The client setter `setKeepBelow` as one record update. -/
theorem setKeepBelow_eq (set : Bool) (p : Private) :
    setKeepBelow set p = { p with keepBelow := set, emitted :=
      p.emitted ++ (if p.keepBelow = set then [] else [DDEShellSurfaceSignal.keepBelowChanged]) } := by
  unfold setKeepBelow
  by_cases h : p.keepBelow = set
  · subst h; simp
  · simp [h]

/-- The client setter `setMaximized` as one record update. -/
theorem setMaximized_eq (set : Bool) (p : Private) :
    setMaximized set p = { p with maximized := set, emitted :=
      p.emitted ++ (if p.maximized = set then [] else [DDEShellSurfaceSignal.maximizedChanged]) } := by
  unfold setMaximized
  by_cases h : p.maximized = set
  · subst h; simp
  · simp [h]

/-- The client setter `setMinimized` as one record update. -/
theorem setMinimized_eq (set : Bool) (p : Private) :
    setMinimized set p = { p with minimized := set, emitted :=
      p.emitted ++ (if p.minimized = set then [] else [DDEShellSurfaceSignal.minimizedChanged]) } := by
  unfold setMinimized
  by_cases h : p.minimized = set
  · subst h; simp
  · simp [h]

/-- The client setter `setCloseable` as one record update. -/
theorem setCloseable_eq (set : Bool) (p : Private) :
    setCloseable set p = { p with closeable := set, emitted :=
      p.emitted ++ (if p.closeable = set then [] else [DDEShellSurfaceSignal.closeableChanged]) } := by
  unfold setCloseable
  by_cases h : p.closeable = set
  · subst h; simp
  · simp [h]

/-- The client setter `setFullscreenable` as one record update. -/
theorem setFullscreenable_eq (set : Bool) (p : Private) :
    setFullscreenable set p = { p with fullscreenable := set, emitted :=
      p.emitted ++ (if p.fullscreenable = set then [] else [DDEShellSurfaceSignal.fullscreenableChanged]) } := by
  unfold setFullscreenable
  by_cases h : p.fullscreenable = set
  · subst h; simp
  · simp [h]

/-- The client setter `setMaximizeable` as one record update. -/
theorem setMaximizeable_eq (set : Bool) (p : Private) :
    setMaximizeable set p = { p with maximizeable := set, emitted :=
      p.emitted ++ (if p.maximizeable = set then [] else [DDEShellSurfaceSignal.maximizeableChanged]) } := by
  unfold setMaximizeable
  by_cases h : p.maximizeable = set
  · subst h; simp
  · simp [h]

/-- The client setter `setMinimizeable` as one record update. -/
theorem setMinimizeable_eq (set : Bool) (p : Private) :
    setMinimizeable set p = { p with minimizeable := set, emitted :=
      p.emitted ++ (if p.minimizeable = set then [] else [DDEShellSurfaceSignal.minimizeableChanged]) } := by
  unfold setMinimizeable
  by_cases h : p.minimizeable = set
  · subst h; simp
  · simp [h]

/-- The client setter `setMovable` as one record update. -/
theorem setMovable_eq (set : Bool) (p : Private) :
    setMovable set p = { p with movable := set, emitted :=
      p.emitted ++ (if p.movable = set then [] else [DDEShellSurfaceSignal.movableChanged]) } := by
  unfold setMovable
  by_cases h : p.movable = set
  · subst h; simp
  · simp [h]

/-- The client setter `setResizable` as one record update. -/
theorem setResizable_eq (set : Bool) (p : Private) :
    setResizable set p = { p with resizable := set, emitted :=
      p.emitted ++ (if p.resizable = set then [] else [DDEShellSurfaceSignal.resizableChanged]) } := by
  unfold setResizable
  by_cases h : p.resizable = set
  · subst h; simp
  · simp [h]

/-- The client setter `setAcceptFocus` as one record update. -/
theorem setAcceptFocus_eq (set : Bool) (p : Private) :
    setAcceptFocus set p = { p with acceptFocus := set, emitted :=
      p.emitted ++ (if p.acceptFocus = set then [] else [DDEShellSurfaceSignal.acceptFocusChanged]) } := by
  unfold setAcceptFocus
  by_cases h : p.acceptFocus = set
  · subst h; simp
  · simp [h]

/-- The client setter `setModal` as one record update. -/
theorem setModal_eq (set : Bool) (p : Private) :
    setModal set p = { p with modality := set, emitted :=
      p.emitted ++ (if p.modality = set then [] else [DDEShellSurfaceSignal.modalityChanged]) } := by
  unfold setModal
  by_cases h : p.modality = set
  · subst h; simp
  · simp [h]

/-- A conditional store into `splitable` leaves the fourteen accessors as
they were. -/
theorem splitable_store_mirrors (E : dde_shell_state) (state : Nat) (c : Prop) [Decidable c]
    (n : Int) (p : Private) (hp : Mirrors E state p) :
    Mirrors E state (if c then { p with splitable := n } else p) := by
  split
  · exact hp
  · exact hp

/-- After the fifteen setters of `stateChangedCallback` the fourteen accessors
mirror the event's state word, whatever the mirror held before. -/
theorem setters_mirror (E : dde_shell_state) (state : Nat) (p : Private) :
    Mirrors E state
      (p
        |> setActive (state &&& E.ACTIVE != 0)
        |> setMinimized (state &&& E.MINIMIZED != 0)
        |> setMaximized (state &&& E.MAXIMIZED != 0)
        |> setFullscreen (state &&& E.FULLSCREEN != 0)
        |> setKeepAbove (state &&& E.KEEP_ABOVE != 0)
        |> setKeepBelow (state &&& E.KEEP_BELOW != 0)
        |> setOnAllDesktops (state &&& E.ON_ALL_DESKTOPS != 0)
        |> setCloseable (state &&& E.CLOSEABLE != 0)
        |> setFullscreenable (state &&& E.FULLSCREENABLE != 0)
        |> setMaximizeable (state &&& E.MAXIMIZABLE != 0)
        |> setMinimizeable (state &&& E.MINIMIZABLE != 0)
        |> setMovable (state &&& E.MOVABLE != 0)
        |> setResizable (state &&& E.RESIZABLE != 0)
        |> setAcceptFocus ((state * E.ACCEPT_FOCUS) % 2 ^ 32 != 0)
        |> setModal (state &&& E.MODALITY != 0)) := by
  simp only [Mirrors, setActive_eq, setOnAllDesktops_eq, setFullscreen_eq, setKeepAbove_eq, setKeepBelow_eq, setMaximized_eq, setMinimized_eq, setCloseable_eq, setFullscreenable_eq, setMaximizeable_eq, setMinimizeable_eq, setMovable_eq, setResizable_eq, setAcceptFocus_eq, setModal_eq,
    isActive, isMinimized, isMaximized, isFullscreen, isKeepAbove, isKeepBelow, isOnAllDesktops, isCloseable, isMinimizeable, isMaximizeable, isFullscreenable, isMovable, isResizable, isModal, and_self]

/-- After a `state_changed` event the fourteen accessors mirror the event's
state word, whatever the mirror held before. -/
theorem stateChangedCallback_mirrors (E : dde_shell_state) (state : Nat) (p : Private) :
    Mirrors E state (stateChangedCallback E state p) := by
  unfold stateChangedCallback
  exact splitable_store_mirrors E state _ _ _
    (splitable_store_mirrors E state _ _ _
      (splitable_store_mirrors E state _ _ _ (setters_mirror E state p)))

/-- A geometry event leaves the fourteen accessors as they were. -/
theorem geometryCallback_mirrors (E : dde_shell_state) (state : Nat) (x y w h : Int)
    (p : Private) (hp : Mirrors E state p) :
    Mirrors E state (geometryCallback x y w h p) := by
  unfold geometryCallback
  by_cases hg : QRect.ofXYWH x y w h = p.geometry
  · simp only [hg, if_true]
    exact hp
  · simp only [hg, if_false]
    exact hp

/-- Delivering the events after a further event was appended. -/
theorem deliver_append_singleton (E : dde_shell_state) (events : List ShellSurfaceEvent)
    (e : ShellSurfaceEvent) (p : Private) :
    deliver E (events ++ [e]) p = s_listener E e (deliver E events p) := by
  simp [deliver, List.foldl_append]

/-- The server's `setState` keeps the client mirror in step. -/
theorem setState_keeps_mirror (E : dde_shell_state) (F : Nat) (b : Bool)
    (d : DDEShellSurfaceInterfacePrivate)
    (hd : Mirrors E d.m_state (deliver E d.sent fresh)) :
    Mirrors E (setState F b d).m_state (deliver E (setState F b d).sent fresh) := by
  unfold setState
  by_cases h : (if b then d.m_state ||| F else d.m_state &&& not32 F) = d.m_state
  · simp only [h, if_true]
    exact hd
  · simp only [h, if_false, send_state_changed, deliver_append_singleton, s_listener]
    exact stateChangedCallback_mirrors E _ _

/-- The server's `sendGeometry` keeps the client mirror in step. -/
theorem sendGeometry_keeps_mirror (E : dde_shell_state) (r : QRect)
    (d : DDEShellSurfaceInterfacePrivate)
    (hd : Mirrors E d.m_state (deliver E d.sent fresh)) :
    Mirrors E (DDEShellSurfaceInterfacePrivate.sendGeometry r d).m_state
      (deliver E (DDEShellSurfaceInterfacePrivate.sendGeometry r d).sent fresh) := by
  unfold DDEShellSurfaceInterfacePrivate.sendGeometry
  by_cases h : d.m_geometry = r
  · simp only [h, if_true]
    exact hd
  · by_cases hv : r.isValid = true
    · simp only [h, hv, if_false, send_geometry, deliver_append_singleton, s_listener,
        Bool.not_true, Bool.false_eq_true]
      exact geometryCallback_mirrors E _ _ _ _ _ _ hd
    · simp only [Bool.not_eq_true] at hv
      simp only [h, hv, if_false, Bool.not_false, if_true]
      exact hd

/-- Every call of the downward interface keeps the client mirror in step. -/
theorem apply_keeps_mirror (E : dde_shell_state) (c : ServerCall)
    (d : DDEShellSurfaceInterfacePrivate)
    (hd : Mirrors E d.m_state (deliver E d.sent fresh)) :
    Mirrors E (ServerCall.apply E c d).m_state (deliver E (ServerCall.apply E c d).sent fresh) := by
  cases c with
  | sendGeometry geom => exact sendGeometry_keeps_mirror E geom d hd
  | sendSplitable n =>
    simp only [ServerCall.apply, DDEShellSurfaceInterface.sendSplitable]
    split_ifs <;>
      first
        | exact setState_keeps_mirror E _ _ _
            (setState_keeps_mirror E _ _ _ (setState_keeps_mirror E _ _ _ hd))
        | exact setState_keeps_mirror E _ _ _ hd
  | setActive set => exact setState_keeps_mirror E _ set d hd
  | setFullscreen set => exact setState_keeps_mirror E _ set d hd
  | setKeepAbove set => exact setState_keeps_mirror E _ set d hd
  | setKeepBelow set => exact setState_keeps_mirror E _ set d hd
  | setOnAllDesktops set => exact setState_keeps_mirror E _ set d hd
  | setMaximized set => exact setState_keeps_mirror E _ set d hd
  | setMinimized set => exact setState_keeps_mirror E _ set d hd
  | setCloseable set => exact setState_keeps_mirror E _ set d hd
  | setFullscreenable set => exact setState_keeps_mirror E _ set d hd
  | setMaximizeable set => exact setState_keeps_mirror E _ set d hd
  | setMinimizeable set => exact setState_keeps_mirror E _ set d hd
  | setMovable set => exact setState_keeps_mirror E _ set d hd
  | setResizable set => exact setState_keeps_mirror E _ set d hd
  | setAcceptFocus set => exact setState_keeps_mirror E _ set d hd
  | setModal set => exact setState_keeps_mirror E _ set d hd

/-- Every sequence of calls of the downward interface keeps the client mirror
in step. -/
theorem run_keeps_mirror (E : dde_shell_state) (calls : List ServerCall)
    (d : DDEShellSurfaceInterfacePrivate)
    (hd : Mirrors E d.m_state (deliver E d.sent fresh)) :
    Mirrors E (ServerCall.run E calls d).m_state
      (deliver E (ServerCall.run E calls d).sent fresh) := by
  induction calls generalizing d with
  | nil => exact hd
  | cons c rest ih => exact ih (ServerCall.apply E c d) (apply_keeps_mirror E c d hd)

/-- C4: starting from a freshly created server shell surface and its client
mirror, after any finite sequence of server flag setters (and of `sendGeometry`
and `sendSplitable` calls), with every event the server sent delivered to the
client in order, each of the fourteen client accessors `isActive`, ...,
`isModal` equals the corresponding bit of the server's stored state. -/
theorem client_mirrors_server_flags (E : dde_shell_state) (calls : List ServerCall) :
    isActive (deliver E (ServerCall.run E calls DDEShellSurfaceInterfacePrivate.fresh).sent fresh)
          = ((ServerCall.run E calls DDEShellSurfaceInterfacePrivate.fresh).m_state &&& E.ACTIVE != 0)
      ∧ isMinimized (deliver E (ServerCall.run E calls DDEShellSurfaceInterfacePrivate.fresh).sent fresh)
          = ((ServerCall.run E calls DDEShellSurfaceInterfacePrivate.fresh).m_state &&& E.MINIMIZED != 0)
      ∧ isMaximized (deliver E (ServerCall.run E calls DDEShellSurfaceInterfacePrivate.fresh).sent fresh)
          = ((ServerCall.run E calls DDEShellSurfaceInterfacePrivate.fresh).m_state &&& E.MAXIMIZED != 0)
      ∧ isFullscreen (deliver E (ServerCall.run E calls DDEShellSurfaceInterfacePrivate.fresh).sent fresh)
          = ((ServerCall.run E calls DDEShellSurfaceInterfacePrivate.fresh).m_state &&& E.FULLSCREEN != 0)
      ∧ isKeepAbove (deliver E (ServerCall.run E calls DDEShellSurfaceInterfacePrivate.fresh).sent fresh)
          = ((ServerCall.run E calls DDEShellSurfaceInterfacePrivate.fresh).m_state &&& E.KEEP_ABOVE != 0)
      ∧ isKeepBelow (deliver E (ServerCall.run E calls DDEShellSurfaceInterfacePrivate.fresh).sent fresh)
          = ((ServerCall.run E calls DDEShellSurfaceInterfacePrivate.fresh).m_state &&& E.KEEP_BELOW != 0)
      ∧ isOnAllDesktops (deliver E (ServerCall.run E calls DDEShellSurfaceInterfacePrivate.fresh).sent fresh)
          = ((ServerCall.run E calls DDEShellSurfaceInterfacePrivate.fresh).m_state &&& E.ON_ALL_DESKTOPS != 0)
      ∧ isCloseable (deliver E (ServerCall.run E calls DDEShellSurfaceInterfacePrivate.fresh).sent fresh)
          = ((ServerCall.run E calls DDEShellSurfaceInterfacePrivate.fresh).m_state &&& E.CLOSEABLE != 0)
      ∧ isMinimizeable (deliver E (ServerCall.run E calls DDEShellSurfaceInterfacePrivate.fresh).sent fresh)
          = ((ServerCall.run E calls DDEShellSurfaceInterfacePrivate.fresh).m_state &&& E.MINIMIZABLE != 0)
      ∧ isMaximizeable (deliver E (ServerCall.run E calls DDEShellSurfaceInterfacePrivate.fresh).sent fresh)
          = ((ServerCall.run E calls DDEShellSurfaceInterfacePrivate.fresh).m_state &&& E.MAXIMIZABLE != 0)
      ∧ isFullscreenable (deliver E (ServerCall.run E calls DDEShellSurfaceInterfacePrivate.fresh).sent fresh)
          = ((ServerCall.run E calls DDEShellSurfaceInterfacePrivate.fresh).m_state &&& E.FULLSCREENABLE != 0)
      ∧ isMovable (deliver E (ServerCall.run E calls DDEShellSurfaceInterfacePrivate.fresh).sent fresh)
          = ((ServerCall.run E calls DDEShellSurfaceInterfacePrivate.fresh).m_state &&& E.MOVABLE != 0)
      ∧ isResizable (deliver E (ServerCall.run E calls DDEShellSurfaceInterfacePrivate.fresh).sent fresh)
          = ((ServerCall.run E calls DDEShellSurfaceInterfacePrivate.fresh).m_state &&& E.RESIZABLE != 0)
      ∧ isModal (deliver E (ServerCall.run E calls DDEShellSurfaceInterfacePrivate.fresh).sent fresh)
          = ((ServerCall.run E calls DDEShellSurfaceInterfacePrivate.fresh).m_state &&& E.MODALITY != 0) := by
  have h0 : Mirrors E DDEShellSurfaceInterfacePrivate.fresh.m_state
      (deliver E DDEShellSurfaceInterfacePrivate.fresh.sent fresh) := by
    simp [Mirrors, DDEShellSurfaceInterfacePrivate.fresh, deliver, fresh, isActive, isMinimized, isMaximized, isFullscreen, isKeepAbove, isKeepBelow, isOnAllDesktops, isCloseable, isMinimizeable, isMaximizeable, isFullscreenable, isMovable, isResizable, isModal]
  exact run_keeps_mirror E calls DDEShellSurfaceInterfacePrivate.fresh h0

/-- A conditional store into `splitable` leaves `isAcceptFocus` as it was. -/
theorem splitable_store_acceptFocus (c : Prop) [Decidable c] (n : Int) (q : Private) :
    isAcceptFocus (if c then { q with splitable := n } else q) = isAcceptFocus q := by
  split <;> rfl

/-- What `isAcceptFocus` holds after a `state_changed` event: whether the 32-bit
product of the state word and the accept-focus enumerator is non-zero. -/
theorem stateChangedCallback_acceptFocus (E : dde_shell_state) (state : Nat) (p : Private) :
    isAcceptFocus (stateChangedCallback E state p)
      = ((state * E.ACCEPT_FOCUS) % 2 ^ 32 != 0) := by
  unfold stateChangedCallback
  refine (splitable_store_acceptFocus _ _ _).trans
    ((splitable_store_acceptFocus _ _ _).trans ((splitable_store_acceptFocus _ _ _).trans ?_))
  simp only [isAcceptFocus, setActive_eq, setOnAllDesktops_eq, setFullscreen_eq, setKeepAbove_eq,
    setKeepBelow_eq, setMaximized_eq, setMinimized_eq, setCloseable_eq, setFullscreenable_eq,
    setMaximizeable_eq, setMinimizeable_eq, setMovable_eq, setResizable_eq, setAcceptFocus_eq,
    setModal_eq]

/-- Whenever the accept-focus enumerator is a single bit other than bit 0, the
state word 1, in which that bit is clear, makes `isAcceptFocus` true. -/
theorem acceptFocus_true_without_bit (E : dde_shell_state) (k : Nat) (hk : 1 ≤ k)
    (hk32 : k < 32) (hE : E.ACCEPT_FOCUS = 2 ^ k) (p : Private) :
    isAcceptFocus (stateChangedCallback E 1 p) = true ∧ 1 &&& E.ACCEPT_FOCUS = 0 := by
  rw [stateChangedCallback_acceptFocus, hE]
  constructor
  · have hlt : 2 ^ k < 2 ^ 32 := Nat.pow_lt_pow_right (by norm_num) hk32
    have hpos : 0 < 2 ^ k := Nat.two_pow_pos k
    simp only [one_mul, Nat.mod_eq_of_lt hlt, bne_iff_ne, ne_eq]
    omega
  · obtain ⟨j, rfl⟩ : ∃ j, k = j + 1 := ⟨k - 1, by omega⟩
    rw [Nat.land_comm, Nat.and_one_is_mod, pow_succ, Nat.mul_mod_left]

/-- C5 (the code at the failing input): a client that has been told the state 0
holds `isAcceptFocus() = false`; the event `state_changed(1)`, whose
accept-focus bit is clear, then makes `isAcceptFocus()` true. -/
theorem state_changed_acceptFocus_by_product :
    isAcceptFocus (stateChangedCallback DDE_SHELL_STATE 0 fresh) = false
      ∧ 1 &&& DDE_SHELL_STATE.ACCEPT_FOCUS = 0
      ∧ isAcceptFocus
          (stateChangedCallback DDE_SHELL_STATE 1 (stateChangedCallback DDE_SHELL_STATE 0 fresh))
        = true := by
  decide

end KWayland.Client

namespace KWaylandServer

open ClientManagementInterface ClientManagementInterfacePrivate

/-- The copy loop of `setWindowStates` touches only the array and its count. -/
theorem setWindowStatesLoop_frame (L : List WindowState) (i : Nat)
    (d : ClientManagementInterfacePrivate) :
    (setWindowStatesLoop L i d).resourceMap = d.resourceMap
      ∧ (setWindowStatesLoop L i d).sent = d.sent
      ∧ (setWindowStatesLoop L i d).emitted = d.emitted
      ∧ (setWindowStatesLoop L i d).m_splitUuid = d.m_splitUuid
      ∧ (setWindowStatesLoop L i d).m_splitable = d.m_splitable := by
  induction L generalizing i d with
  | nil => simp [setWindowStatesLoop]
  | cons w rest ih =>
    unfold setWindowStatesLoop
    by_cases h : i < MAX_WINDOWS
    · simp only [h, dif_pos]
      exact ih (i + 1) _
    · simp [h]

/-- The count left by the copy loop of `setWindowStates`. -/
theorem setWindowStatesLoop_count (L : List WindowState) (i : Nat)
    (d : ClientManagementInterfacePrivate) :
    (setWindowStatesLoop L i d).m_windowCount
      = if L = [] ∨ MAX_WINDOWS ≤ i then d.m_windowCount else min (i + L.length) MAX_WINDOWS := by
  induction L generalizing i d with
  | nil => simp [setWindowStatesLoop]
  | cons w rest ih =>
    unfold setWindowStatesLoop
    by_cases h : i < MAX_WINDOWS
    · simp only [h, dif_pos]
      rw [ih]
      have h1 : ¬ MAX_WINDOWS ≤ i := by omega
      simp only [List.cons_ne_nil, h1, or_self, if_false, List.length_cons]
      by_cases hr : rest = []
      · subst hr
        simp only [true_or, if_true, List.length_nil]
        omega
      · by_cases h2 : MAX_WINDOWS ≤ i + 1
        · simp only [h2, or_true, if_true]
          omega
        · simp only [hr, h2, or_self, if_false]
          omega
    · have h1 : MAX_WINDOWS ≤ i := by omega
      simp [h, h1]

/-- The array left by the copy loop of `setWindowStates`: the list elements
land at consecutive indices from `i` on, the other entries stay. -/
theorem setWindowStatesLoop_entries (L : List WindowState) (i : Nat)
    (d : ClientManagementInterfacePrivate) (j : Fin MAX_WINDOWS) :
    (setWindowStatesLoop L i d).m_windowStates j
      = if h : i ≤ j.val ∧ j.val - i < L.length then L.get ⟨j.val - i, h.2⟩
        else d.m_windowStates j := by
  induction L generalizing i d with
  | nil => simp [setWindowStatesLoop]
  | cons w rest ih =>
    unfold setWindowStatesLoop
    by_cases h : i < MAX_WINDOWS
    · simp only [h, dif_pos]
      rw [ih]
      by_cases hij : i = j.val
      · have hj : j = ⟨i, h⟩ := Fin.ext hij.symm
        have h1 : ¬ (i + 1 ≤ j.val ∧ j.val - (i + 1) < rest.length) := by omega
        have h2 : i ≤ j.val ∧ j.val - i < (w :: rest).length := by
          simp only [List.length_cons]; omega
        rw [dif_neg h1, dif_pos h2]
        subst hj
        simp only [Function.update_same, List.get_eq_getElem, Nat.sub_self,
          List.getElem_cons_zero]
      · by_cases h1 : i + 1 ≤ j.val ∧ j.val - (i + 1) < rest.length
        · have h2 : i ≤ j.val ∧ j.val - i < (w :: rest).length := by
            simp only [List.length_cons]; omega
          rw [dif_pos h1, dif_pos h2]
          have h3 : j.val - i = (j.val - (i + 1)) + 1 := by omega
          simp only [List.get_eq_getElem, h3, List.getElem_cons_succ]
        · have h2 : ¬ (i ≤ j.val ∧ j.val - i < (w :: rest).length) := by
            simp only [List.length_cons]; omega
          rw [dif_neg h1, dif_neg h2]
          have hne : j ≠ ⟨i, h⟩ := fun hj => hij (by rw [hj])
          simp [Function.update_noteq hne]
    · have h2 : ¬ (i ≤ j.val ∧ j.val - i < (w :: rest).length) := by
        have := j.isLt
        omega
      simp only [h, dif_neg, not_false_eq_true]
      rw [dif_neg h2]

/-- The broadcast loop, when the count is within the array: one `window_states`
event per resource, in order, and nothing else changes. -/
theorem updateWindowStatesLoop_ok (rs : List Nat) (d : ClientManagementInterfacePrivate)
    (hc : d.m_windowCount ≤ MAX_WINDOWS) :
    updateWindowStatesLoop rs d = Except.ok { d with sent := d.sent ++ rs.map (fun r =>
      (r, ClientManagementEvent.window_states d.m_windowCount
        (((List.ofFn d.m_windowStates).take d.m_windowCount).flatMap WindowState.toBytes))) } := by
  induction rs generalizing d with
  | nil =>
    simp only [updateWindowStatesLoop, List.map_nil, List.append_nil]
  | cons r rest ih =>
    unfold updateWindowStatesLoop
    simp only [sendWindowStates, fillArray, hc, if_true]
    rw [ih]
    · simp only [List.map_cons, List.append_assoc, List.singleton_append]
    · exact hc

/-- What `setWindowStates` does, when the count left by the copy loop is within
the array: the copy loop, the signal, and one `window_states` event per bound
resource. -/
theorem setWindowStates_ok (L : List WindowState) (d : ClientManagementInterfacePrivate)
    (hc : (setWindowStatesLoop L 0 d).m_windowCount ≤ MAX_WINDOWS) :
    setWindowStates L d = Except.ok
      { setWindowStatesLoop L 0 d with
        emitted := d.emitted ++ [ClientManagementSignal.windowStatesChanged],
        sent := d.sent ++ d.resourceMap.map (fun r =>
          (r, ClientManagementEvent.window_states (setWindowStatesLoop L 0 d).m_windowCount
            (((List.ofFn (setWindowStatesLoop L 0 d).m_windowStates).take
              (setWindowStatesLoop L 0 d).m_windowCount).flatMap WindowState.toBytes))) } := by
  obtain ⟨hr, hs, he, -, -⟩ := setWindowStatesLoop_frame L 0 d
  unfold setWindowStates updateWindowStates
  dsimp only
  rw [updateWindowStatesLoop_ok]
  · simp only [hr, hs, he]
  · exact hc

/-- The directory left by the copy loop of `setWindowStates` on a non-empty
list: the count is `min(|L|, 100)` and the entries below the count are the first
elements of the list, in order. -/
theorem setWindowStatesLoop_leading (L : List WindowState)
    (d : ClientManagementInterfacePrivate) (hL : L ≠ []) :
    (setWindowStatesLoop L 0 d).m_windowCount = min L.length 100
      ∧ (∀ (j : Fin MAX_WINDOWS) (hj : j.val < L.length),
          (setWindowStatesLoop L 0 d).m_windowStates j = L.get ⟨j.val, hj⟩)
      ∧ (List.ofFn (setWindowStatesLoop L 0 d).m_windowStates).take
          (setWindowStatesLoop L 0 d).m_windowCount = L.take 100 := by
  have hcount : (setWindowStatesLoop L 0 d).m_windowCount = min L.length MAX_WINDOWS := by
    rw [setWindowStatesLoop_count]
    have h0 : ¬ MAX_WINDOWS ≤ 0 := by decide
    simp only [hL, h0, or_self, if_false, Nat.zero_add]
  have hentries : ∀ (j : Fin MAX_WINDOWS) (hj : j.val < L.length),
      (setWindowStatesLoop L 0 d).m_windowStates j = L.get ⟨j.val, hj⟩ := by
    intro j hj
    rw [setWindowStatesLoop_entries]
    have h : 0 ≤ j.val ∧ j.val - 0 < L.length := ⟨Nat.zero_le _, by simpa using hj⟩
    rw [dif_pos h]
    simp only [List.get_eq_getElem, Nat.sub_zero]
  refine ⟨hcount, hentries, ?_⟩
  rw [hcount]
  apply List.ext_getElem
  · simp only [List.length_take, List.length_ofFn, MAX_WINDOWS]
    omega
  · intro n h1 h2
    simp only [List.length_take, List.length_ofFn] at h1
    have hn : n < MAX_WINDOWS := by omega
    have hnL : n < L.length := by omega
    simp only [List.getElem_take, List.getElem_ofFn]
    exact hentries ⟨n, hn⟩ hnL

/-- C9: for every non-empty list `L` of window snapshots and every prior
directory, `setWindowStates(L)` completes without error, leaves the count at
`min(|L|, 100)`, and leaves the entries `0 .. count-1` equal to the first
`count` elements of `L` in order: elements beyond index 99 are dropped. -/
theorem setWindowStates_truncates (L : List WindowState)
    (d : ClientManagementInterfacePrivate) (hL : L ≠ []) :
    ∃ d1, setWindowStates L d = Except.ok d1
      ∧ d1.m_windowCount = min L.length 100
      ∧ (∀ (j : Fin MAX_WINDOWS) (hj : j.val < L.length),
          d1.m_windowStates j = L.get ⟨j.val, hj⟩)
      ∧ (List.ofFn d1.m_windowStates).take d1.m_windowCount = L.take 100 := by
  obtain ⟨hcount, hentries, htake⟩ := setWindowStatesLoop_leading L d hL
  have hc : (setWindowStatesLoop L 0 d).m_windowCount ≤ MAX_WINDOWS := by
    rw [hcount]; exact Nat.min_le_right _ _
  exact ⟨_, setWindowStates_ok L d hc, hcount, hentries, htake⟩

/-- C9 (witness): the one-snapshot list of the spec's example, set on a
directory with one bound resource. -/
theorem setWindowStates_truncates_witness :
    [termWindow] ≠ [] ∧
    ∃ d1, setWindowStates [termWindow] (initial [7]) = Except.ok d1
      ∧ d1.m_windowCount = min [termWindow].length 100
      ∧ (∀ (j : Fin MAX_WINDOWS) (hj : j.val < [termWindow].length),
          d1.m_windowStates j = [termWindow].get ⟨j.val, hj⟩)
      ∧ (List.ofFn d1.m_windowStates).take d1.m_windowCount = [termWindow].take 100 :=
  ⟨by decide, setWindowStates_truncates [termWindow] (initial [7]) (by decide)⟩

/-- An update with the empty list never enters the copy loop: the count and the
array stay as they were, and every bound resource is sent the old count. -/
theorem setWindowStates_nil (d : ClientManagementInterfacePrivate)
    (hc : d.m_windowCount ≤ MAX_WINDOWS) :
    setWindowStates [] d = Except.ok
      { d with
        emitted := d.emitted ++ [ClientManagementSignal.windowStatesChanged],
        sent := d.sent ++ d.resourceMap.map (fun r =>
          (r, ClientManagementEvent.window_states d.m_windowCount
            (((List.ofFn d.m_windowStates).take d.m_windowCount).flatMap
              WindowState.toBytes))) } :=
  setWindowStates_ok [] d hc

/-- C10 (the code at the failing input): on a directory with one bound resource
that holds the single snapshot of the spec's example, `setWindowStates([])`
leaves the count at 1 and the snapshot in place, and the broadcast it triggers
carries count 1 and the bytes of that snapshot. -/
theorem setWindowStates_empty_keeps_directory :
    ∃ d1 d2, setWindowStates [termWindow] (initial [7]) = Except.ok d1
      ∧ d1.m_windowCount = 1
      ∧ setWindowStates [] d1 = Except.ok d2
      ∧ d2.m_windowCount = 1
      ∧ d2.m_windowStates ⟨0, by decide⟩ = termWindow
      ∧ d2.sent = d1.sent ++
          [(7, ClientManagementEvent.window_states 1 termWindow.toBytes)] := by
  obtain ⟨hcount, -, htake⟩ :=
    setWindowStatesLoop_leading [termWindow] (initial [7]) (List.cons_ne_nil _ _)
  have hc1 : (setWindowStatesLoop [termWindow] 0 (initial [7])).m_windowCount ≤ MAX_WINDOWS := by
    rw [hcount]; decide
  refine ⟨_, _, setWindowStates_ok _ _ hc1, rfl, setWindowStates_nil _ hc1, rfl, rfl, ?_⟩
  obtain ⟨hr, -⟩ := setWindowStatesLoop_frame [termWindow] 0 (initial [7])
  have ht : List.take 100 [termWindow] = [termWindow] := List.take_of_length_le (by decide)
  have hm : min [termWindow].length 100 = 1 := by decide
  rw [hcount, hm, ht] at htake
  simp only [hcount, hm, htake, hr, List.append_cancel_left_eq]
  simp only [initial, List.map_cons, List.map_nil, List.flatMap_cons, List.flatMap_nil,
    List.append_nil]

end KWaylandServer

namespace KWaylandServer

open ClientManagementInterface ClientManagementInterfacePrivate

/-- An `int32_t` is read back from its four bytes. -/
theorem int32OfBytes_int32Bytes (v : Int) (hv : IsInt32 v) :
    int32OfBytes (int32Bytes v) = v := by
  obtain ⟨h1, h2⟩ := hv
  have hu : (((v % 2 ^ 32).toNat : Nat) : Int) = v % 2 ^ 32 :=
    Int.toNat_of_nonneg (Int.emod_nonneg _ (by norm_num))
  simp only [int32OfBytes, int32Bytes, List.getD_cons_zero, List.getD_cons_succ]
  generalize (v % 2 ^ 32).toNat = u at hu ⊢
  norm_num at h1 h2 hu ⊢
  split_ifs with h <;> omega

/-- An `int32_t` takes four bytes. -/
theorem int32Bytes_length (v : Int) : (int32Bytes v).length = 4 := rfl

/-- A `bool` is read back from its byte. -/
theorem boolOfByte_boolByte (b : Bool) : boolOfByte (boolByte b) = b := by
  cases b <;> rfl

/-- The name bytes of a well-formed record are written as they are. -/
theorem resourceName_bytes (n : List Nat) (hlen : n.length = 256) (hb : ∀ c ∈ n, c < 256) :
    ((n.map (fun c => c % 256)) ++ List.replicate 256 0).take 256 = n := by
  have hmap : n.map (fun c => c % 256) = n := by
    conv_rhs => rw [← List.map_id n]
    apply List.map_congr_left
    intro c hc
    exact Nat.mod_eq_of_lt (hb c hc)
  rw [hmap]
  exact List.take_left' hlen

/-- The object representation of a record is `sizeof(WindowState)` bytes. -/
theorem toBytes_length (w : WindowState) : w.toBytes.length = sizeofWindowState := by
  simp only [WindowState.toBytes, List.length_append, int32Bytes_length, List.length_take,
    List.length_map, List.length_replicate, List.length_cons, List.length_nil,
    sizeofWindowState]
  omega

/-- A well-formed record is read back from its object representation. -/
theorem ofBytes_toBytes (w : WindowState) (hw : w.WellFormed) :
    WindowState.ofBytes w.toBytes = w := by
  obtain ⟨hpid, hwid, hlen, hb, hx, hy, hwd, hht⟩ := hw
  have hname := resourceName_bytes w.resourceName hlen hb
  simp only [WindowState.ofBytes, WindowState.toBytes, hname, List.append_assoc,
    List.take_left' (int32Bytes_length _), List.drop_left' (int32Bytes_length _),
    List.take_left' hlen, List.drop_left' hlen, int32OfBytes_int32Bytes _ hpid,
    int32OfBytes_int32Bytes _ hwid, int32OfBytes_int32Bytes _ hx,
    int32OfBytes_int32Bytes _ hy, int32OfBytes_int32Bytes _ hwd,
    int32OfBytes_int32Bytes _ hht, List.getD_cons_zero, List.getD_cons_succ,
    boolOfByte_boolByte]

/-- The bytes of a list of records are `sizeof(WindowState)` for each. -/
theorem flatMap_toBytes_length (l : List WindowState) :
    (l.flatMap WindowState.toBytes).length = l.length * sizeofWindowState := by
  induction l with
  | nil => simp
  | cons w rest ih =>
    simp only [List.flatMap_cons, List.length_append, toBytes_length, ih, List.length_cons]
    ring

/-- Well-formed records are read back from their bytes, whatever follows them
in the storage. -/
theorem recordsOfBytes_flatMap (l : List WindowState) (hl : ∀ w ∈ l, w.WellFormed)
    (rest : List Nat) :
    recordsOfBytes l.length (l.flatMap WindowState.toBytes ++ rest) = l := by
  induction l with
  | nil => simp [recordsOfBytes]
  | cons w tail ih =>
    have hw : w.WellFormed := hl w (List.mem_cons_self _ _)
    have ht : ∀ v ∈ tail, v.WellFormed := fun v hv => hl v (List.mem_cons_of_mem _ hv)
    simp only [List.length_cons, recordsOfBytes, List.flatMap_cons, List.append_assoc,
      List.take_left' (toBytes_length w), List.drop_left' (toBytes_length w),
      ofBytes_toBytes w hw, ih ht]

/-- C11: every call `setWindowStates(L)` (on a directory whose count is within
the array, or with a non-empty list) sends exactly one `window_states` event to
each bound client resource, in order, and nothing else; each event carries the
stored count and a byte buffer of length `count * sizeof(WindowState)` that
holds the stored entries `0 .. count-1` in order. -/
theorem setWindowStates_broadcast (L : List WindowState)
    (d : ClientManagementInterfacePrivate) (h : L ≠ [] ∨ d.m_windowCount ≤ MAX_WINDOWS) :
    ∃ d1 data, setWindowStates L d = Except.ok d1
      ∧ d1.sent = d.sent ++ d.resourceMap.map (fun r =>
          (r, ClientManagementEvent.window_states d1.m_windowCount data))
      ∧ (d1.sent.drop d.sent.length).map Prod.fst = d.resourceMap
      ∧ data.length = d1.m_windowCount * sizeofWindowState
      ∧ data = ((List.ofFn d1.m_windowStates).take d1.m_windowCount).flatMap
          WindowState.toBytes := by
  have hc : (setWindowStatesLoop L 0 d).m_windowCount ≤ MAX_WINDOWS := by
    by_cases hL : L = []
    · subst hL
      rcases h with h | h
      · exact absurd rfl h
      · exact h
    · rw [(setWindowStatesLoop_leading L d hL).1]
      exact Nat.min_le_right _ _
  refine ⟨_, _, setWindowStates_ok L d hc, rfl, ?_, ?_, rfl⟩
  · simp only [List.drop_left, List.map_map]
    exact List.map_id _
  · rw [flatMap_toBytes_length, List.length_take, List.length_ofFn]
    show min (setWindowStatesLoop L 0 d).m_windowCount MAX_WINDOWS * sizeofWindowState
      = (setWindowStatesLoop L 0 d).m_windowCount * sizeofWindowState
    rw [Nat.min_eq_left hc]

/-- C11 (witness): the one-snapshot update of the spec's example on a directory
with two bound resources. -/
theorem setWindowStates_broadcast_witness :
    ([termWindow] ≠ [] ∨ (initial [7, 8]).m_windowCount ≤ MAX_WINDOWS) ∧
    ∃ d1 data, setWindowStates [termWindow] (initial [7, 8]) = Except.ok d1
      ∧ d1.sent = (initial [7, 8]).sent ++ (initial [7, 8]).resourceMap.map (fun r =>
          (r, ClientManagementEvent.window_states d1.m_windowCount data))
      ∧ (d1.sent.drop (initial [7, 8]).sent.length).map Prod.fst = (initial [7, 8]).resourceMap
      ∧ data.length = d1.m_windowCount * sizeofWindowState
      ∧ data = ((List.ofFn d1.m_windowStates).take d1.m_windowCount).flatMap
          WindowState.toBytes :=
  ⟨Or.inl (by decide),
    setWindowStates_broadcast [termWindow] (initial [7, 8]) (Or.inl (by decide))⟩

/-- What a well-formed update of at most 100 snapshots sends: to every bound
resource the count of the list and the bytes of its records. -/
theorem setWindowStates_sends_list (L : List WindowState)
    (d : ClientManagementInterfacePrivate) (hK1 : 1 ≤ L.length) (hK : L.length ≤ 100) :
    ∃ d1, setWindowStates L d = Except.ok d1
      ∧ d1.sent = d.sent ++ d.resourceMap.map (fun r =>
          (r, ClientManagementEvent.window_states L.length
            (L.flatMap WindowState.toBytes))) := by
  have hL : L ≠ [] := by
    intro h; subst h; simp at hK1
  obtain ⟨hcount, -, htake⟩ := setWindowStatesLoop_leading L d hL
  have hc : (setWindowStatesLoop L 0 d).m_windowCount ≤ MAX_WINDOWS := by
    rw [hcount]; exact Nat.min_le_right _ _
  refine ⟨_, setWindowStates_ok L d hc, ?_⟩
  have hmin : min L.length 100 = L.length := Nat.min_eq_left hK
  have htake2 : L.take 100 = L := List.take_of_length_le hK
  rw [hcount, hmin, htake2] at htake
  simp only [hcount, hmin, htake]

/-- Reading `n` records yields `n` records. -/
theorem recordsOfBytes_length (n : Nat) (b : List Nat) : (recordsOfBytes n b).length = n := by
  induction n generalizing b with
  | zero => rfl
  | succ n ih => simp only [recordsOfBytes, List.length_cons, ih]

/-- Reading records across the end of a block of whole records. -/
theorem recordsOfBytes_append (k m : Nat) (data rest : List Nat)
    (hlen : data.length = k * sizeofWindowState) :
    recordsOfBytes (k + m) (data ++ rest) = recordsOfBytes k data ++ recordsOfBytes m rest := by
  induction k generalizing data with
  | zero =>
    have hnil : data = [] := List.length_eq_zero.mp (by simpa using hlen)
    subst hnil
    simp [recordsOfBytes]
  | succ k ih =>
    have hle : sizeofWindowState ≤ data.length := by
      rw [hlen, Nat.succ_mul]; exact Nat.le_add_left _ _
    have hdrop : (data.drop sizeofWindowState).length = k * sizeofWindowState := by
      rw [List.length_drop, hlen, Nat.succ_mul]; omega
    rw [Nat.succ_add]
    simp only [recordsOfBytes, List.take_append_of_le_length hle,
      List.drop_append_of_le_length hle, ih _ hdrop, List.cons_append]

/-- Reading records from zeroed storage yields zeroed records. -/
theorem recordsOfBytes_zeros (m : Nat) :
    recordsOfBytes m (List.replicate (m * sizeofWindowState) 0)
      = List.replicate m (WindowState.ofBytes (List.replicate sizeofWindowState 0)) := by
  induction m with
  | zero => rfl
  | succ m ih =>
    have h1 : min sizeofWindowState ((m + 1) * sizeofWindowState) = sizeofWindowState := by
      rw [Nat.succ_mul]; omega
    have h2 : (m + 1) * sizeofWindowState - sizeofWindowState = m * sizeofWindowState := by
      rw [Nat.succ_mul]; omega
    simp only [recordsOfBytes, List.take_replicate, List.drop_replicate, h1, h2, ih,
      List.replicate_succ]

/-- The snapshot of the example, zero-filled, is a well-formed record. -/
theorem termSnapshot_wellFormed : termSnapshot.WellFormed := by
  refine ⟨⟨by decide, by decide⟩, ⟨by decide, by decide⟩, ?_, ?_, ⟨by decide, by decide⟩,
    ⟨by decide, by decide⟩, ⟨by decide, by decide⟩, ⟨by decide, by decide⟩⟩
  · simp only [termSnapshot, List.length_append, List.length_cons, List.length_nil,
      List.length_replicate]
  · intro c hc
    simp only [termSnapshot, List.mem_append, List.mem_cons, List.mem_replicate,
      List.mem_singleton, List.not_mem_nil, or_false] at hc
    omega

end KWaylandServer

namespace KWayland.Client

open KWaylandServer (Fault ClientManagementEvent ClientManagementInterfacePrivate)
open KWaylandServer.ClientManagementInterface
open ClientManagement ClientManagement.Private

/-- The client takes the branch that accepts the buffer: the cache becomes the
records of the resized, overwritten storage and the change is signalled. -/
theorem addWindowStates_accept (count : Nat) (data : List Nat) (p : ClientManagement.Private)
    (hpos : 0 < data.length) (hmul : data.length % sizeofWindowState = 0)
    (hcount : count < 2 ^ 31) (hfit : data.length ≤ count * sizeofWindowState) :
    addWindowStates count data p = Except.ok
      { p with
        m_windowsCount := count,
        m_windowStates := recordsOfBytes count
          (data ++ List.replicate (count * sizeofWindowState - data.length) 0),
        emitted := p.emitted ++ [Signal.windowStatesChanged] } := by
  have hc : ¬ 2 ^ 31 ≤ count := by omega
  simp only [addWindowStates, memcpy, hpos, hmul, hc, hfit, and_self, if_true, if_false,
    List.length_replicate, List.drop_replicate]

/-- The client takes the branch that drops the buffer: only `m_windowsCount`
is written. -/
theorem addWindowStates_reject (count : Nat) (data : List Nat) (p : ClientManagement.Private)
    (h : ¬ (0 < data.length ∧ data.length % sizeofWindowState = 0)) :
    addWindowStates count data p = Except.ok { p with m_windowsCount := count } := by
  simp only [addWindowStates, h, if_false]

/-- The cache after an accepted buffer of `k` whole records for a count of at
least `k`: the `k` records read from the buffer, then zeroed records up to the
count. -/
theorem recordsOfBytes_short_buffer (count : Nat) (data : List Nat)
    (hmul : data.length % sizeofWindowState = 0)
    (hfit : data.length ≤ count * sizeofWindowState) :
    recordsOfBytes count (data ++ List.replicate (count * sizeofWindowState - data.length) 0)
      = recordsOfBytes (data.length / sizeofWindowState) data
        ++ List.replicate (count - data.length / sizeofWindowState)
            (WindowState.ofBytes (List.replicate sizeofWindowState 0)) := by
  have hlen : data.length = data.length / sizeofWindowState * sizeofWindowState := by
    rw [Nat.div_mul_cancel (Nat.dvd_of_mod_eq_zero hmul)]
  have hk : data.length / sizeofWindowState ≤ count := by
    apply Nat.div_le_of_le_mul
    rw [Nat.mul_comm]; exact hfit
  generalize data.length / sizeofWindowState = k at hlen hk ⊢
  obtain ⟨m, rfl⟩ : ∃ m, count = k + m := ⟨count - k, by omega⟩
  have hrest : (k + m) * sizeofWindowState - data.length = m * sizeofWindowState := by
    rw [hlen, Nat.add_mul, Nat.add_sub_cancel_left]
  rw [hrest, Nat.add_sub_cancel_left, KWaylandServer.recordsOfBytes_append _ _ _ _ hlen,
    KWaylandServer.recordsOfBytes_zeros]

/-- C12: array round trip.  For every list `L` of `K` well-formed window
snapshots with `1 <= K <= 100`, `setWindowStates(L)` sends to every bound
resource the event `window_states(K, bytes of L)`; the client's handler, given
that event, leaves the client cache equal to `L` record for record, and a
subsequent `getWindowStates()` returns exactly `L` and sends no request. -/
theorem window_states_round_trip (L : List WindowState)
    (d : ClientManagementInterfacePrivate) (p : ClientManagement.Private)
    (hK1 : 1 ≤ L.length) (hK : L.length ≤ 100) (hwf : ∀ w ∈ L, w.WellFormed) :
    ∃ d1 p1, setWindowStates L d = Except.ok d1
      ∧ d1.sent = d.sent ++ d.resourceMap.map (fun r =>
          (r, ClientManagementEvent.window_states L.length (L.flatMap WindowState.toBytes)))
      ∧ s_clientManagementListener
          (ClientManagementEvent.window_states L.length (L.flatMap WindowState.toBytes)) p
          = Except.ok p1
      ∧ p1.m_windowStates = L
      ∧ getWindowStates p1 = (p1, L) := by
  obtain ⟨d1, hd1, hsent⟩ := KWaylandServer.setWindowStates_sends_list L d hK1 hK
  have hlen := KWaylandServer.flatMap_toBytes_length L
  have hsz : 0 < sizeofWindowState := by decide
  have hpos : 0 < (L.flatMap WindowState.toBytes).length := by
    rw [hlen]; exact Nat.mul_pos hK1 hsz
  have hmul : (L.flatMap WindowState.toBytes).length % sizeofWindowState = 0 := by
    rw [hlen]; exact Nat.mul_mod_left _ _
  have hcount : L.length < 2 ^ 31 := by omega
  have hfit : (L.flatMap WindowState.toBytes).length ≤ L.length * sizeofWindowState := by
    rw [hlen]
  have hcache : recordsOfBytes L.length (L.flatMap WindowState.toBytes
      ++ List.replicate (L.length * sizeofWindowState
        - (L.flatMap WindowState.toBytes).length) 0) = L :=
    KWaylandServer.recordsOfBytes_flatMap L hwf _
  have hne : L ≠ [] := by
    intro h; subst h; simp at hK1
  refine ⟨d1, _, hd1, hsent, addWindowStates_accept _ _ p hpos hmul hcount hfit, hcache, ?_⟩
  simp only [getWindowStates, hcache, List.isEmpty_eq_true, hne, if_false]

/-- C12 (witness): the one-snapshot directory of the spec's example, with one
bound resource and a fresh client. -/
theorem window_states_round_trip_witness :
    (1 ≤ [termSnapshot].length ∧ [termSnapshot].length ≤ 100
      ∧ ∀ w ∈ [termSnapshot], w.WellFormed) ∧
    ∃ d1 p1, setWindowStates [termSnapshot] (initial [7]) = Except.ok d1
      ∧ d1.sent = (initial [7]).sent ++ (initial [7]).resourceMap.map (fun r =>
          (r, ClientManagementEvent.window_states [termSnapshot].length
            ([termSnapshot].flatMap WindowState.toBytes)))
      ∧ s_clientManagementListener
          (ClientManagementEvent.window_states [termSnapshot].length
            ([termSnapshot].flatMap WindowState.toBytes)) fresh
          = Except.ok p1
      ∧ p1.m_windowStates = [termSnapshot]
      ∧ getWindowStates p1 = (p1, [termSnapshot]) :=
  have hwf : ∀ w ∈ [termSnapshot], w.WellFormed := fun w hw => by
    rw [List.mem_singleton.mp hw]; exact KWaylandServer.termSnapshot_wellFormed
  ⟨⟨by decide, by decide, hwf⟩,
    window_states_round_trip [termSnapshot] (initial [7]) fresh (by decide) (by decide) hwf⟩

/-- C13: for every `window_states` event `(count, data)` (whose acceptance stays
within the resized vector), the client replaces its cache and emits
`windowStatesChanged` if and only if `data.size > 0` and `data.size` is a
multiple of `sizeof(WindowState)`; otherwise the update is dropped: cache and
signals stay as they were. -/
theorem addWindowStates_accepts_iff (count : Nat) (data : List Nat)
    (p : ClientManagement.Private)
    (hdef : 0 < data.length ∧ data.length % sizeofWindowState = 0 →
      count < 2 ^ 31 ∧ data.length ≤ count * sizeofWindowState) :
    ∃ p1, addWindowStates count data p = Except.ok p1
      ∧ (p1.emitted = p.emitted ++ [Signal.windowStatesChanged]
          ↔ 0 < data.length ∧ data.length % sizeofWindowState = 0)
      ∧ p1.m_windowStates =
          (if 0 < data.length ∧ data.length % sizeofWindowState = 0 then
            recordsOfBytes count
              (data ++ List.replicate (count * sizeofWindowState - data.length) 0)
          else p.m_windowStates)
      ∧ p1.emitted =
          (if 0 < data.length ∧ data.length % sizeofWindowState = 0 then
            p.emitted ++ [Signal.windowStatesChanged]
          else p.emitted) := by
  by_cases h : 0 < data.length ∧ data.length % sizeofWindowState = 0
  · obtain ⟨hcount, hfit⟩ := hdef h
    refine ⟨_, addWindowStates_accept count data p h.1 h.2 hcount hfit, ?_, ?_, ?_⟩
    · simp only [h, and_self]
    · simp only [h, and_self, if_true]
    · simp only [h, and_self, if_true]
  · refine ⟨_, addWindowStates_reject count data p h, ?_, ?_, ?_⟩
    · simp only [h, iff_false]
      intro hcon
      have := congrArg List.length hcon
      simp at this
    · simp only [h, if_false]
    · simp only [h, if_false]

/-- C13 (witness): the bytes of one snapshot, announced with count 1, given to a
fresh client. -/
theorem addWindowStates_accepts_iff_witness :
    (0 < termSnapshot.toBytes.length ∧ termSnapshot.toBytes.length % sizeofWindowState = 0 →
      1 < 2 ^ 31 ∧ termSnapshot.toBytes.length ≤ 1 * sizeofWindowState) ∧
    ∃ p1, addWindowStates 1 termSnapshot.toBytes fresh = Except.ok p1
      ∧ (p1.emitted = fresh.emitted ++ [Signal.windowStatesChanged]
          ↔ 0 < termSnapshot.toBytes.length
            ∧ termSnapshot.toBytes.length % sizeofWindowState = 0)
      ∧ p1.m_windowStates =
          (if 0 < termSnapshot.toBytes.length
              ∧ termSnapshot.toBytes.length % sizeofWindowState = 0 then
            recordsOfBytes 1 (termSnapshot.toBytes
              ++ List.replicate (1 * sizeofWindowState - termSnapshot.toBytes.length) 0)
          else fresh.m_windowStates)
      ∧ p1.emitted =
          (if 0 < termSnapshot.toBytes.length
              ∧ termSnapshot.toBytes.length % sizeofWindowState = 0 then
            fresh.emitted ++ [Signal.windowStatesChanged]
          else fresh.emitted) :=
  have hdef : 0 < termSnapshot.toBytes.length
      ∧ termSnapshot.toBytes.length % sizeofWindowState = 0 →
      1 < 2 ^ 31 ∧ termSnapshot.toBytes.length ≤ 1 * sizeofWindowState := fun _ =>
    ⟨by decide, by rw [KWaylandServer.toBytes_length, Nat.one_mul]⟩
  ⟨hdef, addWindowStates_accepts_iff 1 termSnapshot.toBytes fresh hdef⟩

/-- C14: when the client rejects a `window_states` event (buffer size 0 or not a
multiple of the record size), its cached window list is exactly what it was
before the event and no `windowStatesChanged` is emitted: nothing but
`m_windowsCount` is written. -/
theorem addWindowStates_rejected_keeps_cache (count : Nat) (data : List Nat)
    (p : ClientManagement.Private)
    (h : data.length = 0 ∨ data.length % sizeofWindowState ≠ 0) :
    ∃ p1, addWindowStates count data p = Except.ok p1
      ∧ p1.m_windowStates = p.m_windowStates
      ∧ p1.emitted = p.emitted
      ∧ p1.requests = p.requests
      ∧ getWindowStates p1 = getWindowStates { p with m_windowsCount := count } := by
  have hrej : ¬ (0 < data.length ∧ data.length % sizeofWindowState = 0) := by
    rintro ⟨h1, h2⟩
    rcases h with h | h
    · omega
    · exact h h2
  exact ⟨_, addWindowStates_reject count data p hrej, rfl, rfl, rfl, rfl⟩

/-- C14 (witness): three stray bytes, announced with count 5, given to a client
whose cache holds one snapshot. -/
theorem addWindowStates_rejected_keeps_cache_witness :
    (([1, 2, 3] : List Nat).length = 0
      ∨ ([1, 2, 3] : List Nat).length % sizeofWindowState ≠ 0) ∧
    ∃ p1, addWindowStates 5 [1, 2, 3]
        { m_windowsCount := 1, m_windowStates := [termSnapshot] } = Except.ok p1
      ∧ p1.m_windowStates
          = ({ m_windowsCount := 1, m_windowStates := [termSnapshot] } :
              ClientManagement.Private).m_windowStates
      ∧ p1.emitted
          = ({ m_windowsCount := 1, m_windowStates := [termSnapshot] } :
              ClientManagement.Private).emitted
      ∧ p1.requests
          = ({ m_windowsCount := 1, m_windowStates := [termSnapshot] } :
              ClientManagement.Private).requests
      ∧ getWindowStates p1
          = getWindowStates
              { ({ m_windowsCount := 1, m_windowStates := [termSnapshot] } :
                  ClientManagement.Private) with m_windowsCount := 5 } :=
  ⟨Or.inr (by decide),
    addWindowStates_rejected_keeps_cache 5 [1, 2, 3]
      { m_windowsCount := 1, m_windowStates := [termSnapshot] } (Or.inr (by decide))⟩

/-- C15 (as amended): a `window_states` event `(count, data)` whose byte length
is a positive multiple of the record size and does not exceed
`count * sizeof(WindowState)` is accepted whether or not the length equals
`count * sizeof(WindowState)`: the change is signalled and the cache becomes
`count` records, the `data.size / sizeof(WindowState)` records read from the
buffer followed by zeroed records. -/
theorem addWindowStates_ignores_count (count : Nat) (data : List Nat)
    (p : ClientManagement.Private)
    (hpos : 0 < data.length) (hmul : data.length % sizeofWindowState = 0)
    (hcount : count < 2 ^ 31) (hfit : data.length ≤ count * sizeofWindowState) :
    ∃ p1, addWindowStates count data p = Except.ok p1
      ∧ p1.emitted = p.emitted ++ [Signal.windowStatesChanged]
      ∧ p1.m_windowStates.length = count
      ∧ p1.m_windowStates = recordsOfBytes (data.length / sizeofWindowState) data
          ++ List.replicate (count - data.length / sizeofWindowState)
              (WindowState.ofBytes (List.replicate sizeofWindowState 0)) :=
  ⟨_, addWindowStates_accept count data p hpos hmul hcount hfit, rfl,
    KWaylandServer.recordsOfBytes_length _ _, recordsOfBytes_short_buffer count data hmul hfit⟩

/-- C15 (witness of the amended claim): the bytes of one snapshot announced with
count 2. -/
theorem addWindowStates_ignores_count_witness :
    (0 < termSnapshot.toBytes.length ∧ termSnapshot.toBytes.length % sizeofWindowState = 0
      ∧ 2 < 2 ^ 31 ∧ termSnapshot.toBytes.length ≤ 2 * sizeofWindowState) ∧
    ∃ p1, addWindowStates 2 termSnapshot.toBytes fresh = Except.ok p1
      ∧ p1.emitted = fresh.emitted ++ [Signal.windowStatesChanged]
      ∧ p1.m_windowStates.length = 2
      ∧ p1.m_windowStates
          = recordsOfBytes (termSnapshot.toBytes.length / sizeofWindowState) termSnapshot.toBytes
          ++ List.replicate (2 - termSnapshot.toBytes.length / sizeofWindowState)
              (WindowState.ofBytes (List.replicate sizeofWindowState 0)) :=
  have h1 : 0 < termSnapshot.toBytes.length := by
    rw [KWaylandServer.toBytes_length]; decide
  have h2 : termSnapshot.toBytes.length % sizeofWindowState = 0 := by
    rw [KWaylandServer.toBytes_length]; decide
  have h3 : termSnapshot.toBytes.length ≤ 2 * sizeofWindowState := by
    rw [KWaylandServer.toBytes_length]; decide
  ⟨⟨h1, h2, by decide, h3⟩,
    addWindowStates_ignores_count 2 termSnapshot.toBytes fresh h1 h2 (by decide) h3⟩

/-- C15 (counterexample): the bytes of one snapshot, 284 of them, announced with
count 2 are not `2 * sizeof(WindowState)` bytes, yet the client does not reject
the update: the cache of a fresh client changes from empty to two records, the
snapshot and a zeroed record, and `windowStatesChanged` is emitted. -/
theorem addWindowStates_accepts_short_buffer :
    termSnapshot.toBytes.length ≠ 2 * sizeofWindowState
      ∧ ∃ p1, addWindowStates 2 termSnapshot.toBytes fresh = Except.ok p1
        ∧ p1.m_windowStates
            = [termSnapshot, WindowState.ofBytes (List.replicate sizeofWindowState 0)]
        ∧ p1.m_windowStates ≠ fresh.m_windowStates
        ∧ p1.emitted = [Signal.windowStatesChanged] := by
  have hlen := KWaylandServer.toBytes_length termSnapshot
  have h1 : 0 < termSnapshot.toBytes.length := by rw [hlen]; decide
  have h2 : termSnapshot.toBytes.length % sizeofWindowState = 0 := by rw [hlen]; decide
  have h3 : termSnapshot.toBytes.length ≤ 2 * sizeofWindowState := by rw [hlen]; decide
  have hone : recordsOfBytes 1 termSnapshot.toBytes = [termSnapshot] := by
    have h := KWaylandServer.recordsOfBytes_flatMap [termSnapshot]
      (fun w hw => by
        rw [List.mem_singleton.mp hw]; exact KWaylandServer.termSnapshot_wellFormed) []
    simpa only [List.flatMap_cons, List.flatMap_nil, List.append_nil, List.length_cons,
      List.length_nil, Nat.zero_add] using h
  have hcache : recordsOfBytes 2 (termSnapshot.toBytes
      ++ List.replicate (2 * sizeofWindowState - termSnapshot.toBytes.length) 0)
      = [termSnapshot, WindowState.ofBytes (List.replicate sizeofWindowState 0)] := by
    rw [recordsOfBytes_short_buffer 2 _ h2 h3, hlen, Nat.div_self (by decide), hone]
    rfl
  refine ⟨by rw [hlen]; decide, _,
    addWindowStates_accept 2 termSnapshot.toBytes fresh h1 h2 (by decide) h3, hcache, ?_, rfl⟩
  show recordsOfBytes 2 _ ≠ fresh.m_windowStates
  rw [hcache]
  exact List.cons_ne_nil _ _

/-- C16: `getWindowStates()` returns the current cache and leaves it, the count
and the signals as they were; it sends exactly one `get_window_states` request
when the cache is empty and no request when it is not, and it takes no inbound
event to return. -/
theorem getWindowStates_returns_cache (p : ClientManagement.Private) :
    (getWindowStates p).2 = p.m_windowStates
      ∧ (getWindowStates p).1.m_windowStates = p.m_windowStates
      ∧ (getWindowStates p).1.m_windowsCount = p.m_windowsCount
      ∧ (getWindowStates p).1.emitted = p.emitted
      ∧ (getWindowStates p).1.requests
          = p.requests ++ (if p.m_windowStates = [] then [Request.get_window_states] else []) := by
  unfold getWindowStates
  by_cases h : p.m_windowStates = []
  · simp [h, get_window_states]
  · simp [h, List.isEmpty_iff]

end KWayland.Client

namespace KWaylandServer

open ClientManagementInterface

/-- The callback loop sends one `capture_callback` to every bound resource, in
order, and changes nothing else. -/
theorem sendWindowCaption_eq (windowId : Int) (succeed : Bool) (buffer : Nat)
    (d : ClientManagementInterfacePrivate) :
    ClientManagementInterfacePrivate.sendWindowCaption windowId succeed buffer d
      = { d with sent := d.sent ++ d.resourceMap.map (fun r =>
          (r, ClientManagementEvent.capture_callback windowId (if succeed then 1 else 0)
            buffer)) } := by
  have hloop : ∀ (rs : List Nat) (acc : ClientManagementInterfacePrivate),
      rs.foldl (fun acc resource =>
        { acc with sent := acc.sent ++
          [(resource, ClientManagementEvent.capture_callback windowId
            (if succeed then 1 else 0) buffer)] }) acc
      = { acc with sent := acc.sent ++ rs.map (fun r =>
          (r, ClientManagementEvent.capture_callback windowId (if succeed then 1 else 0)
            buffer)) } := by
    intro rs
    induction rs with
    | nil => intro acc; simp
    | cons r rest ih =>
      intro acc
      simp only [List.foldl_cons, ih, List.map_cons, List.append_assoc, List.singleton_append]
  unfold ClientManagementInterfacePrivate.sendWindowCaption
  rw [hloop]

/-- The image completion when nothing can be copied: destination not
shared-memory-backed, null image, or null data pointer. -/
theorem sendWindowCaptionImage_fails (windowId : Int) (buffer : Nat) (image : QImage)
    (mem : BufferMemory) (d : ClientManagementInterfacePrivate)
    (h : mem.backing buffer = BufferBacking.notShm ∨ image.isNull = true
      ∨ mem.backing buffer = BufferBacking.shm none) :
    sendWindowCaptionImage windowId buffer image mem d
      = Except.ok
          (ClientManagementInterfacePrivate.sendWindowCaption windowId false buffer d, mem) := by
  unfold sendWindowCaptionImage
  rcases h with h | h | h
  · simp only [h]
  · cases hb : mem.backing buffer with
    | notShm => simp only
    | shm data => simp only [h, Bool.not_true, Bool.false_eq_true, if_false]
  · cases hn : image.isNull
    · simp only [h, Bool.not_false, if_true]
    · simp only [h, Bool.not_true, Bool.false_eq_true, if_false]

/-- The image completion when the copy is made: shared-memory destination with
data, image not null and not longer than the destination. -/
theorem sendWindowCaptionImage_copies (windowId : Int) (buffer : Nat) (image : QImage)
    (mem : BufferMemory) (d : ClientManagementInterfacePrivate) (bytes : List Nat)
    (hb : mem.backing buffer = BufferBacking.shm (some bytes)) (hn : image.isNull = false)
    (hfit : image.bits.length ≤ bytes.length) :
    sendWindowCaptionImage windowId buffer image mem d
      = Except.ok
          (ClientManagementInterfacePrivate.sendWindowCaption windowId true buffer d,
            { backing := Function.update mem.backing buffer
                (BufferBacking.shm (some (image.bits ++ bytes.drop image.bits.length))),
              copies := mem.copies ++ [(buffer, image.bits)] }) := by
  unfold sendWindowCaptionImage
  simp only [hb, hn, Bool.not_false, if_true, copyImage, memcpy, hfit]

/-- The surface completion when the source pixels cannot be copied: destination
not shared-memory-backed or null source image. -/
theorem sendWindowCaption_fails (windowId : Int) (buffer : Nat) (image : QImage)
    (mem : BufferMemory) (d : ClientManagementInterfacePrivate)
    (h : mem.backing buffer = BufferBacking.notShm ∨ image.isNull = true) :
    sendWindowCaption windowId buffer (some ⟨some (ClientBuffer.shmClient image)⟩) mem d
      = Except.ok
          (ClientManagementInterfacePrivate.sendWindowCaption windowId false buffer d, mem) := by
  unfold sendWindowCaption
  rcases h with h | h
  · simp only [h]
  · cases hb : mem.backing buffer with
    | notShm => simp only
    | shm data => simp only [h, Bool.not_true, Bool.false_eq_true, if_false]

/-- C18: for every window id and image, completing a capture whose destination
buffer is not shared-memory-backed, or whose image is null, reports
`succeed = false` in one callback to every bound resource and leaves the buffers
of the display, every byte of the destination among them, as they were; this
holds for `sendWindowCaptionImage` and for `sendWindowCaption` with that image
as the source pixels. -/
theorem capture_failure_leaves_buffer (windowId : Int) (buffer : Nat) (image : QImage)
    (mem : BufferMemory) (d : ClientManagementInterfacePrivate)
    (h : mem.backing buffer = BufferBacking.notShm ∨ image.isNull = true) :
    ∃ d1, sendWindowCaptionImage windowId buffer image mem d = Except.ok (d1, mem)
      ∧ sendWindowCaption windowId buffer (some ⟨some (ClientBuffer.shmClient image)⟩) mem d
          = Except.ok (d1, mem)
      ∧ d1.sent = d.sent ++ d.resourceMap.map (fun r =>
          (r, ClientManagementEvent.capture_callback windowId 0 buffer))
      ∧ d1.m_windowCount = d.m_windowCount ∧ d1.resourceMap = d.resourceMap := by
  refine ⟨_, sendWindowCaptionImage_fails windowId buffer image mem d ?_,
    sendWindowCaption_fails windowId buffer image mem d h, ?_, ?_, ?_⟩
  · rcases h with h | h
    · exact Or.inl h
    · exact Or.inr (Or.inl h)
  · rw [sendWindowCaption_eq]
    simp
  · rw [sendWindowCaption_eq]
  · rw [sendWindowCaption_eq]

/-- C18 (witness): the null image completed into a shared-memory buffer. -/
theorem capture_failure_leaves_buffer_witness :
    ((shmMemory [0, 0, 0, 0]).backing 1 = BufferBacking.notShm
      ∨ (QImage.mk []).isNull = true) ∧
    ∃ d1, sendWindowCaptionImage 7 1 (QImage.mk []) (shmMemory [0, 0, 0, 0]) (initial [7])
          = Except.ok (d1, shmMemory [0, 0, 0, 0])
      ∧ sendWindowCaption 7 1 (some ⟨some (ClientBuffer.shmClient (QImage.mk []))⟩)
          (shmMemory [0, 0, 0, 0]) (initial [7]) = Except.ok (d1, shmMemory [0, 0, 0, 0])
      ∧ d1.sent = (initial [7]).sent ++ (initial [7]).resourceMap.map (fun r =>
          (r, ClientManagementEvent.capture_callback 7 0 1))
      ∧ d1.m_windowCount = (initial [7]).m_windowCount
      ∧ d1.resourceMap = (initial [7]).resourceMap :=
  ⟨Or.inr (by decide),
    capture_failure_leaves_buffer 7 1 (QImage.mk []) (shmMemory [0, 0, 0, 0]) (initial [7])
      (Or.inr (by decide))⟩

/-- C19 (as amended): when a capture is completed by `sendWindowCaptionImage`
with a non-null image whose byte size is smaller than the size of the
shared-memory destination, no size is compared: the callback reports
`succeed = true` to every bound resource and the first bytes of the destination
are overwritten by the image's bytes, the bytes after them staying as they
were. -/
theorem capture_smaller_image_copied (windowId : Int) (buffer : Nat) (image : QImage)
    (mem : BufferMemory) (d : ClientManagementInterfacePrivate) (bytes : List Nat)
    (hb : mem.backing buffer = BufferBacking.shm (some bytes)) (hn : image.isNull = false)
    (hlt : image.bits.length < bytes.length) :
    ∃ d1 mem1, sendWindowCaptionImage windowId buffer image mem d = Except.ok (d1, mem1)
      ∧ d1.sent = d.sent ++ d.resourceMap.map (fun r =>
          (r, ClientManagementEvent.capture_callback windowId 1 buffer))
      ∧ mem1.backing buffer
          = BufferBacking.shm (some (image.bits ++ bytes.drop image.bits.length))
      ∧ (∀ other, other ≠ buffer → mem1.backing other = mem.backing other) := by
  refine ⟨_, _, sendWindowCaptionImage_copies windowId buffer image mem d bytes hb hn
    (Nat.le_of_lt hlt), ?_, ?_, ?_⟩
  · rw [sendWindowCaption_eq]
    simp
  · simp only [Function.update_same]
  · intro other ho
    simp only [Function.update_noteq ho]

/-- C19 (witness of the amended claim): a two-byte image completed into a
four-byte shared-memory buffer. -/
theorem capture_smaller_image_copied_witness :
    ((shmMemory [0, 0, 0, 0]).backing 1 = BufferBacking.shm (some [0, 0, 0, 0])
      ∧ (QImage.mk [9, 9]).isNull = false
      ∧ (QImage.mk [9, 9]).bits.length < ([0, 0, 0, 0] : List Nat).length) ∧
    ∃ d1 mem1,
      sendWindowCaptionImage 7 1 (QImage.mk [9, 9]) (shmMemory [0, 0, 0, 0]) (initial [7])
        = Except.ok (d1, mem1)
      ∧ d1.sent = (initial [7]).sent ++ (initial [7]).resourceMap.map (fun r =>
          (r, ClientManagementEvent.capture_callback 7 1 1))
      ∧ mem1.backing 1
          = BufferBacking.shm (some ((QImage.mk [9, 9]).bits
              ++ ([0, 0, 0, 0] : List Nat).drop (QImage.mk [9, 9]).bits.length))
      ∧ (∀ other, other ≠ 1 → mem1.backing other = (shmMemory [0, 0, 0, 0]).backing other) :=
  ⟨⟨rfl, by decide, by decide⟩,
    capture_smaller_image_copied 7 1 (QImage.mk [9, 9]) (shmMemory [0, 0, 0, 0]) (initial [7])
      [0, 0, 0, 0] rfl (by decide) (by decide)⟩

/-- C19 (counterexample): a non-null image of two bytes completed into a
shared-memory destination of four bytes, a size mismatch: the callback reports
`succeed = 1`, not 0, and the destination's bytes become `[9, 9, 0, 0]`. -/
theorem capture_size_mismatch_succeeds :
    (QImage.mk [9, 9]).bits.length ≠ ([0, 0, 0, 0] : List Nat).length
      ∧ ∃ d1 mem1,
          sendWindowCaptionImage 7 1 (QImage.mk [9, 9]) (shmMemory [0, 0, 0, 0]) (initial [7])
            = Except.ok (d1, mem1)
          ∧ d1.sent = [(7, ClientManagementEvent.capture_callback 7 1 1)]
          ∧ mem1.backing 1 = BufferBacking.shm (some [9, 9, 0, 0])
          ∧ mem1.backing 1 ≠ (shmMemory [0, 0, 0, 0]).backing 1 := by
  refine ⟨by decide, _, _, sendWindowCaptionImage_copies 7 1 (QImage.mk [9, 9])
    (shmMemory [0, 0, 0, 0]) (initial [7]) [0, 0, 0, 0] rfl (by decide) (by decide),
    ?_, ?_, ?_⟩
  · rw [sendWindowCaption_eq]
    rfl
  · simp only [Function.update_same]
    rfl
  · simp only [Function.update_same, shmMemory]
    decide

/-- C20 (the code at the failing input): `sendWindowCaption` for a surface whose
buffer is not a `ShmClientBuffer` returns without sending anything, although a
client resource is bound; the sibling exit for a null surface does send the
callback, with `succeed = 0`. -/
theorem sendWindowCaption_other_buffer_silent :
    (initial [7]).resourceMap = [7]
      ∧ (∃ d1 mem1,
          sendWindowCaption 7 1 (some ⟨some ClientBuffer.other⟩) (shmMemory [0, 0, 0, 0])
            (initial [7]) = Except.ok (d1, mem1)
          ∧ d1.sent = [])
      ∧ (∃ d1 mem1,
          sendWindowCaption 7 1 none (shmMemory [0, 0, 0, 0]) (initial [7])
            = Except.ok (d1, mem1)
          ∧ d1.sent = [(7, ClientManagementEvent.capture_callback 7 0 1)]) := by
  refine ⟨rfl, ⟨_, _, rfl, rfl⟩, ⟨_, _, rfl, ?_⟩⟩
  rw [sendWindowCaption_eq]
  rfl

end KWaylandServer

namespace KWaylandServer

open ClientManagementInterfacePrivate

/-- The loop of `sendSplitChange` sends one `split_change` to every bound
resource, in order, and changes nothing else. -/
theorem sendSplitChange_loop (rs : List Nat) (acc : ClientManagementInterfacePrivate) :
    rs.foldl (fun acc resource =>
        { acc with sent := acc.sent ++
          [(resource, ClientManagementEvent.split_change (cString (toLatin1 acc.m_splitUuid))
            acc.m_splitable)] }) acc
      = { acc with sent := acc.sent ++ rs.map (fun r =>
          (r, ClientManagementEvent.split_change (cString (toLatin1 acc.m_splitUuid))
            acc.m_splitable)) } := by
  induction rs generalizing acc with
  | nil => simp
  | cons r rest ih =>
    simp only [List.foldl_cons, ih, List.map_cons, List.append_assoc, List.singleton_append]

/-- The wire form of a Latin-1 string without zero character is its character
codes. -/
theorem cString_toLatin1 (id : String) (hid : ∀ c ∈ id.toList, 0 < c.toNat ∧ c.toNat < 256) :
    cString (toLatin1 id) = id.toList.map Char.toNat := by
  have h1 : toLatin1 id = id.toList.map Char.toNat := by
    unfold toLatin1
    apply List.map_congr_left
    intro c hc
    simp only [(hid c hc).2, if_true]
  rw [h1]
  unfold cString
  rw [List.takeWhile_eq_self_iff]
  intro x hx
  obtain ⟨c, hc, rfl⟩ := List.mem_map.mp hx
  have := (hid c hc).1
  simp only [bne_iff_ne, ne_eq]
  omega

/-- C21: for every Latin-1 owner id (character codes 1 to 255) and every integer
`splitCount`, `sendSplitChange(id, splitCount)` sends a `split_change` event if
and only if `splitCount > 0`: then it sends exactly one
`split_change(id, splitCount)` to every bound client resource, in order, and
records `(id, splitCount)` in the split slot; when `splitCount <= 0` it sends
nothing and leaves the object, the slot included, as it was. -/
theorem sendSplitChange_iff_positive (id : String) (splitCount : Int)
    (d : ClientManagementInterfacePrivate)
    (hid : ∀ c ∈ id.toList, 0 < c.toNat ∧ c.toNat < 256) :
    (ClientManagementInterface.sendSplitChange id splitCount d).sent
        = d.sent ++ (if 0 < splitCount then d.resourceMap.map (fun r =>
            (r, ClientManagementEvent.split_change (id.toList.map Char.toNat) splitCount))
          else [])
      ∧ (if 0 < splitCount then
          (ClientManagementInterface.sendSplitChange id splitCount d).m_splitUuid = id
            ∧ (ClientManagementInterface.sendSplitChange id splitCount d).m_splitable
                = splitCount
        else ClientManagementInterface.sendSplitChange id splitCount d = d) := by
  unfold ClientManagementInterface.sendSplitChange sendSplitChange
  by_cases h : 0 < splitCount
  · simp only [h, if_true, sendSplitChange_loop, cString_toLatin1 id hid, and_self]
  · simp only [h, if_false, List.append_nil, and_self]

/-- C21 (witness): the calls `sendSplitChange("B", 2)` of the spec's example,
with two bound resources. -/
theorem sendSplitChange_iff_positive_witness :
    (∀ c ∈ "B".toList, 0 < c.toNat ∧ c.toNat < 256) ∧
    (ClientManagementInterface.sendSplitChange "B" 2 (ClientManagementInterface.initial [7, 8])).sent
        = (ClientManagementInterface.initial [7, 8]).sent
          ++ (if (0 : Int) < 2 then (ClientManagementInterface.initial [7, 8]).resourceMap.map
              (fun r => (r, ClientManagementEvent.split_change ("B".toList.map Char.toNat) 2))
            else []) :=
  have hid : ∀ c ∈ "B".toList, 0 < c.toNat ∧ c.toNat < 256 := by decide
  ⟨hid, (sendSplitChange_iff_positive "B" 2 (ClientManagementInterface.initial [7, 8]) hid).1⟩

end KWaylandServer

namespace KWaylandServer

open DDEShellSurfaceInterfacePrivate

/-- A flag that is a single bit is set in a word exactly when that bit is. -/
theorem land_two_pow_ne_zero (S i : Nat) : S &&& 2 ^ i ≠ 0 ↔ S.testBit i = true := by
  rw [Nat.and_two_pow]
  have hpos : 0 < 2 ^ i := Nat.two_pow_pos i
  cases h : S.testBit i
  · simp
  · simp only [Bool.toNat_true, Nat.one_mul, ne_eq, iff_true]
    omega

/-- The bits of the state word after `setState` sets a single-bit flag. -/
theorem setState_set_testBit (a i : Nat) (d : DDEShellSurfaceInterfacePrivate) :
    (setState (2 ^ a) true d).m_state.testBit i = (d.m_state.testBit i || decide (a = i)) := by
  rw [setState_m_state]
  simp only [if_true, Nat.testBit_or, Nat.testBit_two_pow]

/-- The bits of a 32-bit state word after `setState` clears a single-bit flag. -/
theorem setState_clear_testBit (a i : Nat) (d : DDEShellSurfaceInterfacePrivate)
    (hS : d.m_state < 2 ^ 32) :
    (setState (2 ^ a) false d).m_state.testBit i
      = (d.m_state.testBit i && !decide (a = i)) := by
  rw [setState_m_state]
  simp only [Bool.false_eq_true, if_false, not32, Nat.testBit_and, Nat.testBit_xor,
    Nat.testBit_two_pow_sub_one, Nat.testBit_two_pow]
  by_cases hi : i < 32
  · simp [hi]
  · have hS' : d.m_state.testBit i = false :=
      Nat.testBit_lt_two_pow
        (lt_of_lt_of_le hS (Nat.pow_le_pow_right (by norm_num) (by omega)))
    simp [hS']

/-- The state word stays a 32-bit word under `setState` with a 32-bit flag. -/
theorem setState_lt (F : Nat) (b : Bool) (d : DDEShellSurfaceInterfacePrivate)
    (hF : F < 2 ^ 32) (hS : d.m_state < 2 ^ 32) : (setState F b d).m_state < 2 ^ 32 := by
  rw [setState_m_state]
  cases b
  · simp only [Bool.false_eq_true, if_false]
    exact lt_of_le_of_lt Nat.and_le_left hS
  · simp only [if_true]
    exact Nat.or_lt_two_pow hS hF

/-- A case computation on three distinct bit positions. -/
theorem split_bits_none (a b c i : Nat) (hab : a ≠ b) (hac : a ≠ c) (hbc : b ≠ c) (x : Bool) :
    (((x || decide (a = i)) && !decide (b = i)) && !decide (c = i))
      = if i = a then true else if i = b then false else if i = c then false else x := by
  split_ifs with h1 h2 h3
  · subst h1; simp [hab.symm, hac.symm, hab, hac]
  · subst h2; simp [hbc.symm, hbc]
  · subst h3; simp [hac, hbc]
  · have h1' : ¬ a = i := fun h => h1 h.symm
    have h2' : ¬ b = i := fun h => h2 h.symm
    have h3' : ¬ c = i := fun h => h3 h.symm
    simp [h1', h2', h3']

/-- A case computation on three distinct bit positions. -/
theorem split_bits_two (a b c i : Nat) (hab : a ≠ b) (hac : a ≠ c) (hbc : b ≠ c) (x : Bool) :
    (((x && !decide (a = i)) && !decide (c = i)) || decide (b = i))
      = if i = a then false else if i = b then true else if i = c then false else x := by
  split_ifs with h1 h2 h3
  · subst h1; simp [hab.symm, hac.symm, hab, hac]
  · subst h2; simp [hbc.symm, hbc]
  · subst h3; simp [hac, hbc]
  · have h1' : ¬ a = i := fun h => h1 h.symm
    have h2' : ¬ b = i := fun h => h2 h.symm
    have h3' : ¬ c = i := fun h => h3 h.symm
    simp [h1', h2', h3']

/-- A case computation on three distinct bit positions. -/
theorem split_bits_four (a b c i : Nat) (hab : a ≠ b) (hac : a ≠ c) (hbc : b ≠ c) (x : Bool) :
    (((x && !decide (a = i)) && !decide (b = i)) || decide (c = i))
      = if i = a then false else if i = b then false else if i = c then true else x := by
  split_ifs with h1 h2 h3
  · subst h1; simp [hab.symm, hac.symm, hab, hac]
  · subst h2; simp [hbc.symm, hbc]
  · subst h3; simp [hac, hbc]
  · have h1' : ¬ a = i := fun h => h1 h.symm
    have h2' : ¬ b = i := fun h => h2 h.symm
    have h3' : ¬ c = i := fun h => h3 h.symm
    simp [h1', h2', h3']

/-- The bits of a 32-bit state word after `sendSplitable(n)` for `n` in
`{0, 1, 2}`: the split bit of `n` is set, the two other split bits are clear,
every other bit is as before. -/
theorem sendSplitable_testBit (E : dde_shell_state) (a b c : Nat)
    (hE : E.SplitFlagsAreBits a b c) (n : Int) (hn : n = 0 ∨ n = 1 ∨ n = 2)
    (d : DDEShellSurfaceInterfacePrivate) (hS : d.m_state < 2 ^ 32) (i : Nat) :
    (DDEShellSurfaceInterface.sendSplitable E n d).m_state.testBit i
      = if i = a then decide (n = 0) else if i = b then decide (n = 1)
        else if i = c then decide (n = 2) else d.m_state.testBit i := by
  obtain ⟨hNO, hTWO, hFOUR, ha, hb, hc, hab, hac, hbc⟩ := hE
  have hpa : (2 : Nat) ^ a < 2 ^ 32 := Nat.pow_lt_pow_right (by norm_num) ha
  have hpb : (2 : Nat) ^ b < 2 ^ 32 := Nat.pow_lt_pow_right (by norm_num) hb
  have hpc : (2 : Nat) ^ c < 2 ^ 32 := Nat.pow_lt_pow_right (by norm_num) hc
  unfold DDEShellSurfaceInterface.sendSplitable
  rw [hNO, hTWO, hFOUR]
  rcases hn with hn | hn | hn
  · subst hn
    simp only [if_true]
    have h1 := setState_lt (2 ^ a) true d hpa hS
    have h2 := setState_lt (2 ^ b) false _ hpb h1
    rw [setState_clear_testBit c i _ h2, setState_clear_testBit b i _ h1,
      setState_set_testBit a i d, split_bits_none a b c i hab hac hbc]
    simp
  · subst hn
    simp only [one_ne_zero, if_false, if_true]
    have h1 := setState_lt (2 ^ a) false d hpa hS
    rw [setState_set_testBit b i _, setState_clear_testBit c i _ h1,
      setState_clear_testBit a i d hS, split_bits_two a b c i hab hac hbc]
    simp
  · subst hn
    have h20 : ¬ ((2 : Int) = 0) := by decide
    have h21 : ¬ ((2 : Int) = 1) := by decide
    simp only [h20, h21, if_false, if_true]
    have h1 := setState_lt (2 ^ a) false d hpa hS
    rw [setState_set_testBit c i _, setState_clear_testBit b i _ h1,
      setState_clear_testBit a i d hS, split_bits_four a b c i hab hac hbc]
    simp

/-- The split bits of a 32-bit state word after `sendSplitable(n)` for `n` in
`{0, 1, 2}`. -/
theorem sendSplitable_split_bits (E : dde_shell_state) (a b c : Nat)
    (hE : E.SplitFlagsAreBits a b c) (n : Int) (hn : n = 0 ∨ n = 1 ∨ n = 2)
    (d : DDEShellSurfaceInterfacePrivate) (hS : d.m_state < 2 ^ 32) :
    ((DDEShellSurfaceInterface.sendSplitable E n d).m_state &&& E.NO_SPLIT ≠ 0 ↔ n = 0)
      ∧ ((DDEShellSurfaceInterface.sendSplitable E n d).m_state &&& E.TWO_SPLIT ≠ 0 ↔ n = 1)
      ∧ ((DDEShellSurfaceInterface.sendSplitable E n d).m_state &&& E.FOUR_SPLIT ≠ 0
          ↔ n = 2) := by
  have hbits := sendSplitable_testBit E a b c hE n hn d hS
  obtain ⟨hNO, hTWO, hFOUR, -, -, -, hab, hac, hbc⟩ := hE
  rw [hNO, hTWO, hFOUR, land_two_pow_ne_zero, land_two_pow_ne_zero, land_two_pow_ne_zero,
    hbits a, hbits b, hbits c]
  simp only [if_true, hab.symm, hac.symm, hbc.symm, if_false, decide_eq_true_eq, and_self]

/-- C22: for every prior 32-bit state and every count in `{0, 1, 2}`, after
`sendSplitable(count)` exactly one of the three split flags is set, `NO_SPLIT`
for 0, `TWO_SPLIT` for 1, `FOUR_SPLIT` for 2, the other two are clear, and every
bit other than the three split bits, the fifteen other flags among them, is
unchanged.  (The three split enumerators are distinct single bits.) -/
theorem sendSplitable_exactly_one (E : dde_shell_state) (a b c : Nat)
    (hE : E.SplitFlagsAreBits a b c) (n : Int) (hn : n = 0 ∨ n = 1 ∨ n = 2)
    (d : DDEShellSurfaceInterfacePrivate) (hS : d.m_state < 2 ^ 32) :
    ((DDEShellSurfaceInterface.sendSplitable E n d).m_state &&& E.NO_SPLIT ≠ 0 ↔ n = 0)
      ∧ ((DDEShellSurfaceInterface.sendSplitable E n d).m_state &&& E.TWO_SPLIT ≠ 0 ↔ n = 1)
      ∧ ((DDEShellSurfaceInterface.sendSplitable E n d).m_state &&& E.FOUR_SPLIT ≠ 0 ↔ n = 2)
      ∧ ∀ i, i ≠ a → i ≠ b → i ≠ c →
          (DDEShellSurfaceInterface.sendSplitable E n d).m_state.testBit i
            = d.m_state.testBit i := by
  obtain ⟨h0, h1, h2⟩ := sendSplitable_split_bits E a b c hE n hn d hS
  refine ⟨h0, h1, h2, fun i hia hib hic => ?_⟩
  rw [sendSplitable_testBit E a b c hE n hn d hS i]
  simp only [hia, hib, hic, if_false]

/-- C22 (witness): `sendSplitable(1)` on a surface that is active and has the
no-split flag set. -/
theorem sendSplitable_exactly_one_witness :
    (DDE_SHELL_STATE.SplitFlagsAreBits 15 16 17 ∧ ((1 : Int) = 0 ∨ (1 : Int) = 1 ∨ (1 : Int) = 2)
      ∧ ({ m_state := 2 ^ 15 + 1 } : DDEShellSurfaceInterfacePrivate).m_state < 2 ^ 32) ∧
    (((DDEShellSurfaceInterface.sendSplitable DDE_SHELL_STATE 1 { m_state := 2 ^ 15 + 1 }).m_state
        &&& DDE_SHELL_STATE.NO_SPLIT ≠ 0 ↔ (1 : Int) = 0)
      ∧ ((DDEShellSurfaceInterface.sendSplitable DDE_SHELL_STATE 1
            { m_state := 2 ^ 15 + 1 }).m_state &&& DDE_SHELL_STATE.TWO_SPLIT ≠ 0 ↔ (1 : Int) = 1)
      ∧ ((DDEShellSurfaceInterface.sendSplitable DDE_SHELL_STATE 1
            { m_state := 2 ^ 15 + 1 }).m_state &&& DDE_SHELL_STATE.FOUR_SPLIT ≠ 0 ↔ (1 : Int) = 2)
      ∧ ∀ i, i ≠ 15 → i ≠ 16 → i ≠ 17 →
          (DDEShellSurfaceInterface.sendSplitable DDE_SHELL_STATE 1
            { m_state := 2 ^ 15 + 1 }).m_state.testBit i
            = ({ m_state := 2 ^ 15 + 1 } : DDEShellSurfaceInterfacePrivate).m_state.testBit i) :=
  have hE : DDE_SHELL_STATE.SplitFlagsAreBits 15 16 17 :=
    ⟨rfl, rfl, rfl, by decide, by decide, by decide, by decide, by decide, by decide⟩
  ⟨⟨hE, Or.inr (Or.inl rfl), by decide⟩,
    sendSplitable_exactly_one DDE_SHELL_STATE 15 16 17 hE 1 (Or.inr (Or.inl rfl))
      { m_state := 2 ^ 15 + 1 } (by decide)⟩

/-- C26 (the code at the failing input): on a surface whose two-split flag is
set (after `sendSplitable(1)`), `sendSplitable(0)` sets `NO_SPLIT` before it
clears `TWO_SPLIT`: its first `state_changed` event carries both flags. -/
theorem sendSplitable_zero_sets_before_clearing :
    (DDEShellSurfaceInterface.sendSplitable DDE_SHELL_STATE 1 fresh).sent
        = [ShellSurfaceEvent.state_changed DDE_SHELL_STATE.TWO_SPLIT]
      ∧ (DDEShellSurfaceInterface.sendSplitable DDE_SHELL_STATE 0
          (DDEShellSurfaceInterface.sendSplitable DDE_SHELL_STATE 1 fresh)).sent
        = [ShellSurfaceEvent.state_changed DDE_SHELL_STATE.TWO_SPLIT,
           ShellSurfaceEvent.state_changed
             (DDE_SHELL_STATE.NO_SPLIT ||| DDE_SHELL_STATE.TWO_SPLIT),
           ShellSurfaceEvent.state_changed DDE_SHELL_STATE.NO_SPLIT]
      ∧ (DDE_SHELL_STATE.NO_SPLIT ||| DDE_SHELL_STATE.TWO_SPLIT) &&& DDE_SHELL_STATE.NO_SPLIT ≠ 0
      ∧ (DDE_SHELL_STATE.NO_SPLIT ||| DDE_SHELL_STATE.TWO_SPLIT) &&& DDE_SHELL_STATE.TWO_SPLIT
          ≠ 0 := by
  decide

end KWaylandServer

namespace KWayland.Client

open KWaylandServer
open KWaylandServer.DDEShellSurfaceInterfacePrivate (setState send_state_changed send_geometry)
open DDEShellSurface DDEShellSurface.Private

/-- The value of `splitable` after a conditional store into it. -/
theorem splitable_store_value (c : Prop) [Decidable c] (n : Int) (q : Private) :
    (if c then { q with splitable := n } else q).splitable
      = if c then n else q.splitable := by
  split <;> rfl

/-- What `splitable` holds after a `state_changed` event: 0 when the no-split
flag is set, else 2 when the four-split flag is set, else 1 when the two-split
flag is set, else what it held before. -/
theorem stateChangedCallback_splitable (E : dde_shell_state) (state : Nat) (p : Private) :
    (stateChangedCallback E state p).splitable
      = (if state &&& E.NO_SPLIT ≠ 0 then 0
         else if state &&& E.FOUR_SPLIT ≠ 0 then 2
         else if state &&& E.TWO_SPLIT ≠ 0 then 1
         else p.splitable) := by
  unfold stateChangedCallback
  simp only [splitable_store_value]
  simp only [setActive_eq, setOnAllDesktops_eq, setFullscreen_eq, setKeepAbove_eq, setKeepBelow_eq, setMaximized_eq, setMinimized_eq, setCloseable_eq, setFullscreenable_eq, setMaximizeable_eq, setMinimizeable_eq, setMovable_eq, setResizable_eq, setAcceptFocus_eq, setModal_eq]

/-- After a `state_changed` event `splitable` agrees with the split flags of the
event's state word. -/
theorem stateChangedCallback_splitAgrees (E : dde_shell_state) (state : Nat) (p : Private) :
    SplitAgrees E state (stateChangedCallback E state p) := by
  unfold SplitAgrees
  rw [stateChangedCallback_splitable]
  split_ifs <;> rfl

/-- A geometry event leaves `splitable` as it was. -/
theorem geometryCallback_splitAgrees (E : dde_shell_state) (state : Nat) (x y w h : Int)
    (p : Private) (hp : SplitAgrees E state p) :
    SplitAgrees E state (geometryCallback x y w h p) := by
  unfold geometryCallback
  by_cases hg : QRect.ofXYWH x y w h = p.geometry
  · simp only [hg, if_true]
    exact hp
  · simp only [hg, if_false]
    exact hp

/-- The server's `setState` keeps the client's `splitable` in step. -/
theorem setState_keeps_split (E : dde_shell_state) (F : Nat) (b : Bool)
    (d : DDEShellSurfaceInterfacePrivate)
    (hd : SplitAgrees E d.m_state (deliver E d.sent fresh)) :
    SplitAgrees E (setState F b d).m_state (deliver E (setState F b d).sent fresh) := by
  unfold setState
  by_cases h : (if b then d.m_state ||| F else d.m_state &&& not32 F) = d.m_state
  · simp only [h, if_true]
    exact hd
  · simp only [h, if_false, send_state_changed, deliver_append_singleton, s_listener]
    exact stateChangedCallback_splitAgrees E _ _

/-- The server's `sendGeometry` keeps the client's `splitable` in step. -/
theorem sendGeometry_keeps_split (E : dde_shell_state) (r : QRect)
    (d : DDEShellSurfaceInterfacePrivate)
    (hd : SplitAgrees E d.m_state (deliver E d.sent fresh)) :
    SplitAgrees E (DDEShellSurfaceInterfacePrivate.sendGeometry r d).m_state
      (deliver E (DDEShellSurfaceInterfacePrivate.sendGeometry r d).sent fresh) := by
  unfold DDEShellSurfaceInterfacePrivate.sendGeometry
  by_cases h : d.m_geometry = r
  · simp only [h, if_true]
    exact hd
  · by_cases hv : r.isValid = true
    · simp only [h, hv, if_false, send_geometry, deliver_append_singleton, s_listener,
        Bool.not_true, Bool.false_eq_true]
      exact geometryCallback_splitAgrees E _ _ _ _ _ _ hd
    · simp only [Bool.not_eq_true] at hv
      simp only [h, hv, if_false, Bool.not_false, if_true]
      exact hd

/-- Every call of the downward interface keeps the client's `splitable` in
step. -/
theorem apply_keeps_split (E : dde_shell_state) (c : ServerCall)
    (d : DDEShellSurfaceInterfacePrivate)
    (hd : SplitAgrees E d.m_state (deliver E d.sent fresh)) :
    SplitAgrees E (ServerCall.apply E c d).m_state
      (deliver E (ServerCall.apply E c d).sent fresh) := by
  cases c with
  | sendGeometry geom => exact sendGeometry_keeps_split E geom d hd
  | sendSplitable n =>
    simp only [ServerCall.apply, DDEShellSurfaceInterface.sendSplitable]
    split_ifs <;>
      first
        | exact setState_keeps_split E _ _ _
            (setState_keeps_split E _ _ _ (setState_keeps_split E _ _ _ hd))
        | exact setState_keeps_split E _ _ _ hd
  | setActive set => exact setState_keeps_split E _ set d hd
  | setFullscreen set => exact setState_keeps_split E _ set d hd
  | setKeepAbove set => exact setState_keeps_split E _ set d hd
  | setKeepBelow set => exact setState_keeps_split E _ set d hd
  | setOnAllDesktops set => exact setState_keeps_split E _ set d hd
  | setMaximized set => exact setState_keeps_split E _ set d hd
  | setMinimized set => exact setState_keeps_split E _ set d hd
  | setCloseable set => exact setState_keeps_split E _ set d hd
  | setFullscreenable set => exact setState_keeps_split E _ set d hd
  | setMaximizeable set => exact setState_keeps_split E _ set d hd
  | setMinimizeable set => exact setState_keeps_split E _ set d hd
  | setMovable set => exact setState_keeps_split E _ set d hd
  | setResizable set => exact setState_keeps_split E _ set d hd
  | setAcceptFocus set => exact setState_keeps_split E _ set d hd
  | setModal set => exact setState_keeps_split E _ set d hd

/-- Every sequence of calls of the downward interface keeps the client's
`splitable` in step. -/
theorem run_keeps_split (E : dde_shell_state) (calls : List ServerCall)
    (d : DDEShellSurfaceInterfacePrivate)
    (hd : SplitAgrees E d.m_state (deliver E d.sent fresh)) :
    SplitAgrees E (ServerCall.run E calls d).m_state
      (deliver E (ServerCall.run E calls d).sent fresh) := by
  induction calls generalizing d with
  | nil => exact hd
  | cons c rest ih => exact ih (ServerCall.apply E c d) (apply_keeps_split E c d hd)

/-- The state word stays a 32-bit word under `sendSplitable`. -/
theorem sendSplitable_lt (E : dde_shell_state) (a b c : Nat) (hE : E.SplitFlagsAreBits a b c)
    (n : Int) (d : DDEShellSurfaceInterfacePrivate) (hS : d.m_state < 2 ^ 32) :
    (DDEShellSurfaceInterface.sendSplitable E n d).m_state < 2 ^ 32 := by
  obtain ⟨hNO, hTWO, hFOUR, ha, hb, hc, -, -, -⟩ := hE
  have hpa : E.NO_SPLIT < 2 ^ 32 := by rw [hNO]; exact Nat.pow_lt_pow_right (by norm_num) ha
  have hpb : E.TWO_SPLIT < 2 ^ 32 := by rw [hTWO]; exact Nat.pow_lt_pow_right (by norm_num) hb
  have hpc : E.FOUR_SPLIT < 2 ^ 32 := by rw [hFOUR]; exact Nat.pow_lt_pow_right (by norm_num) hc
  unfold DDEShellSurfaceInterface.sendSplitable
  split_ifs <;>
    first
      | exact setState_lt _ _ _ (by assumption)
          (setState_lt _ _ _ (by assumption) (setState_lt _ _ _ (by assumption) hS))
      | exact setState_lt _ _ _ (by assumption) hS

/-- The state word stays a 32-bit word under a sequence of `sendSplitable`
calls. -/
theorem run_sendSplitable_lt (E : dde_shell_state) (a b c : Nat)
    (hE : E.SplitFlagsAreBits a b c) (ns : List Int) (d : DDEShellSurfaceInterfacePrivate)
    (hS : d.m_state < 2 ^ 32) :
    (ServerCall.run E (ns.map ServerCall.sendSplitable) d).m_state < 2 ^ 32 := by
  induction ns generalizing d with
  | nil => exact hS
  | cons n rest ih => exact ih _ (sendSplitable_lt E a b c hE n d hS)

/-- C27: split-flag round trip.  Starting from a freshly created server shell
surface and client mirror, after any non-empty sequence of `sendSplitable`
calls with arguments in `{0, 1, 2}`, every `state_changed` event delivered in
order, the client's `getSplitable()` equals the argument of the last call and
`isSplitable()` is true exactly when that argument is non-zero.  (The three
split enumerators are distinct single bits.) -/
theorem splitable_round_trip (E : dde_shell_state) (a b c : Nat)
    (hE : E.SplitFlagsAreBits a b c) (ns : List Int) (hne : ns ≠ [])
    (hall : ∀ n ∈ ns, n = 0 ∨ n = 1 ∨ n = 2) :
    getSplitable (deliver E
        (ServerCall.run E (ns.map ServerCall.sendSplitable)
          DDEShellSurfaceInterfacePrivate.fresh).sent fresh)
        = ns.getLast hne
      ∧ (isSplitable (deliver E
          (ServerCall.run E (ns.map ServerCall.sendSplitable)
            DDEShellSurfaceInterfacePrivate.fresh).sent fresh) = true
          ↔ ns.getLast hne ≠ 0) := by
  have h0 : SplitAgrees E DDEShellSurfaceInterfacePrivate.fresh.m_state
      (deliver E DDEShellSurfaceInterfacePrivate.fresh.sent fresh) := by
    simp [SplitAgrees, DDEShellSurfaceInterfacePrivate.fresh, deliver, fresh]
  have hagree := run_keeps_split E (ns.map ServerCall.sendSplitable)
    DDEShellSurfaceInterfacePrivate.fresh h0
  have hlast : ns.getLast hne = 0 ∨ ns.getLast hne = 1 ∨ ns.getLast hne = 2 :=
    hall _ (List.getLast_mem hne)
  have hsplit : ns = ns.dropLast ++ [ns.getLast hne] :=
    (List.dropLast_append_getLast hne).symm
  generalize ns.getLast hne = last at hlast hsplit ⊢
  have hrun : ServerCall.run E (ns.map ServerCall.sendSplitable)
      DDEShellSurfaceInterfacePrivate.fresh
      = DDEShellSurfaceInterface.sendSplitable E last
          (ServerCall.run E (ns.dropLast.map ServerCall.sendSplitable)
            DDEShellSurfaceInterfacePrivate.fresh) := by
    conv_lhs => rw [hsplit]
    simp only [ServerCall.run, List.map_append, List.map_cons, List.map_nil, List.foldl_append,
      List.foldl_cons, List.foldl_nil, ServerCall.apply]
  have hlt := run_sendSplitable_lt E a b c hE ns.dropLast DDEShellSurfaceInterfacePrivate.fresh
    (by decide)
  obtain ⟨hb0, hb1, hb2⟩ := sendSplitable_split_bits E a b c hE last hlast _ hlt
  rw [← hrun] at hb0 hb1 hb2
  unfold SplitAgrees at hagree
  generalize deliver E (ServerCall.run E (ns.map ServerCall.sendSplitable)
    DDEShellSurfaceInterfacePrivate.fresh).sent fresh = cl at hagree ⊢
  generalize (ServerCall.run E (ns.map ServerCall.sendSplitable)
    DDEShellSurfaceInterfacePrivate.fresh).m_state = st at hagree hb0 hb1 hb2
  have hval : cl.splitable = last := by
    rcases hlast with h | h | h
    · have hNO : st &&& E.NO_SPLIT ≠ 0 := hb0.2 h
      rw [hagree, if_pos hNO, h]
    · have hNO : ¬ st &&& E.NO_SPLIT ≠ 0 := fun hh => by
        have := hb0.1 hh; rw [h] at this; exact absurd this (by decide)
      have hFOUR : ¬ st &&& E.FOUR_SPLIT ≠ 0 := fun hh => by
        have := hb2.1 hh; rw [h] at this; exact absurd this (by decide)
      have hTWO : st &&& E.TWO_SPLIT ≠ 0 := hb1.2 h
      rw [hagree, if_neg hNO, if_neg hFOUR, if_pos hTWO, h]
    · have hNO : ¬ st &&& E.NO_SPLIT ≠ 0 := fun hh => by
        have := hb0.1 hh; rw [h] at this; exact absurd this (by decide)
      have hFOUR : st &&& E.FOUR_SPLIT ≠ 0 := hb2.2 h
      rw [hagree, if_neg hNO, if_pos hFOUR, h]
  refine ⟨hval, ?_⟩
  unfold isSplitable
  rw [hval]
  by_cases hz : last = 0
  · simp [hz]
  · simp [hz]

/-- C27 (witness): the calls `sendSplitable(1); sendSplitable(2);
sendSplitable(0); sendSplitable(2)`. -/
theorem splitable_round_trip_witness :
    (DDE_SHELL_STATE.SplitFlagsAreBits 15 16 17 ∧ ([1, 2, 0, 2] : List Int) ≠ []
      ∧ ∀ n ∈ ([1, 2, 0, 2] : List Int), n = 0 ∨ n = 1 ∨ n = 2) ∧
    getSplitable (deliver DDE_SHELL_STATE
        (ServerCall.run DDE_SHELL_STATE (([1, 2, 0, 2] : List Int).map ServerCall.sendSplitable)
          DDEShellSurfaceInterfacePrivate.fresh).sent fresh)
      = ([1, 2, 0, 2] : List Int).getLast (by decide) :=
  have hE : DDE_SHELL_STATE.SplitFlagsAreBits 15 16 17 :=
    ⟨rfl, rfl, rfl, by decide, by decide, by decide, by decide, by decide, by decide⟩
  have hall : ∀ n ∈ ([1, 2, 0, 2] : List Int), n = 0 ∨ n = 1 ∨ n = 2 := by decide
  ⟨⟨hE, by decide, hall⟩,
    (splitable_round_trip DDE_SHELL_STATE 15 16 17 hE [1, 2, 0, 2] (by decide) hall).1⟩

end KWayland.Client

namespace KWaylandServer

open DDEShellSurfaceInterfacePrivate ClientManagementInterface

/-- The first element of an array of two native `int`. -/
theorem arrayElement_zero_of_two (x y : Int) :
    arrayElement (int32Bytes x ++ int32Bytes y) 0 = Except.ok (int32Bytes x) := by
  have hlen : 4 * (0 + 1) ≤ (int32Bytes x ++ int32Bytes y).length := by
    simp only [List.length_append, int32Bytes_length]; decide
  simp only [arrayElement, hlen, if_true, Nat.mul_zero, List.drop_zero,
    List.take_left' (int32Bytes_length x)]

/-- The second element of an array of two native `int`. -/
theorem arrayElement_one_of_two (x y : Int) :
    arrayElement (int32Bytes x ++ int32Bytes y) 1 = Except.ok (int32Bytes y) := by
  have hlen : 4 * (1 + 1) ≤ (int32Bytes x ++ int32Bytes y).length := by
    simp only [List.length_append, int32Bytes_length]; decide
  have hy : (int32Bytes y).take 4 = int32Bytes y := List.take_of_length_le (by
    rw [int32Bytes_length])
  simp only [arrayElement, hlen, if_true, Nat.mul_one,
    List.drop_left' (int32Bytes_length x), hy]

/-- C25: split request round trip.  For every `splitType` and `mode` (that a
native `int` holds), the request the client builds in
`requestSplitWindow(splitType, mode)`, handled by the server, yields exactly one
`splitWindowRequested(splitType, mode)` notice with the same two integers and no
other notice, and leaves the stored state word, the geometry and the events sent
as they were.  (The quick-tile property id is a non-zero word that shares no bit
with the two other ids, as distinct single bits do.) -/
theorem split_request_round_trip (E : dde_shell_state) (P : dde_shell_property)
    (splitType mode : Int) (d : DDEShellSurfaceInterfacePrivate)
    (hs : IsInt32 splitType) (hm : IsInt32 mode) (hq : P.QUICKTILE ≠ 0)
    (hn : P.QUICKTILE &&& P.NOTITLEBAR = 0) (hr : P.QUICKTILE &&& P.WINDOWRADIUS = 0) :
    ∃ d1, dispatch E P (KWayland.Client.DDEShellSurface.requestSplitWindow P splitType mode) d
        = Except.ok d1
      ∧ d1.emitted = d.emitted ++ [ShellSurfaceSignal.splitWindowRequested splitType mode]
      ∧ d1.m_state = d.m_state ∧ d1.m_geometry = d.m_geometry ∧ d1.sent = d.sent := by
  have hqq : P.QUICKTILE &&& P.QUICKTILE ≠ 0 := by rw [Nat.and_self]; exact hq
  refine ⟨{ d with emitted := d.emitted
      ++ [ShellSurfaceSignal.splitWindowRequested splitType mode] }, ?_, rfl, rfl, rfl, rfl⟩
  simp only [KWayland.Client.DDEShellSurface.requestSplitWindow, dispatch,
    dde_shell_surface_set_property, noTitleBarClause, windowRadiusClause, quickTileClause,
    hn, hr, hqq, ne_eq, not_true_eq_false, not_false_eq_true, if_true, if_false,
    arrayElement_zero_of_two, arrayElement_one_of_two, int32OfBytes_int32Bytes _ hs,
    int32OfBytes_int32Bytes _ hm]

/-- C25 (witness): the request `requestSplitWindow(Left, Two)`, both 1, handled
by a fresh shell surface. -/
theorem split_request_round_trip_witness :
    (IsInt32 1 ∧ IsInt32 1 ∧ DDE_SHELL_PROPERTY.QUICKTILE ≠ 0
      ∧ DDE_SHELL_PROPERTY.QUICKTILE &&& DDE_SHELL_PROPERTY.NOTITLEBAR = 0
      ∧ DDE_SHELL_PROPERTY.QUICKTILE &&& DDE_SHELL_PROPERTY.WINDOWRADIUS = 0) ∧
    ∃ d1, dispatch DDE_SHELL_STATE DDE_SHELL_PROPERTY
          (KWayland.Client.DDEShellSurface.requestSplitWindow DDE_SHELL_PROPERTY 1 1) fresh
        = Except.ok d1
      ∧ d1.emitted = fresh.emitted ++ [ShellSurfaceSignal.splitWindowRequested 1 1]
      ∧ d1.m_state = fresh.m_state ∧ d1.m_geometry = fresh.m_geometry
      ∧ d1.sent = fresh.sent :=
  ⟨⟨⟨by decide, by decide⟩, ⟨by decide, by decide⟩, by decide, by decide, by decide⟩,
    split_request_round_trip DDE_SHELL_STATE DDE_SHELL_PROPERTY 1 1 fresh
      ⟨by decide, by decide⟩ ⟨by decide, by decide⟩ (by decide) (by decide) (by decide)⟩

open DDEShellInterfacePrivate

/-- C23: creating a shell surface for a surface that already has one is
rejected: the `get_shell_surface` request posts one protocol error on the
requesting resource, creates no shell surface object, emits no
`shellSurfaceCreated` notice and leaves the registry of live shell surfaces,
with the state of the existing shell surface in it, as it was. -/
theorem duplicate_shell_surface_rejected (resource id s : Nat)
    (q : DDEShellInterfacePrivate) (existing : DDEShellSurfaceInterface)
    (h : DDEShellSurfaceInterface.get q.s_shellSurfaces s = some existing) :
    (dde_shell_get_shell_surface resource id (some s) q).errors
        = q.errors ++ [(resource, 0, "dde_shell_surface already exists")]
      ∧ (dde_shell_get_shell_surface resource id (some s) q).s_shellSurfaces
        = q.s_shellSurfaces
      ∧ (dde_shell_get_shell_surface resource id (some s) q).emitted = q.emitted
      ∧ DDEShellSurfaceInterface.get
          (dde_shell_get_shell_surface resource id (some s) q).s_shellSurfaces s
        = some existing := by
  simp only [dde_shell_get_shell_surface, h, Option.isSome_some, if_true, and_self]

/-- C23 (witness): a second `get_shell_surface` for the surface 5, which has a
shell surface since the first. -/
theorem duplicate_shell_surface_rejected_witness :
    (DDEShellSurfaceInterface.get
        (dde_shell_get_shell_surface 1 10 (some 5) {}).s_shellSurfaces 5
      = some { surface := 5, resource := 10 }) ∧
    (dde_shell_get_shell_surface 2 11 (some 5)
        (dde_shell_get_shell_surface 1 10 (some 5) {})).errors
      = (dde_shell_get_shell_surface 1 10 (some 5) {}).errors
        ++ [(2, 0, "dde_shell_surface already exists")]
    ∧ (dde_shell_get_shell_surface 2 11 (some 5)
        (dde_shell_get_shell_surface 1 10 (some 5) {})).s_shellSurfaces
      = (dde_shell_get_shell_surface 1 10 (some 5) {}).s_shellSurfaces :=
  have h : DDEShellSurfaceInterface.get
      (dde_shell_get_shell_surface 1 10 (some 5) {}).s_shellSurfaces 5
      = some { surface := 5, resource := 10 } := by decide
  ⟨h, (duplicate_shell_surface_rejected 2 11 5 (dde_shell_get_shell_surface 1 10 (some 5) {})
      { surface := 5, resource := 10 } h).1,
    (duplicate_shell_surface_rejected 2 11 5 (dde_shell_get_shell_surface 1 10 (some 5) {})
      { surface := 5, resource := 10 } h).2.1⟩

end KWaylandServer

namespace KWayland.Client

open KWaylandServer (Fault ClientManagementEvent ClientManagementInterfacePrivate)

/-- For a native surface that has a `Surface` wrapper, a second
`createShellSurface` returns the object of the first and changes nothing. -/
theorem createShellSurface_wrapped_again (surfaceGet : Nat → Option Nat) (surface k : Nat)
    (sh : DDEShell) (hk : surfaceGet surface = some k) :
    DDEShell.createShellSurface surfaceGet surface
        (DDEShell.createShellSurface surfaceGet surface sh).1
      = ((DDEShell.createShellSurface surfaceGet surface sh).1,
          (DDEShell.createShellSurface surfaceGet surface sh).2) := by
  unfold DDEShell.createShellSurface
  simp only [hk]
  cases hfind : DDEShellSurface.Private.get sh.s_ddeShellSurfaces (some k) with
  | some s => simp only [hfind]
  | none =>
    have hnew : DDEShellSurface.Private.get
        (sh.s_ddeShellSurfaces ++ [({ parentSurface := some k } : DDEShellSurface.Private)])
        (some k) = some sh.s_ddeShellSurfaces.length := by
      simp only [DDEShellSurface.Private.get] at hfind ⊢
      rw [List.findIdx?_append, hfind]
      simp [List.findIdx?_cons]
    simp only [DDEShell.createNew, hnew]

/-- C24 (the code at the failing input): for a native surface without `Surface`
wrapper (`Surface::get` answers null), two `createShellSurface` calls create two
objects, at positions 0 and 1 of the vector, and send two `get_shell_surface`
requests. -/
theorem createShellSurface_unwrapped_twice :
    (DDEShell.createShellSurface (fun _ => none) 5 {}).2 = 0
      ∧ (DDEShell.createShellSurface (fun _ => none) 5
          (DDEShell.createShellSurface (fun _ => none) 5 {}).1).2 = 1
      ∧ (DDEShell.createShellSurface (fun _ => none) 5
          (DDEShell.createShellSurface (fun _ => none) 5 {}).1).1.requests
        = [DDEShellRequest.get_shell_surface 5, DDEShellRequest.get_shell_surface 5]
      ∧ (DDEShell.createShellSurface (fun _ => none) 5
          (DDEShell.createShellSurface (fun _ => none) 5 {}).1).1.s_ddeShellSurfaces.length
        = 2 := by
  decide

/-- C30: an empty directory cannot reach the client.  The server's encoding of
a directory with count 0 is `window_states(0, empty buffer)`; the client's
handler rejects it: its cached window list stays what it was, a non-empty cache
non-empty, and no `windowStatesChanged` is emitted. -/
theorem empty_directory_not_delivered (d : ClientManagementInterfacePrivate)
    (p : ClientManagement.Private) (resource : Nat) (h0 : d.m_windowCount = 0) :
    ClientManagementInterfacePrivate.sendWindowStates resource d
        = Except.ok { d with sent := d.sent
            ++ [(resource, ClientManagementEvent.window_states 0 [])] }
      ∧ ∃ p1, ClientManagement.Private.s_clientManagementListener
            (ClientManagementEvent.window_states 0 []) p = Except.ok p1
          ∧ p1.m_windowStates = p.m_windowStates
          ∧ p1.emitted = p.emitted
          ∧ (p.m_windowStates ≠ [] → p1.m_windowStates ≠ []) := by
  constructor
  · simp only [ClientManagementInterfacePrivate.sendWindowStates,
      ClientManagementInterfacePrivate.fillArray, h0, Nat.zero_le, if_true, List.take_zero,
      List.flatMap_nil]
  · have hrej : ¬ (0 < ([] : List Nat).length
        ∧ ([] : List Nat).length % KWaylandServer.ClientManagementInterface.sizeofWindowState = 0) := by
      simp
    exact ⟨_, addWindowStates_reject 0 [] p hrej, rfl, rfl, fun h => h⟩

/-- C30 (witness): the directory before its first update, count 0, and a client
whose cache holds one snapshot. -/
theorem empty_directory_not_delivered_witness :
    ((KWaylandServer.ClientManagementInterface.initial [7]).m_windowCount = 0) ∧
    ∃ p1, ClientManagement.Private.s_clientManagementListener
          (ClientManagementEvent.window_states 0 [])
          { m_windowsCount := 1,
            m_windowStates := [KWaylandServer.ClientManagementInterface.termSnapshot] }
        = Except.ok p1
      ∧ p1.m_windowStates
          = ({ m_windowsCount := 1,
               m_windowStates := [KWaylandServer.ClientManagementInterface.termSnapshot] } :
              ClientManagement.Private).m_windowStates
      ∧ p1.emitted
          = ({ m_windowsCount := 1,
               m_windowStates := [KWaylandServer.ClientManagementInterface.termSnapshot] } :
              ClientManagement.Private).emitted
      ∧ (({ m_windowsCount := 1,
            m_windowStates := [KWaylandServer.ClientManagementInterface.termSnapshot] } :
            ClientManagement.Private).m_windowStates ≠ [] → p1.m_windowStates ≠ []) :=
  ⟨rfl, (empty_directory_not_delivered (KWaylandServer.ClientManagementInterface.initial [7])
    { m_windowsCount := 1,
      m_windowStates := [KWaylandServer.ClientManagementInterface.termSnapshot] } 7 rfl).2⟩

end KWayland.Client

namespace KWaylandServer

open DDEShellSurfaceInterfacePrivate

/-- C29: a degenerate rectangle passed to `sendGeometry` replaces the stored
geometry although no event is sent.  For every valid rectangle `R` and
degenerate rectangle `D`, in `sendGeometry(R); sendGeometry(D); sendGeometry(R)`
the second call sends nothing and stores `D`, and the third call sends a
geometry event for `R`; when the first call sent one too, the two consecutive
geometry events carry the same rectangle. -/
theorem sendGeometry_degenerate_resets (R D : QRect) (d : DDEShellSurfaceInterfacePrivate)
    (hw : 0 < R.width) (hh : 0 < R.height) (hdeg : D.width ≤ 0 ∨ D.height ≤ 0) :
    (sendGeometry D (sendGeometry R d)).sent = (sendGeometry R d).sent
      ∧ (sendGeometry D (sendGeometry R d)).m_geometry = D
      ∧ (sendGeometry R (sendGeometry D (sendGeometry R d))).sent
          = (sendGeometry R d).sent ++ [ShellSurfaceEvent.geometry R.x R.y R.width R.height]
      ∧ (d.m_geometry ≠ R →
          (sendGeometry R (sendGeometry D (sendGeometry R d))).sent
            = d.sent ++ [ShellSurfaceEvent.geometry R.x R.y R.width R.height,
                ShellSurfaceEvent.geometry R.x R.y R.width R.height]) := by
  have hvR : R.isValid = true := (QRect_isValid_iff R).2 ⟨hw, hh⟩
  have hvD : D.isValid = false := by
    cases hv : D.isValid
    · rfl
    · have := (QRect_isValid_iff D).1 hv
      omega
  have hRD : R ≠ D := by
    intro h; rw [h, hvD] at hvR; exact absurd hvR (by decide)
  have h1g : (sendGeometry R d).m_geometry = R := by
    unfold sendGeometry
    by_cases h : d.m_geometry = R
    · simp only [h, if_true]
    · simp only [h, if_false, hvR, Bool.not_true, Bool.false_eq_true, send_geometry]
  have h2 : sendGeometry D (sendGeometry R d)
      = { sendGeometry R d with m_geometry := D } := by
    generalize sendGeometry R d = d1 at h1g ⊢
    unfold sendGeometry
    have hne : ¬ d1.m_geometry = D := by rw [h1g]; exact hRD
    simp only [hne, if_false, hvD, Bool.not_false, if_true]
  have h3 : (sendGeometry R (sendGeometry D (sendGeometry R d))).sent
      = (sendGeometry R d).sent ++ [ShellSurfaceEvent.geometry R.x R.y R.width R.height] := by
    rw [h2]
    generalize sendGeometry R d = d1
    unfold sendGeometry
    have hne : ¬ D = R := fun h => hRD h.symm
    simp only [hne, if_false, hvR, Bool.not_true, Bool.false_eq_true, send_geometry]
  refine ⟨by rw [h2], by rw [h2], h3, fun hne => ?_⟩
  rw [h3]
  have h1s : (sendGeometry R d).sent
      = d.sent ++ [ShellSurfaceEvent.geometry R.x R.y R.width R.height] := by
    unfold sendGeometry
    simp only [hne, if_false, hvR, Bool.not_true, Bool.false_eq_true, send_geometry]
  rw [h1s]
  simp only [List.append_assoc, List.singleton_append]

/-- C29 (witness): the rectangle `(0, 0, 800, 600)`, then one of width 0, then
the first again, on a fresh shell surface. -/
theorem sendGeometry_degenerate_resets_witness :
    (0 < (QRect.ofXYWH 0 0 800 600).width ∧ 0 < (QRect.ofXYWH 0 0 800 600).height
      ∧ ((QRect.ofXYWH 5 5 0 10).width ≤ 0 ∨ (QRect.ofXYWH 5 5 0 10).height ≤ 0)) ∧
    (sendGeometry (QRect.ofXYWH 0 0 800 600)
        (sendGeometry (QRect.ofXYWH 5 5 0 10)
          (sendGeometry (QRect.ofXYWH 0 0 800 600) fresh))).sent
      = (sendGeometry (QRect.ofXYWH 0 0 800 600) fresh).sent
        ++ [ShellSurfaceEvent.geometry (QRect.ofXYWH 0 0 800 600).x (QRect.ofXYWH 0 0 800 600).y
            (QRect.ofXYWH 0 0 800 600).width (QRect.ofXYWH 0 0 800 600).height] :=
  ⟨⟨by decide, by decide, Or.inl (by decide)⟩,
    (sendGeometry_degenerate_resets (QRect.ofXYWH 0 0 800 600) (QRect.ofXYWH 5 5 0 10) fresh
      (by decide) (by decide) (Or.inl (by decide))).2.2.1⟩

/-- The server's `setState` only appends to the events sent. -/
theorem setState_sent_append (F : Nat) (b : Bool) (d : DDEShellSurfaceInterfacePrivate) :
    ∃ l, (setState F b d).sent = d.sent ++ l := by
  unfold setState
  by_cases h : (if b then d.m_state ||| F else d.m_state &&& not32 F) = d.m_state
  · exact ⟨[], by simp only [h, if_true, List.append_nil]⟩
  · exact ⟨[ShellSurfaceEvent.state_changed
      (if b then d.m_state ||| F else d.m_state &&& not32 F)],
      by simp only [h, if_false, send_state_changed]⟩

/-- Whatever single bits the split enumerators are: on a 32-bit state whose
two-split flag is set and whose no-split flag is clear, the first event of
`sendSplitable(0)` carries both the no-split and the two-split flag. -/
theorem sendSplitable_zero_first_event (E : dde_shell_state) (a b c : Nat)
    (hE : E.SplitFlagsAreBits a b c) (d : DDEShellSurfaceInterfacePrivate)
    (hNo : d.m_state.testBit a = false) (hTwo : d.m_state.testBit b = true) :
    ∃ rest, (DDEShellSurfaceInterface.sendSplitable E 0 d).sent
        = d.sent ++ ShellSurfaceEvent.state_changed (d.m_state ||| E.NO_SPLIT) :: rest
      ∧ (d.m_state ||| E.NO_SPLIT) &&& E.NO_SPLIT ≠ 0
      ∧ (d.m_state ||| E.NO_SPLIT) &&& E.TWO_SPLIT ≠ 0 := by
  obtain ⟨hNO, hTWO, -, -, -, -, -, -, -⟩ := hE
  have hchg : ¬ (d.m_state ||| E.NO_SPLIT = d.m_state) := by
    intro heq
    have hbit := congrArg (fun x => Nat.testBit x a) heq
    simp only [hNO, Nat.testBit_or, Nat.testBit_two_pow_self, Bool.or_true, hNo] at hbit
    exact absurd hbit (by decide)
  have h1 : (setState E.NO_SPLIT true d).sent
      = d.sent ++ [ShellSurfaceEvent.state_changed (d.m_state ||| E.NO_SPLIT)] := by
    unfold setState
    simp only [if_true, hchg, if_false, send_state_changed]
  obtain ⟨l2, h2⟩ := setState_sent_append E.TWO_SPLIT false (setState E.NO_SPLIT true d)
  obtain ⟨l3, h3⟩ := setState_sent_append E.FOUR_SPLIT false
    (setState E.TWO_SPLIT false (setState E.NO_SPLIT true d))
  refine ⟨l2 ++ l3, ?_, ?_, ?_⟩
  · unfold DDEShellSurfaceInterface.sendSplitable
    simp only [if_true]
    rw [h3, h2, h1]
    simp only [List.append_assoc, List.singleton_append, List.cons_append, List.nil_append]
  · rw [hNO, land_two_pow_ne_zero, Nat.testBit_or, Nat.testBit_two_pow_self, Bool.or_true]
  · rw [hTWO, land_two_pow_ne_zero, Nat.testBit_or, hTwo, Bool.true_or]

end KWaylandServer
